import Mathlib

/-! EngineExperiments: the Vulkan backend, embedded in Lean

Shallow embedding of `src/engine/backend/vulkan/renderer.cpp` (device selection, the
swapchain request, the bring-up stages of `create_with_window`, `render` and the
destructor) together with the helpers it calls (`src/math/math.h`,
`src/datastructures/vector.h`, `src/datastructures/optional.h`) and the frame loop of
`src/main.cpp`.

Conventions of the embedding.

* `uint32_t`, `int` and the Vulkan enums are natural numbers or integers; where a 32 bit
  sum can wrap, the reduction modulo 2^32 is written out.  The enum constants carry the
  values of the Vulkan headers.
* A `datastructures::vector<T>` that is only read is represented by the list of its
  elements at the indices `0 .. m_size - 1`; a vector that the backend resizes and writes
  is the structure `vector` with its storage.
* A physical device handle is represented by the record of everything the driver
  reports for that handle through the `vkGetPhysicalDevice*` and `vkEnumerate*` queries.
* An operation whose C++ behaviour is undefined at some input returns an explicit
  marker there instead of a value.
* Stateful code passes the members of the backend explicitly and returns the native
  calls it issues, in order; what the platform answers to those calls is a parameter.
-/

namespace EngineExperiments

/-! ## Constants of the Vulkan headers and of `<limits>` -/

/-- The value `std::numeric_limits<uint32_t>::max()`. -/
def UINT32_MAX : Nat := 4294967295

/-- The enumerator `VK_FORMAT_R8G8B8A8_UNORM`. -/
def VK_FORMAT_R8G8B8A8_UNORM : Nat := 37
/-- The enumerator `VK_FORMAT_B8G8R8A8_UNORM`. -/
def VK_FORMAT_B8G8R8A8_UNORM : Nat := 44
/-- The enumerator `VK_FORMAT_B8G8R8A8_SRGB`. -/
def VK_FORMAT_B8G8R8A8_SRGB : Nat := 50
/-- The enumerator `VK_COLOR_SPACE_SRGB_NONLINEAR_KHR`. -/
def VK_COLOR_SPACE_SRGB_NONLINEAR_KHR : Nat := 0
/-- The enumerator `VK_COLOR_SPACE_DISPLAY_P3_NONLINEAR_EXT`. -/
def VK_COLOR_SPACE_DISPLAY_P3_NONLINEAR_EXT : Nat := 1000104001

/-- The enumerator `VK_PRESENT_MODE_IMMEDIATE_KHR`. -/
def VK_PRESENT_MODE_IMMEDIATE_KHR : Nat := 0
/-- The enumerator `VK_PRESENT_MODE_MAILBOX_KHR`. -/
def VK_PRESENT_MODE_MAILBOX_KHR : Nat := 1
/-- The enumerator `VK_PRESENT_MODE_FIFO_KHR`. -/
def VK_PRESENT_MODE_FIFO_KHR : Nat := 2

/-- The enumerator `VK_PHYSICAL_DEVICE_TYPE_INTEGRATED_GPU`. -/
def VK_PHYSICAL_DEVICE_TYPE_INTEGRATED_GPU : Nat := 1
/-- The enumerator `VK_PHYSICAL_DEVICE_TYPE_DISCRETE_GPU`. -/
def VK_PHYSICAL_DEVICE_TYPE_DISCRETE_GPU : Nat := 2

/-- The flag `VK_QUEUE_GRAPHICS_BIT`. -/
def VK_QUEUE_GRAPHICS_BIT : Nat := 1
/-- The flag `VK_QUEUE_COMPUTE_BIT`. -/
def VK_QUEUE_COMPUTE_BIT : Nat := 2
/-- The flag `VK_QUEUE_TRANSFER_BIT`. -/
def VK_QUEUE_TRANSFER_BIT : Nat := 4

/-- The string `VK_KHR_SWAPCHAIN_EXTENSION_NAME`. -/
def VK_KHR_SWAPCHAIN_EXTENSION_NAME : String := "VK_KHR_swapchain"

/-! ## `math/math.h` -/

namespace math

/-- The template `math::clamp`:
`value < min ? min : value < max ? value : max`. -/
def clamp {T : Type} [LT T] [DecidableRel (@LT.lt T _)] (value min max : T) : T :=
  if value < min then min else if value < max then value else max

end math

/-! ## `datastructures/vector.h` -/

namespace vector

/-- The member `vector::contains`: a linear scan over the stored elements that stops
at the first element equal to `value`. -/
def contains {T : Type} [DecidableEq T] : List T → T → Bool
  | [], _ => false
  | x :: rest, value => if x = value then true else contains rest value

end vector

/-! ## Vulkan records read by the selection code -/

/-- The fields of `VkExtent2D`. -/
structure VkExtent2D where
  width : Nat
  height : Nat
deriving DecidableEq, Repr

/-- The fields of `VkSurfaceCapabilitiesKHR` that the backend reads. -/
structure VkSurfaceCapabilitiesKHR where
  minImageCount : Nat
  maxImageCount : Nat
  currentExtent : VkExtent2D
  minImageExtent : VkExtent2D
  maxImageExtent : VkExtent2D
  currentTransform : Nat := 1
deriving DecidableEq, Repr

/-- The fields of `VkSurfaceFormatKHR`. -/
structure VkSurfaceFormatKHR where
  format : Nat
  colorSpace : Nat
deriving DecidableEq, Repr

/-! ## The three free `choose_*` functions of `renderer.cpp` -/

/-- The function `choose_present_mode` (renderer.cpp, lines 836-842). -/
def choose_present_mode (available_present_modes : List Nat) : Nat :=
  if vector.contains available_present_modes VK_PRESENT_MODE_MAILBOX_KHR then
    VK_PRESENT_MODE_MAILBOX_KHR
  else
    VK_PRESENT_MODE_FIFO_KHR

/-- The function `choose_surface_extent` (renderer.cpp, lines 844-853). -/
def choose_surface_extent (capabilities : VkSurfaceCapabilitiesKHR)
    (ideal_width ideal_height : Nat) : VkExtent2D :=
  if capabilities.currentExtent.width ≠ UINT32_MAX then
    capabilities.currentExtent
  else
    { width := math.clamp ideal_width capabilities.minImageExtent.width
        capabilities.maxImageExtent.width
      height := math.clamp ideal_height capabilities.minImageExtent.height
        capabilities.maxImageExtent.height }

/-- The test of the range-for body in `choose_surface_format`. -/
def is_preferred_format (available_format : VkSurfaceFormatKHR) : Bool :=
  available_format.format == VK_FORMAT_B8G8R8A8_SRGB &&
    available_format.colorSpace == VK_COLOR_SPACE_SRGB_NONLINEAR_KHR

/-- The range-for loop of `choose_surface_format`: the first entry that passes the
test, or `none` when the loop runs to its end. -/
def choose_surface_format_loop : List VkSurfaceFormatKHR → Option VkSurfaceFormatKHR
  | [] => none
  | available_format :: rest =>
    if is_preferred_format available_format then some available_format
    else choose_surface_format_loop rest

/-- The function `choose_surface_format` (renderer.cpp, lines 855-865).  After the
loop the code reads `available_formats[0]` through the unchecked `operator[]`; on an
empty vector that element does not exist and the result is `none`. -/
def choose_surface_format (available_formats : List VkSurfaceFormatKHR) :
    Option VkSurfaceFormatKHR :=
  match choose_surface_format_loop available_formats with
  | some available_format => some available_format
  | none => available_formats[0]?

/-! ## `datastructures/optional.h` and the queue family assignment -/

/-- The class `datastructures::optional<T>`: `none` is the state `m_has_value == false`,
in which `m_value` holds no defined value. -/
abbrev optional (T : Type) : Type := Option T

namespace optional

/-- The member `optional::has_value`. -/
def has_value {T : Type} (self : optional T) : Bool := self.isSome

/-- The member `optional::operator=(T value)`. -/
def assign {T : Type} (_self : optional T) (value : T) : optional T := some value

end optional

/-- The struct `renderer_vulkan::queue_family_indices` (renderer.h, lines 36-45). -/
structure queue_family_indices where
  graphics : optional Nat := none
  present : optional Nat := none
deriving DecidableEq, Repr

/-- The member `queue_family_indices::is_complete`. -/
def queue_family_indices.is_complete (self : queue_family_indices) : Bool :=
  self.graphics.has_value && self.present.has_value

/-- One queue family of a physical device: the `queueFlags` of its
`VkQueueFamilyProperties` entry and the answer of `vkGetPhysicalDeviceSurfaceSupportKHR`
for its index and the window surface. -/
structure queue_family where
  queueFlags : Nat
  hasPresentSupport : Bool
deriving DecidableEq, Repr

/-- The struct `swapchain_support_details` (renderer.cpp, lines 30-35). -/
structure swapchain_support_details where
  capabilities : VkSurfaceCapabilitiesKHR
  formats : List VkSurfaceFormatKHR
  present_modes : List Nat
deriving DecidableEq, Repr

/-- A physical device: its handle and what the driver reports for it (device type,
device extensions, surface capabilities, surface formats, present modes and queue
families, the surface being the window surface of the backend). -/
structure VkPhysicalDevice where
  handle : Nat
  deviceType : Nat
  availableExtensions : List String
  surfaceCapabilities : VkSurfaceCapabilitiesKHR
  surfaceFormats : List VkSurfaceFormatKHR
  surfacePresentModes : List Nat
  queueFamilyProperties : List queue_family
deriving DecidableEq, Repr

/-- The global `REQUIRED_DEVICE_EXTENSION_NAMES` (renderer.cpp, line 37). -/
def REQUIRED_DEVICE_EXTENSION_NAMES : List String := [VK_KHR_SWAPCHAIN_EXTENSION_NAME]

/-- The inner loop of `check_device_extension_support`: `strcmp` of one required name
against each available extension name, stopping at the first match. -/
def extension_found (extensionName : String) : List String → Bool
  | [] => false
  | available :: rest =>
    if extensionName = available then true else extension_found extensionName rest

/-- The outer loop of `check_device_extension_support` over the required names. -/
def check_extension_names (availableExtensions : List String) : List String → Bool
  | [] => true
  | extensionName :: rest =>
    if !extension_found extensionName availableExtensions then false
    else check_extension_names availableExtensions rest

/-- The function `check_device_extension_support` (renderer.cpp, lines 750-774). -/
def check_device_extension_support (physicalDevice : VkPhysicalDevice)
    (extensionNames : List String) : Bool :=
  check_extension_names physicalDevice.availableExtensions extensionNames

/-- The function `get_swapchain_support_details` (renderer.cpp, lines 948-971): the two
vectors are resized and filled only when the reported count is not zero. -/
def get_swapchain_support_details (physical_device : VkPhysicalDevice) :
    swapchain_support_details :=
  { capabilities := physical_device.surfaceCapabilities
    formats :=
      if physical_device.surfaceFormats.length ≠ 0 then physical_device.surfaceFormats else []
    present_modes :=
      if physical_device.surfacePresentModes.length ≠ 0 then
        physical_device.surfacePresentModes
      else [] }

/-- The loop of `find_queue_families` from family index `i` on, `indices` being the
assignment built so far; the loop is left as soon as the assignment is complete. -/
def find_queue_families_loop :
    List queue_family → Nat → queue_family_indices → queue_family_indices
  | [], _, indices => indices
  | queueFamily :: rest, i, indices =>
    let indices1 : queue_family_indices :=
      if queueFamily.queueFlags &&& VK_QUEUE_GRAPHICS_BIT ≠ 0 then
        { indices with graphics := indices.graphics.assign i }
      else indices
    let indices2 : queue_family_indices :=
      if queueFamily.hasPresentSupport then
        { indices1 with present := indices1.present.assign i }
      else indices1
    if indices2.is_complete then indices2
    else find_queue_families_loop rest (i + 1) indices2

/-- The member `renderer_vulkan::find_queue_families` (renderer.cpp, lines 630-656). -/
def find_queue_families (physicalDevice : VkPhysicalDevice) : queue_family_indices :=
  find_queue_families_loop physicalDevice.queueFamilyProperties 0 {}

/-- The member `renderer_vulkan::rate_device_suitability` (renderer.cpp, lines 675-711).
The statements `return false` of the `int` function return `0`.  The branch on `none`
stands for `available_formats[0]` of an empty vector and is never taken, the formats
having been tested to be non-empty before. -/
def rate_device_suitability (physicalDevice : VkPhysicalDevice) : Int :=
  let score0 : Int := 0
  let score1 : Int :=
    if physicalDevice.deviceType = VK_PHYSICAL_DEVICE_TYPE_DISCRETE_GPU then score0 + 1000
    else score0
  if !check_device_extension_support physicalDevice REQUIRED_DEVICE_EXTENSION_NAMES then 0
  else
    let details := get_swapchain_support_details physicalDevice
    if details.formats.isEmpty || details.present_modes.isEmpty then 0
    else
      match choose_surface_format details.formats with
      | none => 0
      | some format =>
        let score2 : Int := if format.format = VK_FORMAT_B8G8R8A8_SRGB then score1 + 50 else score1
        let score3 : Int :=
          if format.colorSpace = VK_COLOR_SPACE_SRGB_NONLINEAR_KHR then score2 + 50 else score2
        let present_mode := choose_present_mode details.present_modes
        let score4 : Int :=
          if present_mode = VK_PRESENT_MODE_MAILBOX_KHR then score3 + 100 else score3
        let queueFamilyIndices := find_queue_families physicalDevice
        if !queueFamilyIndices.is_complete then 0 else score4

/-! ## `std::multimap<int, VkPhysicalDevice>` and device selection -/

/-- Result of evaluating C++ code: a value, or no defined result at all (undefined
behaviour, such as dereferencing the end iterator of a container). -/
inductive outcome (α : Type) where
  | undefined : outcome α
  | defined (value : α) : outcome α
deriving DecidableEq, Repr

namespace multimap

/-- The member `std::multimap::insert` on the entries in iteration order (ascending
keys): the new entry goes to the upper bound of its key, behind all entries whose key
is equivalent. -/
def insert {V : Type} (entry : Int × V) : List (Int × V) → List (Int × V)
  | [] => [entry]
  | e :: rest => if entry.1 < e.1 then entry :: e :: rest else e :: insert entry rest

/-- The entry `*rbegin()`: the last entry in iteration order, none for an empty map
(where `rbegin() == rend()` must not be dereferenced). -/
def rbegin {V : Type} (entries : List (Int × V)) : Option (Int × V) := entries.getLast?

end multimap

/-- The insertion loop of `pick_physical_device` (renderer.cpp, lines 665-667). -/
def pick_physical_device_candidates :
    List VkPhysicalDevice → List (Int × VkPhysicalDevice) → List (Int × VkPhysicalDevice)
  | [], candidates => candidates
  | device :: rest, candidates =>
    pick_physical_device_candidates rest
      (multimap.insert (rate_device_suitability device, device) candidates)

/-- The member `renderer_vulkan::pick_physical_device` (renderer.cpp, lines 658-673),
`devices` being the handles enumerated by `vkEnumeratePhysicalDevices`.  The value
`none` is `nullptr`.  There is no test for an empty map before `candidates.rbegin()`
is dereferenced. -/
def pick_physical_device (devices : List VkPhysicalDevice) :
    outcome (Option VkPhysicalDevice) :=
  let candidates := pick_physical_device_candidates devices []
  match multimap.rbegin candidates with
  | none => outcome.undefined
  | some last => if last.1 > 0 then outcome.defined (some last.2) else outcome.defined none

/-! ## `create_logical_device` -/

/-- The enum `renderer_vulkan::debug_output`. -/
inductive debug_output where
  | enabled
  | disabled
deriving DecidableEq, Repr

/-- The fields of `VkDeviceQueueCreateInfo` set by the backend. -/
structure VkDeviceQueueCreateInfo where
  queueFamilyIndex : Nat
  queueCount : Nat
deriving DecidableEq, Repr

/-- The fields of `VkDeviceCreateInfo` set by the backend. -/
structure VkDeviceCreateInfo where
  queueCreateInfos : List VkDeviceQueueCreateInfo
  enabledExtensionNames : List String
  enabledLayerNames : List String
deriving DecidableEq, Repr

/-- The native calls issued by `create_logical_device` after a device was picked. -/
inductive device_call where
  | vkCreateDevice (physicalDevice : VkPhysicalDevice) (createInfo : VkDeviceCreateInfo)
  | volkLoadDeviceTable (device : Nat)
  | vkGetDeviceQueue (device : Nat) (queueFamilyIndex : Nat) (queueIndex : Nat)
deriving DecidableEq, Repr

/-- The members of `renderer_vulkan` written by `create_logical_device`; `none` is
`VK_NULL_HANDLE`.  A queue is named by the family index and queue index it was fetched
with. -/
structure device_state where
  m_physical_device : Option VkPhysicalDevice := none
  m_device : Option Nat := none
  m_device_functions_loaded : Bool := false
  m_queues_graphics : Option (Nat × Nat) := none
  m_queues_present : Option (Nat × Nat) := none
deriving DecidableEq, Repr

/-- What a call of `create_logical_device` leaves behind: the returned `bool`, the
members of the backend and the native calls issued, in order. -/
structure create_logical_device_result where
  returned : Bool
  self : device_state
  calls : List device_call
deriving DecidableEq, Repr

/-- The value `VK_SUCCESS`. -/
def VK_SUCCESS : Int := 0

/-- The elements of `std::set<uint32_t>{ a, b }` in iteration order. -/
def std_set_of_two (a b : Nat) : List Nat :=
  if a = b then [a] else if a < b then [a, b] else [b, a]

/-- The member `renderer_vulkan::create_logical_device` (renderer.cpp, lines 399-458).
`devices` is the enumeration seen by `pick_physical_device`; `vkCreateDevice` is the
driver entry point, giving the `VkResult` and the device handle written on success.
Reading `value()` of an optional without a value fails its assertion. -/
def create_logical_device (devices : List VkPhysicalDevice)
    (vkCreateDevice : VkPhysicalDevice → VkDeviceCreateInfo → Int × Nat)
    (debugOutput : debug_output) (self : device_state) :
    outcome create_logical_device_result :=
  match pick_physical_device devices with
  | outcome.undefined => outcome.undefined
  | outcome.defined none =>
    outcome.defined
      { returned := false, self := { self with m_physical_device := none }, calls := [] }
  | outcome.defined (some physical_device) =>
    let self1 : device_state := { self with m_physical_device := some physical_device }
    let queueFamilyIndices := find_queue_families physical_device
    match queueFamilyIndices.graphics, queueFamilyIndices.present with
    | some graphics, some present =>
      let uniqueQueueFamilies := std_set_of_two graphics present
      let queueCreateInfos : List VkDeviceQueueCreateInfo :=
        uniqueQueueFamilies.map fun queueFamilyIndex =>
          { queueFamilyIndex := queueFamilyIndex, queueCount := 1 }
      let deviceCreateInfo : VkDeviceCreateInfo :=
        { queueCreateInfos := queueCreateInfos
          enabledExtensionNames := REQUIRED_DEVICE_EXTENSION_NAMES
          enabledLayerNames :=
            if debugOutput = debug_output.enabled then ["VK_LAYER_KHRONOS_validation"]
            else [] }
      let created := vkCreateDevice physical_device deviceCreateInfo
      let call0 := device_call.vkCreateDevice physical_device deviceCreateInfo
      if created.1 ≠ VK_SUCCESS then
        outcome.defined { returned := false, self := self1, calls := [call0] }
      else
        let m_device := created.2
        outcome.defined
          { returned := true
            self :=
              { self1 with
                m_device := some m_device
                m_device_functions_loaded := true
                m_queues_graphics := some (graphics, 0)
                m_queues_present := some (present, 0) }
            calls :=
              [call0, device_call.volkLoadDeviceTable m_device,
                device_call.vkGetDeviceQueue m_device graphics 0,
                device_call.vkGetDeviceQueue m_device present 0] }
    | _, _ => outcome.undefined

/-! ## Sample inputs -/

/-- A surface that reports no fixed extent in its width only. -/
def caps_width_only : VkSurfaceCapabilitiesKHR :=
  { minImageCount := 2, maxImageCount := 8
    currentExtent := { width := UINT32_MAX, height := 600 }
    minImageExtent := { width := 1, height := 1 }
    maxImageExtent := { width := 4096, height := 4096 } }

/-- A surface with the fixed extent 1280 x 720. -/
def caps_fixed : VkSurfaceCapabilitiesKHR :=
  { minImageCount := 2, maxImageCount := 8
    currentExtent := { width := 1280, height := 720 }
    minImageExtent := { width := 1280, height := 720 }
    maxImageExtent := { width := 1280, height := 720 } }

/-- The preferred surface format. -/
def format_bgra_srgb : VkSurfaceFormatKHR :=
  { format := VK_FORMAT_B8G8R8A8_SRGB, colorSpace := VK_COLOR_SPACE_SRGB_NONLINEAR_KHR }

/-- A surface format that earns no bonus: neither the format nor the color space. -/
def format_plain : VkSurfaceFormatKHR :=
  { format := VK_FORMAT_R8G8B8A8_UNORM, colorSpace := VK_COLOR_SPACE_DISPLAY_P3_NONLINEAR_EXT }

/-- A queue family with graphics and present support. -/
def family_all : queue_family :=
  { queueFlags := VK_QUEUE_GRAPHICS_BIT ||| VK_QUEUE_COMPUTE_BIT, hasPresentSupport := true }

/-- A discrete device with the preferred format and mailbox: score 1200. -/
def device_a : VkPhysicalDevice :=
  { handle := 1, deviceType := VK_PHYSICAL_DEVICE_TYPE_DISCRETE_GPU
    availableExtensions := [VK_KHR_SWAPCHAIN_EXTENSION_NAME]
    surfaceCapabilities := caps_fixed
    surfaceFormats := [format_bgra_srgb]
    surfacePresentModes := [VK_PRESENT_MODE_FIFO_KHR, VK_PRESENT_MODE_MAILBOX_KHR]
    queueFamilyProperties := [family_all] }

/-- A second device with the same reports as `device_a` under another handle. -/
def device_b : VkPhysicalDevice := { device_a with handle := 2 }

/-- A device that passes every check and earns no bonus: integrated, plain format,
FIFO only. -/
def device_plain : VkPhysicalDevice :=
  { handle := 3, deviceType := VK_PHYSICAL_DEVICE_TYPE_INTEGRATED_GPU
    availableExtensions := [VK_KHR_SWAPCHAIN_EXTENSION_NAME]
    surfaceCapabilities := caps_fixed
    surfaceFormats := [format_plain]
    surfacePresentModes := [VK_PRESENT_MODE_FIFO_KHR]
    queueFamilyProperties := [family_all] }

/-- A discrete device without the swapchain extension. -/
def device_no_swapchain : VkPhysicalDevice :=
  { device_a with handle := 4, availableExtensions := ["VK_KHR_maintenance1"] }

/-- A driver whose `vkCreateDevice` succeeds with device handle 7. -/
def driver_ok (_physicalDevice : VkPhysicalDevice) (_info : VkDeviceCreateInfo) : Int × Nat :=
  (VK_SUCCESS, 7)

/-! ## `optional::value`, `optional::operator!=` and the swapchain request -/

namespace optional

/-- The member `optional::value`: `assert(m_has_value)` and then `m_value`; without a
value the assertion fails (and with assertions compiled out an indeterminate `m_value`
is read), so there is no defined result. -/
def value {T : Type} (self : optional T) : outcome T :=
  match self with
  | some m_value => outcome.defined m_value
  | none => outcome.undefined

/-- The member `optional::operator!=` (optional.h, lines 33-36):
`has_value() != rhs.has_value() || value() != rhs.value()`, the right operand of `||`
being evaluated only when the left one is false. -/
def ne {T : Type} [DecidableEq T] (self rhs : optional T) : outcome Bool :=
  if self.has_value != rhs.has_value then outcome.defined true
  else
    match self.value, rhs.value with
    | outcome.defined a, outcome.defined b => outcome.defined (decide (a ≠ b))
    | _, _ => outcome.undefined

end optional

/-- A Vulkan handle; `none` is `VK_NULL_HANDLE`. -/
abbrev handle : Type := Option Nat

/-- The enumerator `VK_SHARING_MODE_EXCLUSIVE`. -/
def VK_SHARING_MODE_EXCLUSIVE : Nat := 0
/-- The enumerator `VK_SHARING_MODE_CONCURRENT`. -/
def VK_SHARING_MODE_CONCURRENT : Nat := 1
/-- The flag `VK_IMAGE_USAGE_COLOR_ATTACHMENT_BIT`. -/
def VK_IMAGE_USAGE_COLOR_ATTACHMENT_BIT : Nat := 16
/-- The flag `VK_COMPOSITE_ALPHA_OPAQUE_BIT_KHR`. -/
def VK_COMPOSITE_ALPHA_OPAQUE_BIT_KHR : Nat := 1

/-- The fields of `VkSwapchainCreateInfoKHR` set by `create_swapchain`; the empty list
in `pQueueFamilyIndices` is the null pointer of the zero-initialised struct. -/
structure VkSwapchainCreateInfoKHR where
  surface : handle
  minImageCount : Nat
  imageFormat : Nat
  imageColorSpace : Nat
  imageExtent : VkExtent2D
  imageArrayLayers : Nat
  imageUsage : Nat
  preTransform : Nat
  compositeAlpha : Nat
  presentMode : Nat
  clipped : Bool
  oldSwapchain : handle
  imageSharingMode : Nat
  queueFamilyIndexCount : Nat
  pQueueFamilyIndices : List Nat
deriving DecidableEq, Repr

/-- The image count of `create_swapchain` (renderer.cpp, lines 531-534); the sum is a
`uint32_t` and wraps at 2^32. -/
def swapchain_image_count (capabilities : VkSurfaceCapabilitiesKHR) : Nat :=
  let image_count := (capabilities.minImageCount + 1) % 2 ^ 32
  if capabilities.maxImageCount > 0 ∧ image_count > capabilities.maxImageCount then
    capabilities.maxImageCount
  else image_count

/-- The sharing request of `create_swapchain` (renderer.cpp, lines 536-560): the array
`queue_family_indices_array` is built from both `value()`s, then the two optionals are
compared with `operator!=`.  The result is the sharing mode, `queueFamilyIndexCount`
and the index array passed (none for the exclusive mode). -/
def swapchain_sharing (queue_family_indices : queue_family_indices) :
    outcome (Nat × Nat × List Nat) :=
  match queue_family_indices.graphics.value, queue_family_indices.present.value with
  | outcome.defined graphics, outcome.defined present =>
    let queue_family_indices_array := [graphics, present]
    match optional.ne queue_family_indices.graphics queue_family_indices.present with
    | outcome.defined true =>
      outcome.defined (VK_SHARING_MODE_CONCURRENT, 2, queue_family_indices_array)
    | outcome.defined false => outcome.defined (VK_SHARING_MODE_EXCLUSIVE, 0, [])
    | outcome.undefined => outcome.undefined
  | _, _ => outcome.undefined

/-- The part of `create_swapchain` that fills `swapchain_create_info` (renderer.cpp,
lines 524-560), for the window surface, the picked physical device and the width and
height of the window. -/
def create_swapchain_info (m_window_surface : handle) (m_physical_device : VkPhysicalDevice)
    (width height : Nat) : outcome VkSwapchainCreateInfoKHR :=
  let swapchain_support_details := get_swapchain_support_details m_physical_device
  match choose_surface_format swapchain_support_details.formats with
  | none => outcome.undefined
  | some surface_format =>
    let present_mode := choose_present_mode swapchain_support_details.present_modes
    let m_swapchain_extent :=
      choose_surface_extent swapchain_support_details.capabilities width height
    let image_count := swapchain_image_count swapchain_support_details.capabilities
    match swapchain_sharing (find_queue_families m_physical_device) with
    | outcome.undefined => outcome.undefined
    | outcome.defined sharing =>
      outcome.defined
        { surface := m_window_surface
          minImageCount := image_count
          imageFormat := surface_format.format
          imageColorSpace := surface_format.colorSpace
          imageExtent := m_swapchain_extent
          imageArrayLayers := 1
          imageUsage := VK_IMAGE_USAGE_COLOR_ATTACHMENT_BIT
          preTransform := swapchain_support_details.capabilities.currentTransform
          compositeAlpha := VK_COMPOSITE_ALPHA_OPAQUE_BIT_KHR
          presentMode := present_mode
          clipped := true
          oldSwapchain := none
          imageSharingMode := sharing.1
          queueFamilyIndexCount := sharing.2.1
          pQueueFamilyIndices := sharing.2.2 }

/-- A surface that reports three images at least and two at most. -/
def caps_max_below_min : VkSurfaceCapabilitiesKHR :=
  { minImageCount := 3, maxImageCount := 2
    currentExtent := { width := 1280, height := 720 }
    minImageExtent := { width := 1280, height := 720 }
    maxImageExtent := { width := 1280, height := 720 } }

/-- A surface whose minimum image count is the greatest `uint32_t` and that declares no
maximum. -/
def caps_min_wraps : VkSurfaceCapabilitiesKHR :=
  { minImageCount := UINT32_MAX, maxImageCount := 0
    currentExtent := { width := 1280, height := 720 }
    minImageExtent := { width := 1280, height := 720 }
    maxImageExtent := { width := 1280, height := 720 } }

/-- A surface with the sentinel as current extent and the bounds 100 x 100 to
4096 x 2160. -/
def caps_any_extent : VkSurfaceCapabilitiesKHR :=
  { minImageCount := 2, maxImageCount := 3
    currentExtent := { width := UINT32_MAX, height := UINT32_MAX }
    minImageExtent := { width := 100, height := 100 }
    maxImageExtent := { width := 4096, height := 2160 } }

/-- A queue family with the graphics bit and without present support. -/
def family_graphics_only : queue_family :=
  { queueFlags := VK_QUEUE_GRAPHICS_BIT, hasPresentSupport := false }

/-- A queue family without the graphics bit and with present support. -/
def family_present_only : queue_family :=
  { queueFlags := VK_QUEUE_TRANSFER_BIT, hasPresentSupport := true }

/-- A device like `device_a` whose graphics family is family 0 and whose present family
is family 1. -/
def device_split : VkPhysicalDevice :=
  { device_a with handle := 5, queueFamilyProperties := [family_graphics_only, family_present_only] }

/-! ## `datastructures::vector` with its storage -/

/-- The class `datastructures::vector<T>` (vector.h) with its storage: `m_data` is the
allocated array, the entry `none` standing for an element that was never written and so
holds no determinate value. -/
structure vector (T : Type) where
  m_data : List (Option T)
  m_size : Nat
  m_capacity : Nat
deriving DecidableEq, Repr

namespace vector

/-- The constructor `vector(size_t initial_capacity)`: `new T[initial_capacity]` and
size 0. -/
def new {T : Type} (initial_capacity : Nat) : vector T :=
  { m_data := List.replicate initial_capacity none, m_size := 0, m_capacity := initial_capacity }

/-- The default argument `initial_capacity = 2` of the constructor. -/
def default_capacity : Nat := 2

/-- The range `begin() .. end()`: the first `m_size` entries of the storage. -/
def elements {T : Type} (self : vector T) : List (Option T) := self.m_data.take self.m_size

/-- The member `vector::resize` (vector.h, lines 58-71); `zero` is the value of `T` whose
bytes are all zero.  Only when the new size exceeds the capacity is a new array
allocated, the first `m_size` elements copied and the remaining ones set to zero. -/
def resize {T : Type} (zero : T) (self : vector T) (new_size : Nat) : vector T :=
  if new_size > self.m_capacity then
    { m_data :=
        self.m_data.take self.m_size ++ List.replicate (new_size - self.m_size) (some zero)
      m_size := new_size
      m_capacity := new_size }
  else { self with m_size := new_size }

/-- The class invariant of `vector`: the storage has `m_capacity` elements and the size
does not exceed the capacity. -/
def well_formed {T : Type} (self : vector T) : Prop :=
  self.m_data.length = self.m_capacity ∧ self.m_size ≤ self.m_capacity

/-- Reading `operator[](pos)`, which tests nothing: outside the allocation, or on an
element never written, there is no defined value. -/
def get {T : Type} (self : vector T) (pos : Nat) : outcome T :=
  match self.m_data[pos]? with
  | some (some value) => outcome.defined value
  | _ => outcome.undefined

/-- Writing through `operator[](pos)` (or through a pointer to that element): outside
the allocation the write is out of bounds. -/
def set {T : Type} (self : vector T) (pos : Nat) (value : T) : outcome (vector T) :=
  if pos < self.m_data.length then
    outcome.defined { self with m_data := self.m_data.set pos (some value) }
  else outcome.undefined

/-- A native call that writes `values` to `data()[0]`, `data()[1]`, and so on. -/
def fill {T : Type} (self : vector T) (values : List T) : outcome (vector T) :=
  if values.length ≤ self.m_data.length then
    outcome.defined
      { self with m_data := values.map some ++ self.m_data.drop values.length }
  else outcome.undefined

end vector

/-! ## Native calls and the members of the backend -/

/-- The objects owned by the backend, named after the member that holds them (shader
modules are locals of `create_graphics_pipeline`). -/
inductive resource where
  | m_instance
  | m_debugMessenger
  | m_window_surface
  | m_device
  | m_swapchain
  | m_swapchain_image_views
  | m_render_pass
  | shader_module
  | m_pipeline_layout
  | m_graphics_pipeline
  | m_swapchain_framebuffers
  | m_command_pool
  | m_command_buffer
  | m_image_available_semaphore
  | m_render_finished_semaphore
  | m_in_flight_fence
deriving DecidableEq, Repr

/-- The fields of `VkInstanceCreateInfo` set by `create_instance`; `debugMessengerChained`
says whether `pNext` points to the debug messenger create info. -/
structure VkInstanceCreateInfo where
  enabledExtensionNames : List String
  enabledLayerNames : List String
  debugMessengerChained : Bool
deriving DecidableEq, Repr

/-- The fields of `VkSubmitInfo` set by `render`. -/
structure VkSubmitInfo where
  waitSemaphores : List handle
  waitDstStageMask : List Nat
  commandBuffers : List handle
  signalSemaphores : List handle
deriving DecidableEq, Repr

/-- The fields of `VkPresentInfoKHR` set by `render`; an image index that was never
written is `none`. -/
structure VkPresentInfoKHR where
  waitSemaphores : List handle
  swapchains : List handle
  imageIndices : List (Option Nat)
deriving DecidableEq, Repr

set_option maxHeartbeats 8000000 in
/-- The native calls issued by the backend that create, destroy, record or submit
(enumerations and property queries are not listed).  A creation call carries the
`VkResult` it returned; a call on a semaphore carries the member concerned. -/
inductive native_call where
  | volkInitialize (result : Int)
  | vkCreateInstance (createInfo : VkInstanceCreateInfo) (result : Int)
  | volkLoadInstanceOnly (vk_instance : handle)
  | vkCreateDebugUtilsMessengerEXT (vk_instance : handle) (result : Int)
  | vkCreateWin32SurfaceKHR (vk_instance : handle) (result : Int)
  | device (call : device_call)
  | vkCreateSwapchainKHR (device : handle) (createInfo : VkSwapchainCreateInfoKHR)
      (result : Int)
  | vkGetSwapchainImagesKHR (device : handle) (swapchain : handle)
  | vkCreateImageView (device : handle) (image : handle) (format : Option Nat) (result : Int)
  | vkCreateRenderPass (device : handle) (format : Option Nat) (result : Int)
  | vkCreateShaderModule (device : handle) (code : List Nat) (result : Int)
  | vkDestroyShaderModule (device : handle) (shaderModule : handle)
  | vkCreatePipelineLayout (device : handle) (result : Int)
  | vkCreateGraphicsPipelines (device : handle) (stages : List handle) (layout : handle)
      (renderPass : handle) (result : Int)
  | vkCreateFramebuffer (device : handle) (renderPass : handle) (attachment : handle)
      (extent : Option VkExtent2D) (result : Int)
  | vkCreateCommandPool (device : handle) (queueFamilyIndex : Nat) (result : Int)
  | vkAllocateCommandBuffers (device : handle) (commandPool : handle) (result : Int)
  | vkCreateSemaphore (device : handle) (target : resource) (result : Int)
  | vkCreateFence (device : handle) (flags : Nat) (result : Int)
  | vkWaitForFences (device : handle) (fence : handle) (timeout : Nat)
  | vkResetFences (device : handle) (fence : handle)
  | vkAcquireNextImageKHR (device : handle) (swapchain : handle) (timeout : Nat)
      (semaphore : handle) (fence : handle)
  | vkResetCommandBuffer (commandBuffer : handle)
  | vkBeginCommandBuffer (commandBuffer : handle)
  | vkCmdBeginRenderPass (commandBuffer : handle) (renderPass : handle)
      (framebuffer : handle) (extent : Option VkExtent2D) (clearColor : List Nat)
  | vkCmdBindPipeline (commandBuffer : handle) (pipeline : handle)
  | vkCmdDraw (commandBuffer : handle) (vertexCount : Nat) (instanceCount : Nat)
      (firstVertex : Nat) (firstInstance : Nat)
  | vkCmdEndRenderPass (commandBuffer : handle)
  | vkEndCommandBuffer (commandBuffer : handle)
  | vkQueueSubmit (queue : Option (Nat × Nat)) (submit : VkSubmitInfo) (fence : handle)
  | vkQueuePresentKHR (queue : Option (Nat × Nat)) (present : VkPresentInfoKHR)
  | vkDeviceWaitIdle (device : handle)
  | vkDestroyFence (device : handle) (fence : handle)
  | vkDestroySemaphore (device : handle) (target : resource) (semaphore : handle)
  | vkDestroyCommandPool (device : handle) (commandPool : handle)
  | vkDestroyFramebuffer (device : handle) (framebuffer : handle)
  | vkDestroyPipeline (device : handle) (pipeline : handle)
  | vkDestroyPipelineLayout (device : handle) (layout : handle)
  | vkDestroyRenderPass (device : handle) (renderPass : handle)
  | vkDestroyImageView (device : handle) (imageView : handle)
  | vkDestroySwapchainKHR (device : handle) (swapchain : handle)
  | vkDestroyDevice (device : handle)
  | vkDestroySurfaceKHR (vk_instance : handle) (surface : handle)
  | vkDestroyDebugUtilsMessengerEXT (vk_instance : handle) (messenger : handle)
  | vkDestroyInstance (vk_instance : handle)
deriving DecidableEq, Repr

/-- The members of the class `renderer_vulkan` (renderer.h, lines 69-94); those written
by `create_logical_device` are the fields of `device_state`.  The two members without
an initialiser, `m_swapchain_image_format` and `m_swapchain_extent`, are `none` until
they are assigned. -/
structure renderer_vulkan extends device_state where
  m_instance : handle := none
  m_window_surface : handle := none
  m_render_pass : handle := none
  m_pipeline_layout : handle := none
  m_graphics_pipeline : handle := none
  m_command_pool : handle := none
  m_command_buffer : handle := none
  m_image_available_semaphore : handle := none
  m_render_finished_semaphore : handle := none
  m_in_flight_fence : handle := none
  m_swapchain : handle := none
  m_swapchain_image_format : Option Nat := none
  m_swapchain_extent : Option VkExtent2D := none
  m_swapchain_images : vector handle := vector.new vector.default_capacity
  m_swapchain_image_views : vector handle := vector.new vector.default_capacity
  m_swapchain_framebuffers : vector handle := vector.new vector.default_capacity
  m_debugMessenger : handle := none
deriving DecidableEq, Repr

/-- What the platform answers during bring-up: for each creation call the `VkResult`
and the handle written on success, the names of the instance extensions and layers, the
enumerated physical devices, the images of the swapchain and the contents of the files
read (an empty list for a file that cannot be read). -/
structure driver where
  volkInitialize : Int
  instanceExtensions : List String
  instanceLayers : List String
  vkCreateInstance : VkInstanceCreateInfo → Int × Nat
  vkCreateDebugUtilsMessengerEXT : Int × Nat
  vkCreateWin32SurfaceKHR : Int × Nat
  devices : List VkPhysicalDevice
  vkCreateDevice : VkPhysicalDevice → VkDeviceCreateInfo → Int × Nat
  vkCreateSwapchainKHR : VkSwapchainCreateInfoKHR → Int × Nat
  swapchainImages : List Nat
  vkCreateImageView : handle → Int × Nat
  vkCreateRenderPass : Int × Nat
  read_entire_file : String → List Nat
  vkCreateShaderModule : List Nat → Int × Nat
  vkCreatePipelineLayout : Int × Nat
  vkCreateGraphicsPipelines : Int × Nat
  vkCreateFramebuffer : handle → Int × Nat
  vkCreateCommandPool : Int × Nat
  vkAllocateCommandBuffers : Int × Nat
  vkCreateSemaphore : resource → Int × Nat
  vkCreateFence : Int × Nat

/-- What a bring-up member function leaves behind: the returned `bool`, the members of
the backend and the native calls issued, in order. -/
structure stage_result where
  returned : Bool
  self : renderer_vulkan
  calls : List native_call
deriving DecidableEq, Repr

/-! ## Bring-up: the stages of `create_with_window` -/

/-- The string `VK_KHR_SURFACE_EXTENSION_NAME`. -/
def VK_KHR_SURFACE_EXTENSION_NAME : String := "VK_KHR_surface"
/-- The string `VK_KHR_WIN32_SURFACE_EXTENSION_NAME`. -/
def VK_KHR_WIN32_SURFACE_EXTENSION_NAME : String := "VK_KHR_win32_surface"
/-- The string `VK_EXT_DEBUG_UTILS_EXTENSION_NAME`. -/
def VK_EXT_DEBUG_UTILS_EXTENSION_NAME : String := "VK_EXT_debug_utils"
/-- The flag `VK_FENCE_CREATE_SIGNALED_BIT`. -/
def VK_FENCE_CREATE_SIGNALED_BIT : Nat := 1

/-- The window collaborator (engine/window.h) as far as the backend reads it. -/
structure window where
  width : Nat
  height : Nat
deriving DecidableEq, Repr

/-- The function `get_required_extension_names` (renderer.cpp, lines 933-946). -/
def get_required_extension_names (debugOutput : debug_output) : List String :=
  [VK_KHR_SURFACE_EXTENSION_NAME, VK_KHR_WIN32_SURFACE_EXTENSION_NAME] ++
    (if debugOutput = debug_output.enabled then [VK_EXT_DEBUG_UTILS_EXTENSION_NAME] else [])

/-- The function `check_extension_support` (renderer.cpp, lines 776-804). -/
def check_extension_support (d : driver) (extensionNames : List String) : Bool :=
  check_extension_names d.instanceExtensions extensionNames

/-- The function `check_layer_support` (renderer.cpp, lines 806-834). -/
def check_layer_support (d : driver) (layerNames : List String) : Bool :=
  check_extension_names d.instanceLayers layerNames

/-- The function `create_instance` (renderer.cpp, lines 867-919): the instance handle
(`none` for `nullptr`) and the native calls issued. -/
def create_instance (d : driver) (debugOutput : debug_output) : handle × List native_call :=
  let requiredExtensionNames := get_required_extension_names debugOutput
  if !check_extension_support d requiredExtensionNames then (none, [])
  else
    let debugOutputEnabled : Bool := decide (debugOutput = debug_output.enabled)
    let requiredLayerNames := ["VK_LAYER_KHRONOS_validation"]
    if debugOutputEnabled && !check_layer_support d requiredLayerNames then (none, [])
    else
      let instanceCreateInfo : VkInstanceCreateInfo :=
        { enabledExtensionNames := requiredExtensionNames
          enabledLayerNames := if debugOutputEnabled then requiredLayerNames else []
          debugMessengerChained := debugOutputEnabled }
      let created := d.vkCreateInstance instanceCreateInfo
      let call0 := native_call.vkCreateInstance instanceCreateInfo created.1
      if created.1 ≠ VK_SUCCESS then (none, [call0])
      else (some created.2, [call0, native_call.volkLoadInstanceOnly (some created.2)])

namespace renderer_vulkan

/-- The member `create_debug_messenger` (renderer.cpp, lines 245-256); the `VkResult`
is not looked at. -/
def create_debug_messenger (d : driver) (self : renderer_vulkan) :
    renderer_vulkan × List native_call :=
  let created := d.vkCreateDebugUtilsMessengerEXT
  ({ self with
      m_debugMessenger :=
        if created.1 = VK_SUCCESS then some created.2 else self.m_debugMessenger },
    [native_call.vkCreateDebugUtilsMessengerEXT self.m_instance created.1])

/-- The member `create_window_surface` (platform/windows/backend/vulkan/renderer.cpp). -/
def create_window_surface (d : driver) (self : renderer_vulkan) : outcome stage_result :=
  let created := d.vkCreateWin32SurfaceKHR
  let call0 := native_call.vkCreateWin32SurfaceKHR self.m_instance created.1
  if created.1 ≠ VK_SUCCESS then
    outcome.defined { returned := false, self := self, calls := [call0] }
  else
    outcome.defined
      { returned := true, self := { self with m_window_surface := some created.2 },
        calls := [call0] }

/-- The member `create_logical_device` on the whole backend: the function of the same
name above, run on the members it writes, with the enumeration and `vkCreateDevice` of
the platform. -/
def create_logical_device (d : driver) (debugOutput : debug_output) (self : renderer_vulkan) :
    outcome stage_result :=
  match EngineExperiments.create_logical_device d.devices d.vkCreateDevice debugOutput
      self.todevice_state with
  | outcome.undefined => outcome.undefined
  | outcome.defined r =>
    outcome.defined
      { returned := r.returned, self := { self with todevice_state := r.self },
        calls := r.calls.map native_call.device }

/-- The shape shared by the image view loop of `create_swapchain` (renderer.cpp, lines
582-592) and the loop of `create_framebuffers` (lines 268-279), over the indices still to
do: element `i` of `source` is read, the creation call is issued with `&target[i]` as
output, and a result other than `VK_SUCCESS` returns false.  The result is whether the
loop ran to its end, the target vector and the calls issued. -/
def create_loop (source : vector handle) (create : handle → Int × Nat)
    (call : handle → Int → native_call) :
    List Nat → vector handle → outcome (Bool × vector handle × List native_call)
  | [], target => outcome.defined (true, target, [])
  | i :: rest, target =>
    match source.get i with
    | outcome.undefined => outcome.undefined
    | outcome.defined element =>
      let created := create element
      let call0 := call element created.1
      if created.1 ≠ VK_SUCCESS then outcome.defined (false, target, [call0])
      else
        match target.set i (some created.2) with
        | outcome.undefined => outcome.undefined
        | outcome.defined target1 =>
          match create_loop source create call rest target1 with
          | outcome.undefined => outcome.undefined
          | outcome.defined r => outcome.defined (r.1, r.2.1, call0 :: r.2.2)

/-- The image view loop of `create_swapchain` (renderer.cpp, lines 582-592). -/
def create_image_views_loop (d : driver) (m_device : handle) (format : Option Nat)
    (images : vector handle) :
    List Nat → vector handle → outcome (Bool × vector handle × List native_call) :=
  create_loop images d.vkCreateImageView
    fun image result => native_call.vkCreateImageView m_device image format result

/-- The member `create_swapchain` (renderer.cpp, lines 522-595). -/
def create_swapchain (d : driver) (w : window) (self : renderer_vulkan) :
    outcome stage_result :=
  match self.m_physical_device with
  | none => outcome.undefined
  | some physical_device =>
    match create_swapchain_info self.m_window_surface physical_device w.width w.height with
    | outcome.undefined => outcome.undefined
    | outcome.defined swapchain_create_info =>
      let self1 : renderer_vulkan :=
        { self with
          m_swapchain_extent := some swapchain_create_info.imageExtent
          m_swapchain_image_format := some swapchain_create_info.imageFormat }
      let created := d.vkCreateSwapchainKHR swapchain_create_info
      let call0 := native_call.vkCreateSwapchainKHR self.m_device swapchain_create_info created.1
      if created.1 ≠ VK_SUCCESS then
        outcome.defined { returned := false, self := self1, calls := [call0] }
      else
        let self2 : renderer_vulkan := { self1 with m_swapchain := some created.2 }
        let image_count := d.swapchainImages.length
        let call1 := native_call.vkGetSwapchainImagesKHR self.m_device self2.m_swapchain
        match (self2.m_swapchain_images.resize none image_count).fill
            (d.swapchainImages.map some) with
        | outcome.undefined => outcome.undefined
        | outcome.defined images =>
          let views0 := self2.m_swapchain_image_views.resize none image_count
          match create_image_views_loop d self.m_device self2.m_swapchain_image_format images
              (List.range images.m_size) views0 with
          | outcome.undefined => outcome.undefined
          | outcome.defined r =>
            outcome.defined
              { returned := r.1
                self := { self2 with m_swapchain_images := images, m_swapchain_image_views := r.2.1 }
                calls := [call0, call1, call1] ++ r.2.2 }

/-- The member `create_render_pass` (renderer.cpp, lines 460-502). -/
def create_render_pass (d : driver) (self : renderer_vulkan) : outcome stage_result :=
  let created := d.vkCreateRenderPass
  let call0 := native_call.vkCreateRenderPass self.m_device self.m_swapchain_image_format created.1
  if created.1 ≠ VK_SUCCESS then
    outcome.defined { returned := false, self := self, calls := [call0] }
  else
    outcome.defined
      { returned := true, self := { self with m_render_pass := some created.2 },
        calls := [call0] }

/-- The member `create_shader_module` (renderer.cpp, lines 504-520): the module handle,
`none` for `VK_NULL_HANDLE`, and the call issued. -/
def create_shader_module (d : driver) (self : renderer_vulkan) (code : List Nat) :
    handle × List native_call :=
  let created := d.vkCreateShaderModule code
  let call0 := native_call.vkCreateShaderModule self.m_device code created.1
  if created.1 ≠ VK_SUCCESS then (none, [call0]) else (some created.2, [call0])

/-- The member `create_graphics_pipeline` (renderer.cpp, lines 284-397). -/
def create_graphics_pipeline (d : driver) (self : renderer_vulkan) : outcome stage_result :=
  let vertex_shader_code := d.read_entire_file "shaders/triangle.vert.spv"
  if vertex_shader_code.isEmpty then
    outcome.defined { returned := false, self := self, calls := [] }
  else
    let fragment_shader_code := d.read_entire_file "shaders/triangle.frag.spv"
    if fragment_shader_code.isEmpty then
      outcome.defined { returned := false, self := self, calls := [] }
    else
      let vertex_shader := create_shader_module d self vertex_shader_code
      if vertex_shader.1 = none then
        outcome.defined { returned := false, self := self, calls := vertex_shader.2 }
      else
        let fragment_shader := create_shader_module d self fragment_shader_code
        if fragment_shader.1 = none then
          outcome.defined
            { returned := false, self := self, calls := vertex_shader.2 ++ fragment_shader.2 }
        else
          let layout := d.vkCreatePipelineLayout
          let call_layout := native_call.vkCreatePipelineLayout self.m_device layout.1
          if layout.1 ≠ VK_SUCCESS then
            outcome.defined
              { returned := false, self := self,
                calls := vertex_shader.2 ++ fragment_shader.2 ++ [call_layout] }
          else
            let self1 : renderer_vulkan := { self with m_pipeline_layout := some layout.2 }
            let pipeline := d.vkCreateGraphicsPipelines
            let call_pipeline :=
              native_call.vkCreateGraphicsPipelines self.m_device
                [vertex_shader.1, fragment_shader.1] self1.m_pipeline_layout self.m_render_pass
                pipeline.1
            if pipeline.1 ≠ VK_SUCCESS then
              outcome.defined
                { returned := false, self := self1,
                  calls := vertex_shader.2 ++ fragment_shader.2 ++ [call_layout, call_pipeline] }
            else
              outcome.defined
                { returned := true
                  self := { self1 with m_graphics_pipeline := some pipeline.2 }
                  calls := vertex_shader.2 ++ fragment_shader.2 ++
                    [call_layout, call_pipeline,
                      native_call.vkDestroyShaderModule self.m_device vertex_shader.1,
                      native_call.vkDestroyShaderModule self.m_device fragment_shader.1] }

/-- The loop of `create_framebuffers` (renderer.cpp, lines 268-279). -/
def create_framebuffers_loop (d : driver) (m_device : handle) (m_render_pass : handle)
    (extent : Option VkExtent2D) (views : vector handle) :
    List Nat → vector handle → outcome (Bool × vector handle × List native_call) :=
  create_loop views d.vkCreateFramebuffer
    fun view result => native_call.vkCreateFramebuffer m_device m_render_pass view extent result

/-- The member `create_framebuffers` (renderer.cpp, lines 258-282). -/
def create_framebuffers (d : driver) (self : renderer_vulkan) : outcome stage_result :=
  let framebuffers0 :=
    self.m_swapchain_framebuffers.resize none self.m_swapchain_image_views.m_size
  match create_framebuffers_loop d self.m_device self.m_render_pass self.m_swapchain_extent
      self.m_swapchain_image_views (List.range self.m_swapchain_image_views.m_size)
      framebuffers0 with
  | outcome.undefined => outcome.undefined
  | outcome.defined r =>
    outcome.defined
      { returned := r.1, self := { self with m_swapchain_framebuffers := r.2.1 },
        calls := r.2.2 }

/-- The member `create_command_pool` (renderer.cpp, lines 226-243). -/
def create_command_pool (d : driver) (self : renderer_vulkan) : outcome stage_result :=
  match self.m_physical_device with
  | none => outcome.undefined
  | some physical_device =>
    match (find_queue_families physical_device).graphics.value with
    | outcome.undefined => outcome.undefined
    | outcome.defined graphics =>
      let created := d.vkCreateCommandPool
      let call0 := native_call.vkCreateCommandPool self.m_device graphics created.1
      if created.1 ≠ VK_SUCCESS then
        outcome.defined { returned := false, self := self, calls := [call0] }
      else
        outcome.defined
          { returned := true, self := { self with m_command_pool := some created.2 },
            calls := [call0] }

/-- The member `create_command_buffer` (renderer.cpp, lines 208-224). -/
def create_command_buffer (d : driver) (self : renderer_vulkan) : outcome stage_result :=
  let created := d.vkAllocateCommandBuffers
  let call0 := native_call.vkAllocateCommandBuffers self.m_device self.m_command_pool created.1
  if created.1 ≠ VK_SUCCESS then
    outcome.defined { returned := false, self := self, calls := [call0] }
  else
    outcome.defined
      { returned := true, self := { self with m_command_buffer := some created.2 },
        calls := [call0] }

/-- The member `create_synchronization_objects` (renderer.cpp, lines 597-628). -/
def create_synchronization_objects (d : driver) (self : renderer_vulkan) :
    outcome stage_result :=
  let available := d.vkCreateSemaphore resource.m_image_available_semaphore
  let call0 :=
    native_call.vkCreateSemaphore self.m_device resource.m_image_available_semaphore available.1
  if available.1 ≠ VK_SUCCESS then
    outcome.defined { returned := false, self := self, calls := [call0] }
  else
    let self1 : renderer_vulkan := { self with m_image_available_semaphore := some available.2 }
    let finished := d.vkCreateSemaphore resource.m_render_finished_semaphore
    let call1 :=
      native_call.vkCreateSemaphore self.m_device resource.m_render_finished_semaphore finished.1
    if finished.1 ≠ VK_SUCCESS then
      outcome.defined { returned := false, self := self1, calls := [call0, call1] }
    else
      let self2 : renderer_vulkan := { self1 with m_render_finished_semaphore := some finished.2 }
      let fence := d.vkCreateFence
      let call2 := native_call.vkCreateFence self.m_device VK_FENCE_CREATE_SIGNALED_BIT fence.1
      if fence.1 ≠ VK_SUCCESS then
        outcome.defined { returned := false, self := self2, calls := [call0, call1, call2] }
      else
        outcome.defined
          { returned := true, self := { self2 with m_in_flight_fence := some fence.2 },
            calls := [call0, call1, call2] }

end renderer_vulkan

/-! ## Teardown, `create_with_window` and `render` -/

/-- The calls of a destructor loop `for (auto& x : v) if (x != VK_NULL_HANDLE) destroy(x)`
over the elements of a vector; comparing an element that was never written has no
defined result. -/
def destroy_elements (destroy : handle → native_call) :
    List (Option handle) → outcome (List native_call)
  | [] => outcome.defined []
  | none :: _ => outcome.undefined
  | some element :: rest =>
    match destroy_elements destroy rest with
    | outcome.undefined => outcome.undefined
    | outcome.defined calls =>
      outcome.defined (if element ≠ none then destroy element :: calls else calls)

/-- The statement `if (x != VK_NULL_HANDLE) destroy(x)`. -/
def destroy_if (x : handle) (destroy : handle → native_call) : List native_call :=
  if x ≠ none then [destroy x] else []

namespace renderer_vulkan

/-- The destructor `~renderer_vulkan` (renderer.cpp, lines 107-158): the native calls it
issues.  Its first statement calls `vkDeviceWaitIdle` through `m_device_functions`, a
table of null function pointers until `volkLoadDeviceTable` has filled it. -/
def destructor (self : renderer_vulkan) : outcome (List native_call) :=
  if !self.m_device_functions_loaded then outcome.undefined
  else
    match destroy_elements (native_call.vkDestroyFramebuffer self.m_device)
        self.m_swapchain_framebuffers.elements,
      destroy_elements (native_call.vkDestroyImageView self.m_device)
        self.m_swapchain_image_views.elements with
    | outcome.defined framebuffers, outcome.defined image_views =>
      outcome.defined
        ([native_call.vkDeviceWaitIdle self.m_device] ++
          destroy_if self.m_in_flight_fence (native_call.vkDestroyFence self.m_device) ++
          destroy_if self.m_render_finished_semaphore
            (native_call.vkDestroySemaphore self.m_device resource.m_render_finished_semaphore) ++
          destroy_if self.m_image_available_semaphore
            (native_call.vkDestroySemaphore self.m_device resource.m_image_available_semaphore) ++
          destroy_if self.m_command_pool (native_call.vkDestroyCommandPool self.m_device) ++
          framebuffers ++
          destroy_if self.m_graphics_pipeline (native_call.vkDestroyPipeline self.m_device) ++
          destroy_if self.m_pipeline_layout
            (native_call.vkDestroyPipelineLayout self.m_device) ++
          destroy_if self.m_render_pass (native_call.vkDestroyRenderPass self.m_device) ++
          image_views ++
          destroy_if self.m_swapchain (native_call.vkDestroySwapchainKHR self.m_device) ++
          destroy_if self.m_device (fun device => native_call.vkDestroyDevice device) ++
          destroy_if self.m_window_surface (native_call.vkDestroySurfaceKHR self.m_instance) ++
          destroy_if self.m_debugMessenger
            (native_call.vkDestroyDebugUtilsMessengerEXT self.m_instance) ++
          destroy_if self.m_instance (fun vk_instance => native_call.vkDestroyInstance vk_instance))
    | _, _ => outcome.undefined

end renderer_vulkan

/-- The bring-up stages of `create_with_window`, in the order of the source. -/
inductive bringup_stage where
  | loader
  | vk_instance
  | window_surface
  | logical_device
  | swapchain
  | render_pass
  | graphics_pipeline
  | framebuffers
  | command_pool
  | command_buffer
  | synchronization_objects
deriving DecidableEq, Repr

/-- What a call of `create_with_window` leaves behind: the returned pointer (`none` for
`nullptr`) when the call returns, the stages attempted in order, each with the `bool` it
gave (or without one when it did not return), and the native calls issued. -/
structure create_with_window_result where
  returned : outcome (Option renderer_vulkan)
  stages : List (bringup_stage × outcome Bool)
  calls : List native_call
deriving DecidableEq, Repr

/-- The chain `if (!renderer->stage(...)) return nullptr;` of `create_with_window`
(renderer.cpp, lines 77-104) over the stages still to run.  Returning `nullptr` destroys
the `unique_ptr` that holds the backend, which runs the destructor. -/
def run_stages :
    List (bringup_stage × (renderer_vulkan → outcome stage_result)) → renderer_vulkan →
      create_with_window_result
  | [], renderer => { returned := outcome.defined (some renderer), stages := [], calls := [] }
  | (name, stage) :: rest, renderer =>
    match stage renderer with
    | outcome.undefined =>
      { returned := outcome.undefined, stages := [(name, outcome.undefined)], calls := [] }
    | outcome.defined r =>
      if !r.returned then
        match r.self.destructor with
        | outcome.undefined =>
          { returned := outcome.undefined, stages := [(name, outcome.defined false)],
            calls := r.calls }
        | outcome.defined teardown_calls =>
          { returned := outcome.defined none, stages := [(name, outcome.defined false)],
            calls := r.calls ++ teardown_calls }
      else
        let tail := run_stages rest r.self
        { returned := tail.returned
          stages := (name, outcome.defined true) :: tail.stages
          calls := r.calls ++ tail.calls }

/-- The member functions called by `create_with_window` once the backend object exists,
in the order of the source. -/
def renderer_stages (d : driver) (w : window) (debugOutput : debug_output) :
    List (bringup_stage × (renderer_vulkan → outcome stage_result)) :=
  [(bringup_stage.window_surface, renderer_vulkan.create_window_surface d),
    (bringup_stage.logical_device, renderer_vulkan.create_logical_device d debugOutput),
    (bringup_stage.swapchain, renderer_vulkan.create_swapchain d w),
    (bringup_stage.render_pass, renderer_vulkan.create_render_pass d),
    (bringup_stage.graphics_pipeline, renderer_vulkan.create_graphics_pipeline d),
    (bringup_stage.framebuffers, renderer_vulkan.create_framebuffers d),
    (bringup_stage.command_pool, renderer_vulkan.create_command_pool d),
    (bringup_stage.command_buffer, renderer_vulkan.create_command_buffer d),
    (bringup_stage.synchronization_objects, renderer_vulkan.create_synchronization_objects d)]

/-- The lines 68-75 of `create_with_window`: `std::make_unique<renderer_vulkan>(instance)`,
which sets `m_instance` and leaves the other members at their initialisers, followed by
`create_debug_messenger` when debug output is enabled. -/
def make_renderer (d : driver) (debugOutput : debug_output) (vk_instance : Nat) :
    renderer_vulkan × List native_call :=
  let renderer : renderer_vulkan := { m_instance := some vk_instance }
  if debugOutput = debug_output.enabled then renderer.create_debug_messenger d
  else (renderer, [])

/-- The function `renderer_vulkan::create_with_window` (renderer.cpp, lines 52-105). -/
def create_with_window (d : driver) (w : window) (debugOutput : debug_output) :
    create_with_window_result :=
  let call_loader := native_call.volkInitialize d.volkInitialize
  if d.volkInitialize ≠ VK_SUCCESS then
    { returned := outcome.defined none
      stages := [(bringup_stage.loader, outcome.defined false)]
      calls := [call_loader] }
  else
    let created := create_instance d debugOutput
    match created.1 with
    | none =>
      { returned := outcome.defined none
        stages :=
          [(bringup_stage.loader, outcome.defined true),
            (bringup_stage.vk_instance, outcome.defined false)]
        calls := call_loader :: created.2 }
    | some vk_instance =>
      let renderer := make_renderer d debugOutput vk_instance
      let tail := run_stages (renderer_stages d w debugOutput) renderer.1
      { returned := tail.returned
        stages :=
          (bringup_stage.loader, outcome.defined true) ::
            (bringup_stage.vk_instance, outcome.defined true) :: tail.stages
        calls := call_loader :: (created.2 ++ renderer.2 ++ tail.calls) }

/-- The value `UINT64_MAX`. -/
def UINT64_MAX : Nat := 18446744073709551615
/-- The flag `VK_PIPELINE_STAGE_COLOR_ATTACHMENT_OUTPUT_BIT`. -/
def VK_PIPELINE_STAGE_COLOR_ATTACHMENT_OUTPUT_BIT : Nat := 1024
/-- The value `VK_ERROR_OUT_OF_HOST_MEMORY`. -/
def VK_ERROR_OUT_OF_HOST_MEMORY : Int := -1
/-- The value `VK_ERROR_OUT_OF_DATE_KHR`. -/
def VK_ERROR_OUT_OF_DATE_KHR : Int := -1000001004

/-- The state of the in-flight fence on the device, after the Vulkan rules for fences:
`vkResetFences` makes it unsignaled, a successful `vkQueueSubmit` that is given the fence
leaves a signal pending, which the device turns into the signaled state when the batch
has run; a failed submission leaves the fence as it was. -/
inductive fence_state where
  | unsignaled
  | signal_pending
  | signaled
deriving DecidableEq, Repr

/-- How a call of `render` ends: it returns, it never gets past `vkWaitForFences` (the
timeout is `UINT64_MAX` and nothing will signal the fence), or it runs into undefined
behaviour. -/
inductive render_status where
  | returned
  | blocked
  | undefined
deriving DecidableEq, Repr

/-- What the device answers to the native calls of one call of `render`: the `VkResult`
of each call and, for `vkAcquireNextImageKHR`, the image index it wrote to `image_index`
(`none` when it wrote none). -/
structure frame_driver where
  vkWaitForFences : Int
  vkResetFences : Int
  vkAcquireNextImageKHR : Int × Option Nat
  vkResetCommandBuffer : Int
  vkBeginCommandBuffer : Int
  vkEndCommandBuffer : Int
  vkQueueSubmit : Int
  vkQueuePresentKHR : Int
deriving DecidableEq, Repr

/-- What a call of `render` leaves behind: how it ended, the native calls issued in
order, and the state of the in-flight fence. -/
structure render_result where
  status : render_status
  calls : List native_call
  fence : fence_state
deriving DecidableEq, Repr

namespace renderer_vulkan

/-- The member `record_command_buffer` (renderer.cpp, lines 713-748): the returned
`bool` and the calls issued.  The local `image_index` of `render` is `none` when nothing
was written to it; the framebuffer is read through the unchecked `operator[]`. -/
def record_command_buffer (env : frame_driver) (self : renderer_vulkan)
    (command_buffer : handle) (image_index : Option Nat) : outcome Bool × List native_call :=
  let call_begin := native_call.vkBeginCommandBuffer command_buffer
  if env.vkBeginCommandBuffer ≠ VK_SUCCESS then (outcome.defined false, [call_begin])
  else
    match image_index with
    | none => (outcome.undefined, [call_begin])
    | some index =>
      match self.m_swapchain_framebuffers.get index with
      | outcome.undefined => (outcome.undefined, [call_begin])
      | outcome.defined framebuffer =>
        let calls :=
          [call_begin,
            native_call.vkCmdBeginRenderPass command_buffer self.m_render_pass framebuffer
              self.m_swapchain_extent [0, 0, 0, 1],
            native_call.vkCmdBindPipeline command_buffer self.m_graphics_pipeline,
            native_call.vkCmdDraw command_buffer 3 1 0 0,
            native_call.vkCmdEndRenderPass command_buffer,
            native_call.vkEndCommandBuffer command_buffer]
        if env.vkEndCommandBuffer ≠ VK_SUCCESS then (outcome.defined false, calls)
        else (outcome.defined true, calls)

/-- The member `render` (renderer.cpp, lines 160-206), `fence` being the state of the
in-flight fence when the call starts.  The results of `vkWaitForFences`, `vkResetFences`,
`vkAcquireNextImageKHR` and `vkResetCommandBuffer` are not looked at. -/
def render (env : frame_driver) (self : renderer_vulkan) (fence : fence_state) :
    render_result :=
  let call_wait := native_call.vkWaitForFences self.m_device self.m_in_flight_fence UINT64_MAX
  if fence = fence_state.unsignaled then
    { status := render_status.blocked, calls := [call_wait], fence := fence }
  else
    let call_reset := native_call.vkResetFences self.m_device self.m_in_flight_fence
    let image_index : Option Nat := env.vkAcquireNextImageKHR.2
    let call_acquire :=
      native_call.vkAcquireNextImageKHR self.m_device self.m_swapchain UINT64_MAX
        self.m_image_available_semaphore none
    let call_reset_buffer := native_call.vkResetCommandBuffer self.m_command_buffer
    let recorded := record_command_buffer env self self.m_command_buffer image_index
    let calls0 := [call_wait, call_reset, call_acquire, call_reset_buffer] ++ recorded.2
    match recorded.1 with
    | outcome.undefined =>
      { status := render_status.undefined, calls := calls0, fence := fence_state.unsignaled }
    | outcome.defined false =>
      { status := render_status.returned, calls := calls0, fence := fence_state.unsignaled }
    | outcome.defined true =>
      let submit_info : VkSubmitInfo :=
        { waitSemaphores := [self.m_image_available_semaphore]
          waitDstStageMask := [VK_PIPELINE_STAGE_COLOR_ATTACHMENT_OUTPUT_BIT]
          commandBuffers := [self.m_command_buffer]
          signalSemaphores := [self.m_render_finished_semaphore] }
      let call_submit :=
        native_call.vkQueueSubmit self.m_queues_graphics submit_info self.m_in_flight_fence
      if env.vkQueueSubmit ≠ VK_SUCCESS then
        { status := render_status.returned, calls := calls0 ++ [call_submit],
          fence := fence_state.unsignaled }
      else
        let present_info : VkPresentInfoKHR :=
          { waitSemaphores := [self.m_render_finished_semaphore]
            swapchains := [self.m_swapchain]
            imageIndices := [image_index] }
        let call_present := native_call.vkQueuePresentKHR self.m_queues_present present_info
        { status := render_status.returned, calls := calls0 ++ [call_submit, call_present],
          fence := fence_state.signal_pending }

end renderer_vulkan

/-! ## Sample platforms and frames -/

/-- A platform on which every bring-up call succeeds: the three instance extensions and
the validation layer are present, `device_a` is the only device, the swapchain has three
images, and handles are handed out as fixed numbers. -/
def driver_all_ok : driver :=
  { volkInitialize := VK_SUCCESS
    instanceExtensions :=
      [VK_KHR_SURFACE_EXTENSION_NAME, VK_KHR_WIN32_SURFACE_EXTENSION_NAME,
        VK_EXT_DEBUG_UTILS_EXTENSION_NAME]
    instanceLayers := ["VK_LAYER_KHRONOS_validation"]
    vkCreateInstance := fun _ => (VK_SUCCESS, 100)
    vkCreateDebugUtilsMessengerEXT := (VK_SUCCESS, 101)
    vkCreateWin32SurfaceKHR := (VK_SUCCESS, 102)
    devices := [device_a]
    vkCreateDevice := fun _ _ => (VK_SUCCESS, 103)
    vkCreateSwapchainKHR := fun _ => (VK_SUCCESS, 104)
    swapchainImages := [10, 11, 12]
    vkCreateImageView := fun image => (VK_SUCCESS, image.getD 0 + 10)
    vkCreateRenderPass := (VK_SUCCESS, 105)
    read_entire_file := fun _ => [3, 2, 35, 7]
    vkCreateShaderModule := fun _ => (VK_SUCCESS, 106)
    vkCreatePipelineLayout := (VK_SUCCESS, 107)
    vkCreateGraphicsPipelines := (VK_SUCCESS, 108)
    vkCreateFramebuffer := fun view => (VK_SUCCESS, view.getD 0 + 10)
    vkCreateCommandPool := (VK_SUCCESS, 109)
    vkAllocateCommandBuffers := (VK_SUCCESS, 110)
    vkCreateSemaphore := fun target =>
      (VK_SUCCESS, if target = resource.m_image_available_semaphore then 111 else 112)
    vkCreateFence := (VK_SUCCESS, 113) }

/-- The platform `driver_all_ok` with a failing `vkCreateWin32SurfaceKHR`. -/
def driver_no_surface : driver :=
  { driver_all_ok with vkCreateWin32SurfaceKHR := (VK_ERROR_OUT_OF_HOST_MEMORY, 0) }

/-- The platform `driver_all_ok` with a failing `vkCreateRenderPass`. -/
def driver_no_render_pass : driver :=
  { driver_all_ok with vkCreateRenderPass := (VK_ERROR_OUT_OF_HOST_MEMORY, 0) }

/-- A window of 800 x 600. -/
def window_800_600 : window := { width := 800, height := 600 }

/-- The backend built by `create_with_window` on `driver_all_ok` without debug output, as
a value: every handle set, three images, image views and framebuffers. -/
def backend_ok : renderer_vulkan :=
  { m_physical_device := some device_a
    m_device := some 103
    m_device_functions_loaded := true
    m_queues_graphics := some (0, 0)
    m_queues_present := some (0, 0)
    m_instance := some 100
    m_window_surface := some 102
    m_render_pass := some 105
    m_pipeline_layout := some 107
    m_graphics_pipeline := some 108
    m_command_pool := some 109
    m_command_buffer := some 110
    m_image_available_semaphore := some 111
    m_render_finished_semaphore := some 112
    m_in_flight_fence := some 113
    m_swapchain := some 104
    m_swapchain_image_format := some VK_FORMAT_B8G8R8A8_SRGB
    m_swapchain_extent := some { width := 1280, height := 720 }
    m_swapchain_images :=
      { m_data := [some (some 10), some (some 11), some (some 12)], m_size := 3, m_capacity := 3 }
    m_swapchain_image_views :=
      { m_data := [some (some 20), some (some 21), some (some 22)], m_size := 3, m_capacity := 3 }
    m_swapchain_framebuffers :=
      { m_data := [some (some 30), some (some 31), some (some 32)], m_size := 3, m_capacity := 3 }
    m_debugMessenger := none }

/-- A frame in which every native call succeeds and image 1 is acquired. -/
def frame_ok : frame_driver :=
  { vkWaitForFences := VK_SUCCESS
    vkResetFences := VK_SUCCESS
    vkAcquireNextImageKHR := (VK_SUCCESS, some 1)
    vkResetCommandBuffer := VK_SUCCESS
    vkBeginCommandBuffer := VK_SUCCESS
    vkEndCommandBuffer := VK_SUCCESS
    vkQueueSubmit := VK_SUCCESS
    vkQueuePresentKHR := VK_SUCCESS }

/-- A frame in which `vkQueueSubmit` fails for lack of host memory. -/
def frame_submit_fails : frame_driver :=
  { frame_ok with vkQueueSubmit := VK_ERROR_OUT_OF_HOST_MEMORY }

/-- A frame in which `vkQueuePresentKHR` fails. -/
def frame_present_fails : frame_driver :=
  { frame_ok with vkQueuePresentKHR := VK_ERROR_OUT_OF_DATE_KHR }

/-- A frame in which `vkAcquireNextImageKHR` fails and writes no image index. -/
def frame_acquire_fails : frame_driver :=
  { frame_ok with vkAcquireNextImageKHR := (VK_ERROR_OUT_OF_DATE_KHR, none) }

/-! ## Reading a trace of native calls -/

/-- The object that a native call has created, if it is a creation call that returned
`VK_SUCCESS` (`vkCreateDevice` is listed without its result and counts as it stands). -/
def created_resource : native_call → Option resource
  | native_call.vkCreateInstance _ result =>
    if result = VK_SUCCESS then some resource.m_instance else none
  | native_call.vkCreateDebugUtilsMessengerEXT _ result =>
    if result = VK_SUCCESS then some resource.m_debugMessenger else none
  | native_call.vkCreateWin32SurfaceKHR _ result =>
    if result = VK_SUCCESS then some resource.m_window_surface else none
  | native_call.device (device_call.vkCreateDevice _ _) => some resource.m_device
  | native_call.vkCreateSwapchainKHR _ _ result =>
    if result = VK_SUCCESS then some resource.m_swapchain else none
  | native_call.vkCreateImageView _ _ _ result =>
    if result = VK_SUCCESS then some resource.m_swapchain_image_views else none
  | native_call.vkCreateRenderPass _ _ result =>
    if result = VK_SUCCESS then some resource.m_render_pass else none
  | native_call.vkCreateShaderModule _ _ result =>
    if result = VK_SUCCESS then some resource.shader_module else none
  | native_call.vkCreatePipelineLayout _ result =>
    if result = VK_SUCCESS then some resource.m_pipeline_layout else none
  | native_call.vkCreateGraphicsPipelines _ _ _ _ result =>
    if result = VK_SUCCESS then some resource.m_graphics_pipeline else none
  | native_call.vkCreateFramebuffer _ _ _ _ result =>
    if result = VK_SUCCESS then some resource.m_swapchain_framebuffers else none
  | native_call.vkCreateCommandPool _ _ result =>
    if result = VK_SUCCESS then some resource.m_command_pool else none
  | native_call.vkAllocateCommandBuffers _ _ result =>
    if result = VK_SUCCESS then some resource.m_command_buffer else none
  | native_call.vkCreateSemaphore _ target result =>
    if result = VK_SUCCESS then some target else none
  | native_call.vkCreateFence _ _ result =>
    if result = VK_SUCCESS then some resource.m_in_flight_fence else none
  | _ => none

/-- The object that a native call destroys, if it is a destruction call. -/
def destroyed_resource : native_call → Option resource
  | native_call.vkDestroyShaderModule _ _ => some resource.shader_module
  | native_call.vkDestroyFence _ _ => some resource.m_in_flight_fence
  | native_call.vkDestroySemaphore _ target _ => some target
  | native_call.vkDestroyCommandPool _ _ => some resource.m_command_pool
  | native_call.vkDestroyFramebuffer _ _ => some resource.m_swapchain_framebuffers
  | native_call.vkDestroyPipeline _ _ => some resource.m_graphics_pipeline
  | native_call.vkDestroyPipelineLayout _ _ => some resource.m_pipeline_layout
  | native_call.vkDestroyRenderPass _ _ => some resource.m_render_pass
  | native_call.vkDestroyImageView _ _ => some resource.m_swapchain_image_views
  | native_call.vkDestroySwapchainKHR _ _ => some resource.m_swapchain
  | native_call.vkDestroyDevice _ => some resource.m_device
  | native_call.vkDestroySurfaceKHR _ _ => some resource.m_window_surface
  | native_call.vkDestroyDebugUtilsMessengerEXT _ _ => some resource.m_debugMessenger
  | native_call.vkDestroyInstance _ => some resource.m_instance
  | _ => none

/-- Whether a native call is `vkWaitForFences`. -/
def native_call.is_fence_wait : native_call → Bool
  | native_call.vkWaitForFences _ _ _ => true
  | _ => false

/-- Whether a native call is `vkResetFences`. -/
def native_call.is_fence_reset : native_call → Bool
  | native_call.vkResetFences _ _ => true
  | _ => false

/-- The fence handed to a native call that takes a fence to signal: `vkQueueSubmit` and
`vkAcquireNextImageKHR`. -/
def native_call.signals_fence : native_call → Option handle
  | native_call.vkQueueSubmit _ _ fence => some fence
  | native_call.vkAcquireNextImageKHR _ _ _ _ fence => some fence
  | _ => none

/-- Whether a native call is `vkQueueSubmit`. -/
def native_call.is_submit : native_call → Bool
  | native_call.vkQueueSubmit _ _ _ => true
  | _ => false

/-! ## `vector::push_back` -/

namespace vector

/-- The member `vector::push_back` (vector.h, lines 73-86): the size is incremented
first; when it then exceeds the capacity, the capacity is doubled, a new array is
allocated and the old elements are copied; at last `m_data[m_size - 1]` is written,
which is out of bounds when the array has no such element. -/
def push_back {T : Type} (self : vector T) (value : T) : outcome (vector T) :=
  let m_size := self.m_size + 1
  let grown : vector T :=
    if m_size > self.m_capacity then
      { m_data :=
          self.m_data.take (m_size - 1) ++
            List.replicate (self.m_capacity * 2 - (m_size - 1)) none
        m_size := m_size
        m_capacity := self.m_capacity * 2 }
    else { self with m_size := m_size }
  if m_size - 1 < grown.m_data.length then
    outcome.defined { grown with m_data := grown.m_data.set (m_size - 1) (some value) }
  else outcome.undefined

/-- A range-for loop that calls `push_back` with each value in turn. -/
def push_back_all {T : Type} : List T → vector T → outcome (vector T)
  | [], self => outcome.defined self
  | value :: rest, self =>
    match self.push_back value with
    | outcome.undefined => outcome.undefined
    | outcome.defined self1 => push_back_all rest self1

end vector

/-! ## Reading the calls of a frame -/

/-- Whether a native call is `vkQueuePresentKHR`. -/
def native_call.is_present : native_call → Bool
  | native_call.vkQueuePresentKHR _ _ => true
  | _ => false

/-- Whether a native call creates or allocates an object, whatever it returned. -/
def native_call.is_creation : native_call → Bool
  | native_call.vkCreateInstance _ _ => true
  | native_call.vkCreateDebugUtilsMessengerEXT _ _ => true
  | native_call.vkCreateWin32SurfaceKHR _ _ => true
  | native_call.device (device_call.vkCreateDevice _ _) => true
  | native_call.vkCreateSwapchainKHR _ _ _ => true
  | native_call.vkCreateImageView _ _ _ _ => true
  | native_call.vkCreateRenderPass _ _ _ => true
  | native_call.vkCreateShaderModule _ _ _ => true
  | native_call.vkCreatePipelineLayout _ _ => true
  | native_call.vkCreateGraphicsPipelines _ _ _ _ _ => true
  | native_call.vkCreateFramebuffer _ _ _ _ _ => true
  | native_call.vkCreateCommandPool _ _ _ => true
  | native_call.vkAllocateCommandBuffers _ _ _ => true
  | native_call.vkCreateSemaphore _ _ _ => true
  | native_call.vkCreateFence _ _ _ => true
  | _ => false

/-- Whether every native call of a frame succeeds: each `VkResult` is `VK_SUCCESS`, and
`vkAcquireNextImageKHR` has written the index of one of the `image_count` images of the
swapchain. -/
def frame_driver.all_succeed (env : frame_driver) (image_count : Nat) : Bool :=
  decide (env.vkWaitForFences = VK_SUCCESS) && decide (env.vkResetFences = VK_SUCCESS) &&
    decide (env.vkAcquireNextImageKHR.1 = VK_SUCCESS) &&
    (match env.vkAcquireNextImageKHR.2 with
      | some index => decide (index < image_count)
      | none => false) &&
    decide (env.vkResetCommandBuffer = VK_SUCCESS) &&
    decide (env.vkBeginCommandBuffer = VK_SUCCESS) &&
    decide (env.vkEndCommandBuffer = VK_SUCCESS) &&
    decide (env.vkQueueSubmit = VK_SUCCESS) && decide (env.vkQueuePresentKHR = VK_SUCCESS)

/-- The loop of `main` (main.cpp, lines 36-40) as far as the backend is concerned: one
call of `render` for each entry of `frames`, which holds what the device answers in that
frame; a call that does not return ends the run.  The result is the backend after the
last call and what each call left behind.  The backend is handed on as it is, for
`render` and `record_command_buffer` assign to no member: the native calls take the
members by value or as arrays they only read, and the one variable written through a
pointer is the local `image_index`.  The fence is handed on in the state in which the
call before left it. -/
def render_frames :
    List frame_driver → renderer_vulkan → fence_state → renderer_vulkan × List render_result
  | [], self, _ => (self, [])
  | env :: rest, self, fence =>
    let r := self.render env fence
    if r.status ≠ render_status.returned then (self, [r])
    else
      let tail := render_frames rest self r.fence
      (tail.1, r :: tail.2)

/-! ## Samples for the swapchain sequences -/

/-- The platform `driver_all_ok` with a swapchain of four images, one more than the
three images that `create_swapchain` asks for as the minimum on `device_a`. -/
def driver_extra_image : driver :=
  { driver_all_ok with swapchainImages := [10, 11, 12, 13] }

/-- The values of `minImageCount` in the `vkCreateSwapchainKHR` calls of a trace. -/
def requested_image_counts : List native_call → List Nat
  | [] => []
  | native_call.vkCreateSwapchainKHR _ createInfo _ :: rest =>
    createInfo.minImageCount :: requested_image_counts rest
  | _ :: rest => requested_image_counts rest

/-- The sizes of the image, image view and framebuffer vectors of the backend that a
call of `create_with_window` has returned. -/
def sequence_sizes (r : create_with_window_result) : Option (Nat × Nat × Nat) :=
  match r.returned with
  | outcome.defined (some backend) =>
    some (backend.m_swapchain_images.m_size, backend.m_swapchain_image_views.m_size,
      backend.m_swapchain_framebuffers.m_size)
  | _ => none

/-- The backend on `driver_all_ok` as `create_logical_device` leaves it, before
`create_swapchain` runs. -/
def backend_before_swapchain : renderer_vulkan :=
  { m_physical_device := some device_a
    m_device := some 103
    m_device_functions_loaded := true
    m_queues_graphics := some (0, 0)
    m_queues_present := some (0, 0)
    m_instance := some 100
    m_window_surface := some 102 }

/-- What `create_swapchain` leaves behind on `driver_all_ok` and
`backend_before_swapchain`. -/
def swapchain_stage_ok : stage_result :=
  match backend_before_swapchain.create_swapchain driver_all_ok window_800_600 with
  | outcome.defined r => r
  | outcome.undefined => { returned := false, self := backend_before_swapchain, calls := [] }

/-- What `create_framebuffers` leaves behind on `driver_all_ok` and the backend of
`swapchain_stage_ok`. -/
def framebuffers_stage_ok : stage_result :=
  match swapchain_stage_ok.self.create_framebuffers driver_all_ok with
  | outcome.defined r => r
  | outcome.undefined => { returned := false, self := swapchain_stage_ok.self, calls := [] }

/-! ## Platforms on which one bring-up call fails -/

/-- The platform `driver_all_ok` with a failing `vkCreateGraphicsPipelines`. -/
def driver_no_pipeline : driver :=
  { driver_all_ok with vkCreateGraphicsPipelines := (VK_ERROR_OUT_OF_HOST_MEMORY, 0) }

/-- The platform `driver_all_ok` on which `vkCreateShaderModule` succeeds for the vertex
shader code and fails for the fragment shader code. -/
def driver_no_fragment_module : driver :=
  { driver_all_ok with
    read_entire_file := fun path => if path = "shaders/triangle.vert.spv" then [3, 2, 35, 7] else [3, 2, 35, 8]
    vkCreateShaderModule := fun code =>
      if code = [3, 2, 35, 7] then (VK_SUCCESS, 106) else (VK_ERROR_OUT_OF_HOST_MEMORY, 0) }

/-- The platform `driver_all_ok` with a failing `vkCreateDevice`. -/
def driver_no_device : driver :=
  { driver_all_ok with vkCreateDevice := fun _ _ => (VK_ERROR_OUT_OF_HOST_MEMORY, 0) }

/-- The backend on `driver_all_ok` as the constructor leaves it: the instance is set and
every other member is at its initialiser. -/
def backend_instance_only : renderer_vulkan := { m_instance := some 100 }

/-- The platform `driver_all_ok` whose only physical device lacks the swapchain
extension, so that no device is suitable. -/
def driver_no_suitable_device : driver :=
  { driver_all_ok with devices := [device_no_swapchain] }

/-! ## Reading a list of queue families -/

/-- Whether the list has a family at index `j` and that family has the graphics bit. -/
def graphics_capable_at (families : List queue_family) (j : Nat) : Bool :=
  match families[j]? with
  | some queueFamily => decide (queueFamily.queueFlags &&& VK_QUEUE_GRAPHICS_BIT ≠ 0)
  | none => false

/-- Whether the list has a family at index `j` and that family can present to the
surface. -/
def present_capable_at (families : List queue_family) (j : Nat) : Bool :=
  match families[j]? with
  | some queueFamily => queueFamily.hasPresentSupport
  | none => false

/-- What an index variable of `find_queue_families` holds after the families at the
positions 0 to `k` were gone through, the first of them carrying the index `start` and
the variable holding `before` at the beginning: the index of the last of these families
that is capable, or `before` when none of them is. -/
def last_capable_upto (capable : Nat → Bool) (k start : Nat) (before found : Option Nat) :
    Prop :=
  (∃ j, j ≤ k ∧ capable j = true ∧ (∀ j2, j2 ≤ k → j < j2 → capable j2 = false) ∧
      found = some (start + j)) ∨
    ((∀ j, j ≤ k → capable j = false) ∧ found = before)

/-! ## Samples for the queue family loop and the vector -/

/-- A device like `device_a` with four queue families: two with the graphics bit only,
one that can only present, and one that can do both. -/
def device_late_present : VkPhysicalDevice :=
  { device_a with
    handle := 6
    queueFamilyProperties :=
      [family_graphics_only, family_graphics_only, family_present_only, family_all] }

/-- The platform `driver_all_ok` with a swapchain of two images, as many as the vectors of
the backend can hold without growing, and a failing `vkCreateImageView`. -/
def driver_two_images_no_view : driver :=
  { driver_all_ok with
    swapchainImages := [10, 11]
    vkCreateImageView := fun _ => (VK_ERROR_OUT_OF_HOST_MEMORY, 0) }

/-- The platform `driver_all_ok` with a swapchain of three images, more than the vectors
of the backend can hold without growing, and a failing `vkCreateImageView`. -/
def driver_three_images_no_view : driver :=
  { driver_all_ok with vkCreateImageView := fun _ => (VK_ERROR_OUT_OF_HOST_MEMORY, 0) }

/-- A full vector of capacity 2 that holds 5 and 6. -/
def vector_5_6 : vector Nat :=
  { m_data := [some 5, some 6], m_size := 2, m_capacity := 2 }

/-! ## Reading the stages of a bring-up -/

theorem vector_contains_iff {T : Type} [DecidableEq T] (elements : List T) (value : T) :
    vector.contains elements value = true ↔ value ∈ elements := by
  induction elements with
  | nil => simp [vector.contains]
  | cons x rest ih =>
    by_cases hx : x = value
    · simp [vector.contains, hx]
    · have hx2 : ¬ value = x := fun h => hx h.symm
      simp [vector.contains, hx, hx2, ih]

theorem is_preferred_format_iff (f : VkSurfaceFormatKHR) :
    is_preferred_format f = true ↔
      f.format = VK_FORMAT_B8G8R8A8_SRGB ∧ f.colorSpace = VK_COLOR_SPACE_SRGB_NONLINEAR_KHR := by
  simp [is_preferred_format]

theorem choose_surface_format_loop_first (pre post : List VkSurfaceFormatKHR)
    (f : VkSurfaceFormatKHR) (hpre : ∀ x ∈ pre, is_preferred_format x = false)
    (hf : is_preferred_format f = true) :
    choose_surface_format_loop (pre ++ f :: post) = some f := by
  induction pre with
  | nil => simp [choose_surface_format_loop, hf]
  | cons x rest ih =>
    have hx : is_preferred_format x = false := hpre x (List.mem_cons_self x rest)
    have hrest : ∀ y ∈ rest, is_preferred_format y = false :=
      fun y hy => hpre y (List.mem_cons_of_mem x hy)
    simp [choose_surface_format_loop, hx, ih hrest]

theorem choose_surface_format_loop_none (formats : List VkSurfaceFormatKHR)
    (hall : ∀ x ∈ formats, is_preferred_format x = false) :
    choose_surface_format_loop formats = none := by
  induction formats with
  | nil => rfl
  | cons x rest ih =>
    have hx : is_preferred_format x = false := hall x (List.mem_cons_self x rest)
    have hrest : ∀ y ∈ rest, is_preferred_format y = false :=
      fun y hy => hall y (List.mem_cons_of_mem x hy)
    simp [choose_surface_format_loop, hx, ih hrest]

theorem choose_surface_format_loop_mem (formats : List VkSurfaceFormatKHR)
    (f : VkSurfaceFormatKHR) (h : choose_surface_format_loop formats = some f) :
    f ∈ formats := by
  induction formats with
  | nil => simp [choose_surface_format_loop] at h
  | cons x rest ih =>
    by_cases hx : is_preferred_format x = true
    · simp [choose_surface_format_loop, hx] at h
      simp [h]
    · simp [choose_surface_format_loop, hx] at h
      exact List.mem_cons_of_mem x (ih h)

theorem choose_surface_format_mem (formats : List VkSurfaceFormatKHR)
    (f : VkSurfaceFormatKHR) (h : choose_surface_format formats = some f) :
    f ∈ formats := by
  unfold choose_surface_format at h
  cases hloop : choose_surface_format_loop formats with
  | some g =>
    rw [hloop] at h
    simp at h
    subst h
    exact choose_surface_format_loop_mem formats g hloop
  | none =>
    rw [hloop] at h
    cases formats with
    | nil => simp at h
    | cons x rest =>
      simp at h
      simp [h]

theorem choose_surface_format_isSome (formats : List VkSurfaceFormatKHR)
    (hne : formats ≠ []) : ∃ f, choose_surface_format formats = some f := by
  unfold choose_surface_format
  cases hloop : choose_surface_format_loop formats with
  | some g => exact ⟨g, rfl⟩
  | none =>
    cases formats with
    | nil => exact absurd rfl hne
    | cons x rest => exact ⟨x, by simp⟩

/-! ## The `choose_*` functions (claims C1, C2, C3) -/

/-- Claim C1, as stated, fails: the current extent (0xFFFFFFFF, 600) is not the sentinel
(its height is not 0xFFFFFFFF), and still `choose_surface_extent` does not return it but
the clamped request. -/
theorem choose_surface_extent_width_only_counterexample :
    ¬ (caps_width_only.currentExtent.width = UINT32_MAX ∧
        caps_width_only.currentExtent.height = UINT32_MAX) ∧
      choose_surface_extent caps_width_only 800 500 = { width := 800, height := 500 } ∧
      choose_surface_extent caps_width_only 800 500 ≠ caps_width_only.currentExtent := by
  decide

/-- Claim C1, amended: `choose_surface_extent` tests the width of the current extent
only.  When that width is not 0xFFFFFFFF the current extent is returned unchanged,
whatever is requested; when it is 0xFFFFFFFF (so in particular for the sentinel) the
result is `(clamp(width, min_w, max_w), clamp(height, min_h, max_h))`. -/
theorem choose_surface_extent_spec (capabilities : VkSurfaceCapabilitiesKHR)
    (ideal_width ideal_height : Nat) :
    (capabilities.currentExtent.width ≠ UINT32_MAX →
      choose_surface_extent capabilities ideal_width ideal_height =
        capabilities.currentExtent) ∧
    (capabilities.currentExtent.width = UINT32_MAX →
      choose_surface_extent capabilities ideal_width ideal_height =
        { width := math.clamp ideal_width capabilities.minImageExtent.width
            capabilities.maxImageExtent.width
          height := math.clamp ideal_height capabilities.minImageExtent.height
            capabilities.maxImageExtent.height }) := by
  constructor
  · intro h
    simp [choose_surface_extent, h]
  · intro h
    simp [choose_surface_extent, h]

/-- The amended claim C1 at a fixed extent of 1280 x 720 and a request of 800 x 600. -/
theorem choose_surface_extent_spec_witness :
    caps_fixed.currentExtent.width ≠ UINT32_MAX ∧
      choose_surface_extent caps_fixed 800 600 = caps_fixed.currentExtent :=
  ⟨by decide, (choose_surface_extent_spec caps_fixed 800 600).1 (by decide)⟩

/-- Claim C2: on a non-empty list of supported formats, `choose_surface_format` returns
the first entry with format B8G8R8A8_SRGB and color space SRGB_NONLINEAR when there is
one, returns the first entry of the list when there is none, and in both cases returns
an element of the list. -/
theorem choose_surface_format_spec (available_formats : List VkSurfaceFormatKHR)
    (hne : available_formats ≠ []) :
    (∀ (pre post : List VkSurfaceFormatKHR) (f : VkSurfaceFormatKHR),
      available_formats = pre ++ f :: post →
      (∀ x ∈ pre, ¬ (x.format = VK_FORMAT_B8G8R8A8_SRGB ∧
        x.colorSpace = VK_COLOR_SPACE_SRGB_NONLINEAR_KHR)) →
      f.format = VK_FORMAT_B8G8R8A8_SRGB ∧ f.colorSpace = VK_COLOR_SPACE_SRGB_NONLINEAR_KHR →
      choose_surface_format available_formats = some f) ∧
    ((∀ x ∈ available_formats, ¬ (x.format = VK_FORMAT_B8G8R8A8_SRGB ∧
        x.colorSpace = VK_COLOR_SPACE_SRGB_NONLINEAR_KHR)) →
      choose_surface_format available_formats = some (available_formats.head hne)) ∧
    (∃ r, choose_surface_format available_formats = some r ∧ r ∈ available_formats) := by
  refine ⟨?_, ?_, ?_⟩
  · intro pre post f heq hpre hf
    have hpre2 : ∀ x ∈ pre, is_preferred_format x = false := by
      intro x hx
      have := hpre x hx
      rw [← is_preferred_format_iff] at this
      simpa using this
    have hf2 : is_preferred_format f = true := (is_preferred_format_iff f).2 hf
    unfold choose_surface_format
    rw [heq, choose_surface_format_loop_first pre post f hpre2 hf2]
  · intro hall
    have hall2 : ∀ x ∈ available_formats, is_preferred_format x = false := by
      intro x hx
      have := hall x hx
      rw [← is_preferred_format_iff] at this
      simpa using this
    unfold choose_surface_format
    rw [choose_surface_format_loop_none available_formats hall2]
    cases available_formats with
    | nil => exact absurd rfl hne
    | cons x rest => simp
  · obtain ⟨r, hr⟩ := choose_surface_format_isSome available_formats hne
    exact ⟨r, hr, choose_surface_format_mem available_formats r hr⟩

/-- Claim C2 on the two lists of the specification: `[(R8G8B8A8, X)]` gives that entry,
and `[(R8G8B8A8, X), (B8G8R8A8_SRGB, SRGB_NONLINEAR)]` gives the second entry. -/
theorem choose_surface_format_spec_witness :
    [format_plain, format_bgra_srgb] ≠ [] ∧
      choose_surface_format [format_plain, format_bgra_srgb] = some format_bgra_srgb ∧
      choose_surface_format [format_plain] = some format_plain :=
  ⟨by decide,
    (choose_surface_format_spec [format_plain, format_bgra_srgb] (by decide)).1
      [format_plain] [] format_bgra_srgb rfl (by decide) (by decide),
    (choose_surface_format_spec [format_plain] (by decide)).2.1 (by decide)⟩

/-- Claim C3: `choose_present_mode` returns MAILBOX if and only if MAILBOX occurs in the
list of supported present modes and returns FIFO otherwise; `[FIFO]` gives FIFO and
`[FIFO, MAILBOX]` gives MAILBOX. -/
theorem choose_present_mode_spec (available_present_modes : List Nat) :
    (choose_present_mode available_present_modes = VK_PRESENT_MODE_MAILBOX_KHR ↔
      VK_PRESENT_MODE_MAILBOX_KHR ∈ available_present_modes) ∧
    (VK_PRESENT_MODE_MAILBOX_KHR ∉ available_present_modes →
      choose_present_mode available_present_modes = VK_PRESENT_MODE_FIFO_KHR) ∧
    choose_present_mode [VK_PRESENT_MODE_FIFO_KHR] = VK_PRESENT_MODE_FIFO_KHR ∧
    choose_present_mode [VK_PRESENT_MODE_FIFO_KHR, VK_PRESENT_MODE_MAILBOX_KHR] =
      VK_PRESENT_MODE_MAILBOX_KHR := by
  have hiff := vector_contains_iff available_present_modes VK_PRESENT_MODE_MAILBOX_KHR
  refine ⟨?_, ?_, by decide, by decide⟩
  · by_cases hmem : VK_PRESENT_MODE_MAILBOX_KHR ∈ available_present_modes
    · simp [choose_present_mode, hiff.2 hmem, hmem]
    · have hfalse : vector.contains available_present_modes VK_PRESENT_MODE_MAILBOX_KHR = false := by
        cases hc : vector.contains available_present_modes VK_PRESENT_MODE_MAILBOX_KHR with
        | false => rfl
        | true => exact absurd (hiff.1 hc) hmem
      simp [choose_present_mode, hfalse, hmem]
      decide
  · intro hmem
    have hfalse : vector.contains available_present_modes VK_PRESENT_MODE_MAILBOX_KHR = false := by
      cases hc : vector.contains available_present_modes VK_PRESENT_MODE_MAILBOX_KHR with
      | false => rfl
      | true => exact absurd (hiff.1 hc) hmem
    simp [choose_present_mode, hfalse]

/-! ## Helper lemmas: the multimap and the insertion loop -/

theorem list_getLast_cons_of_ne_nil {α : Type} (a : α) (l : List α) (h : l ≠ []) :
    (a :: l).getLast? = l.getLast? := by
  cases l with
  | nil => exact absurd rfl h
  | cons b rest => simp [List.getLast?_cons_cons]

theorem multimap_insert_cons_lt {V : Type} (entry e : Int × V) (rest : List (Int × V))
    (h : entry.1 < e.1) : multimap.insert entry (e :: rest) = entry :: e :: rest := by
  simp [multimap.insert, h]

theorem multimap_insert_cons_not_lt {V : Type} (entry e : Int × V) (rest : List (Int × V))
    (h : ¬ entry.1 < e.1) :
    multimap.insert entry (e :: rest) = e :: multimap.insert entry rest := by
  simp [multimap.insert, h]

theorem multimap_insert_ne_nil {V : Type} (entry : Int × V) (entries : List (Int × V)) :
    multimap.insert entry entries ≠ [] := by
  cases entries with
  | nil => simp [multimap.insert]
  | cons e rest =>
    by_cases h : entry.1 < e.1 <;> simp [multimap.insert, h]

theorem multimap_mem_insert {V : Type} (entry x : Int × V) (entries : List (Int × V))
    (hx : x ∈ multimap.insert entry entries) : x = entry ∨ x ∈ entries := by
  induction entries with
  | nil =>
    simp [multimap.insert] at hx
    exact Or.inl hx
  | cons e rest ih =>
    by_cases h : entry.1 < e.1
    · simp [multimap.insert, h] at hx
      rcases hx with hx | hx | hx
      · exact Or.inl hx
      · exact Or.inr (by simp [hx])
      · exact Or.inr (List.mem_cons_of_mem e hx)
    · simp [multimap.insert, h] at hx
      rcases hx with hx | hx
      · exact Or.inr (by simp [hx])
      · rcases ih hx with h1 | h1
        · exact Or.inl h1
        · exact Or.inr (List.mem_cons_of_mem e h1)

/-- An entry whose key is not below any key of the map becomes the last entry. -/
theorem multimap_rbegin_insert_top {V : Type} (entry : Int × V) (entries : List (Int × V))
    (hle : ∀ e ∈ entries, e.1 ≤ entry.1) :
    multimap.rbegin (multimap.insert entry entries) = some entry := by
  induction entries with
  | nil => simp [multimap.insert, multimap.rbegin]
  | cons e rest ih =>
    have he : ¬ entry.1 < e.1 := not_lt.mpr (hle e (List.mem_cons_self e rest))
    have hrest : ∀ y ∈ rest, y.1 ≤ entry.1 := fun y hy => hle y (List.mem_cons_of_mem e hy)
    have ih2 := ih hrest
    unfold multimap.rbegin at ih2 ⊢
    rw [multimap_insert_cons_not_lt entry e rest he]
    rw [list_getLast_cons_of_ne_nil _ _ (multimap_insert_ne_nil entry rest)]
    exact ih2

/-- An entry whose key is below the key of the last entry leaves the last entry in place. -/
theorem multimap_rbegin_insert_below {V : Type} (entry last : Int × V)
    (entries : List (Int × V)) (hlast : multimap.rbegin entries = some last)
    (hlt : entry.1 < last.1) :
    multimap.rbegin (multimap.insert entry entries) = some last := by
  induction entries with
  | nil => simp [multimap.rbegin] at hlast
  | cons e rest ih =>
    by_cases h : entry.1 < e.1
    · unfold multimap.rbegin at hlast ⊢
      rw [multimap_insert_cons_lt entry e rest h]
      rw [list_getLast_cons_of_ne_nil _ _ (List.cons_ne_nil e rest)]
      exact hlast
    · cases rest with
      | nil =>
        simp [multimap.rbegin] at hlast
        subst hlast
        exact absurd hlt h
      | cons e2 rest2 =>
        have hlast2 : multimap.rbegin (e2 :: rest2) = some last := by
          unfold multimap.rbegin at hlast ⊢
          rw [list_getLast_cons_of_ne_nil _ _ (List.cons_ne_nil e2 rest2)] at hlast
          exact hlast
        have ih2 := ih hlast2
        unfold multimap.rbegin at ih2 ⊢
        rw [multimap_insert_cons_not_lt entry e (e2 :: rest2) h]
        rw [list_getLast_cons_of_ne_nil _ _ (multimap_insert_ne_nil entry (e2 :: rest2))]
        exact ih2

theorem pick_physical_device_candidates_append (xs ys : List VkPhysicalDevice)
    (candidates : List (Int × VkPhysicalDevice)) :
    pick_physical_device_candidates (xs ++ ys) candidates =
      pick_physical_device_candidates ys (pick_physical_device_candidates xs candidates) := by
  induction xs generalizing candidates with
  | nil => rfl
  | cons x rest ih => simp [pick_physical_device_candidates, ih]

/-- Every entry of the map was either there before the loop or is a device of the
enumeration paired with its score. -/
theorem pick_physical_device_candidates_mem (devices : List VkPhysicalDevice)
    (candidates : List (Int × VkPhysicalDevice)) (e : Int × VkPhysicalDevice)
    (he : e ∈ pick_physical_device_candidates devices candidates) :
    e ∈ candidates ∨ ∃ d ∈ devices, e = (rate_device_suitability d, d) := by
  induction devices generalizing candidates with
  | nil => exact Or.inl he
  | cons x rest ih =>
    simp only [pick_physical_device_candidates] at he
    rcases ih _ he with h | ⟨d, hd, hed⟩
    · rcases multimap_mem_insert _ _ _ h with h1 | h1
      · exact Or.inr ⟨x, List.mem_cons_self x rest, h1⟩
      · exact Or.inl h1
    · exact Or.inr ⟨d, List.mem_cons_of_mem x hd, hed⟩

/-- Devices that all score below the last entry leave the last entry in place. -/
theorem pick_physical_device_candidates_below (post : List VkPhysicalDevice)
    (candidates : List (Int × VkPhysicalDevice)) (last : Int × VkPhysicalDevice)
    (hlast : multimap.rbegin candidates = some last)
    (hpost : ∀ x ∈ post, rate_device_suitability x < last.1) :
    multimap.rbegin (pick_physical_device_candidates post candidates) = some last := by
  induction post generalizing candidates with
  | nil => exact hlast
  | cons x rest ih =>
    simp only [pick_physical_device_candidates]
    apply ih
    · exact multimap_rbegin_insert_below _ last candidates hlast
        (hpost x (List.mem_cons_self x rest))
    · exact fun y hy => hpost y (List.mem_cons_of_mem x hy)

/-- The last entry of the map built by the insertion loop is the last device among
those with the greatest score. -/
theorem pick_physical_device_candidates_rbegin (pre post : List VkPhysicalDevice)
    (d : VkPhysicalDevice)
    (hpre : ∀ x ∈ pre, rate_device_suitability x ≤ rate_device_suitability d)
    (hpost : ∀ x ∈ post, rate_device_suitability x < rate_device_suitability d) :
    multimap.rbegin (pick_physical_device_candidates (pre ++ d :: post) []) =
      some (rate_device_suitability d, d) := by
  rw [pick_physical_device_candidates_append]
  simp only [pick_physical_device_candidates]
  apply pick_physical_device_candidates_below
  · apply multimap_rbegin_insert_top
    intro e he
    rcases pick_physical_device_candidates_mem pre [] e he with h | ⟨x, hx, hex⟩
    · simp at h
    · rw [hex]
      exact hpre x hx
  · exact hpost

/-- The result of `pick_physical_device` on an enumeration split at the last device with
the greatest score. -/
theorem pick_physical_device_split (pre post : List VkPhysicalDevice) (d : VkPhysicalDevice)
    (hpre : ∀ x ∈ pre, rate_device_suitability x ≤ rate_device_suitability d)
    (hpost : ∀ x ∈ post, rate_device_suitability x < rate_device_suitability d) :
    pick_physical_device (pre ++ d :: post) =
      if rate_device_suitability d > 0 then outcome.defined (some d)
      else outcome.defined none := by
  unfold pick_physical_device
  simp only [pick_physical_device_candidates_rbegin pre post d hpre hpost]

/-- Every non-empty enumeration splits at the last device with the greatest score. -/
theorem exists_last_top_score (devices : List VkPhysicalDevice) (hne : devices ≠ []) :
    ∃ (pre post : List VkPhysicalDevice) (d : VkPhysicalDevice),
      devices = pre ++ d :: post ∧
      (∀ x ∈ pre, rate_device_suitability x ≤ rate_device_suitability d) ∧
      (∀ x ∈ post, rate_device_suitability x < rate_device_suitability d) := by
  induction devices with
  | nil => exact absurd rfl hne
  | cons a rest ih =>
    cases hrest : rest with
    | nil => exact ⟨[], [], a, rfl, by simp, by simp⟩
    | cons b rest2 =>
      have hne2 : rest ≠ [] := by simp [hrest]
      obtain ⟨pre, post, d, hsplit, hpre, hpost⟩ := ih hne2
      rw [← hrest]
      by_cases ha : rate_device_suitability a ≤ rate_device_suitability d
      · refine ⟨a :: pre, post, d, by simp [hsplit], ?_, hpost⟩
        intro x hx
        rcases List.mem_cons.1 hx with h | h
        · rw [h]; exact ha
        · exact hpre x h
      · have ha2 : rate_device_suitability d < rate_device_suitability a := not_le.mp ha
        refine ⟨[], rest, a, rfl, by simp, ?_⟩
        intro x hx
        rw [hsplit] at hx
        rcases List.mem_append.1 hx with h | h
        · exact lt_of_le_of_lt (hpre x h) ha2
        · rcases List.mem_cons.1 h with h1 | h1
          · rw [h1]; exact ha2
          · exact lt_trans (hpost x h1) ha2

/-- A device returned by `pick_physical_device` belongs to the enumeration and has a
positive score. -/
theorem pick_physical_device_some (devices : List VkPhysicalDevice) (d : VkPhysicalDevice)
    (h : pick_physical_device devices = outcome.defined (some d)) :
    d ∈ devices ∧ 0 < rate_device_suitability d := by
  unfold pick_physical_device at h
  cases hlast : multimap.rbegin (pick_physical_device_candidates devices []) with
  | none => simp [hlast] at h
  | some last =>
    simp only [hlast] at h
    by_cases hpos : last.1 > 0
    · simp [hpos] at h
      have hmem : last ∈ pick_physical_device_candidates devices [] := by
        unfold multimap.rbegin at hlast
        exact List.mem_of_getLast?_eq_some hlast
      rcases pick_physical_device_candidates_mem devices [] last hmem with h1 | ⟨x, hx, hex⟩
      · simp at h1
      · rw [hex] at h hpos
        simp at h
        subst h
        exact ⟨hx, hpos⟩
    · simp [hpos] at h

/-! ## Helper lemmas: the disqualification checks and the score -/

theorem extension_found_iff (extensionName : String) (available : List String) :
    extension_found extensionName available = true ↔ extensionName ∈ available := by
  induction available with
  | nil => simp [extension_found]
  | cons a rest ih =>
    by_cases ha : extensionName = a
    · simp [extension_found, ha]
    · simp [extension_found, ha, ih]

theorem check_device_extension_support_iff (d : VkPhysicalDevice) :
    check_device_extension_support d REQUIRED_DEVICE_EXTENSION_NAMES = true ↔
      VK_KHR_SWAPCHAIN_EXTENSION_NAME ∈ d.availableExtensions := by
  have h := extension_found_iff VK_KHR_SWAPCHAIN_EXTENSION_NAME d.availableExtensions
  cases hc : extension_found VK_KHR_SWAPCHAIN_EXTENSION_NAME d.availableExtensions with
  | true =>
    simp [check_device_extension_support, REQUIRED_DEVICE_EXTENSION_NAMES,
      check_extension_names, hc, h.1 hc]
  | false =>
    have hmem : VK_KHR_SWAPCHAIN_EXTENSION_NAME ∉ d.availableExtensions := by
      intro hm
      rw [h.2 hm] at hc
      exact Bool.noConfusion hc
    simp [check_device_extension_support, REQUIRED_DEVICE_EXTENSION_NAMES,
      check_extension_names, hc, hmem]

theorem get_swapchain_support_details_formats (d : VkPhysicalDevice) :
    (get_swapchain_support_details d).formats = d.surfaceFormats := by
  unfold get_swapchain_support_details
  cases h : d.surfaceFormats with
  | nil => simp
  | cons x rest => simp

theorem get_swapchain_support_details_present_modes (d : VkPhysicalDevice) :
    (get_swapchain_support_details d).present_modes = d.surfacePresentModes := by
  unfold get_swapchain_support_details
  cases h : d.surfacePresentModes with
  | nil => simp
  | cons x rest => simp

/-- The score of a device that fails one of the four checks. -/
theorem rate_device_suitability_of_failed_check (d : VkPhysicalDevice)
    (h : VK_KHR_SWAPCHAIN_EXTENSION_NAME ∉ d.availableExtensions ∨ d.surfaceFormats = [] ∨
      d.surfacePresentModes = [] ∨ (find_queue_families d).is_complete = false) :
    rate_device_suitability d = 0 := by
  unfold rate_device_suitability
  simp only [get_swapchain_support_details_formats, get_swapchain_support_details_present_modes]
  cases hext : check_device_extension_support d REQUIRED_DEVICE_EXTENSION_NAMES with
  | false => simp
  | true =>
    have hmem := (check_device_extension_support_iff d).1 hext
    cases hfs : d.surfaceFormats with
    | nil => simp
    | cons f0 frest =>
      cases hms : d.surfacePresentModes with
      | nil => simp
      | cons m0 mrest =>
        rcases h with h | h | h | h
        · exact absurd hmem h
        · rw [hfs] at h
          exact absurd h (List.cons_ne_nil f0 frest)
        · rw [hms] at h
          exact absurd h (List.cons_ne_nil m0 mrest)
        · cases hcf : choose_surface_format (f0 :: frest) with
          | none => simp
          | some f => simp [h]

/-- The score of a device that passes the four checks. -/
theorem rate_device_suitability_of_passed_checks (d : VkPhysicalDevice)
    (hext : VK_KHR_SWAPCHAIN_EXTENSION_NAME ∈ d.availableExtensions)
    (hformats : d.surfaceFormats ≠ []) (hmodes : d.surfacePresentModes ≠ [])
    (hqueues : (find_queue_families d).is_complete = true)
    (f : VkSurfaceFormatKHR) (hf : choose_surface_format d.surfaceFormats = some f) :
    rate_device_suitability d =
      1000 * (if d.deviceType = VK_PHYSICAL_DEVICE_TYPE_DISCRETE_GPU then 1 else 0) +
      50 * (if f.format = VK_FORMAT_B8G8R8A8_SRGB then 1 else 0) +
      50 * (if f.colorSpace = VK_COLOR_SPACE_SRGB_NONLINEAR_KHR then 1 else 0) +
      100 * (if choose_present_mode d.surfacePresentModes = VK_PRESENT_MODE_MAILBOX_KHR
        then 1 else 0) := by
  have hcheck := (check_device_extension_support_iff d).2 hext
  have hfe : d.surfaceFormats.isEmpty = false := by
    cases hfs : d.surfaceFormats with
    | nil => exact absurd hfs hformats
    | cons x rest => rfl
  have hme : d.surfacePresentModes.isEmpty = false := by
    cases hms : d.surfacePresentModes with
    | nil => exact absurd hms hmodes
    | cons x rest => rfl
  unfold rate_device_suitability
  simp only [get_swapchain_support_details_formats, get_swapchain_support_details_present_modes,
    hcheck, hfe, hme, hf, hqueues, Bool.not_true, Bool.or_false, Bool.false_eq_true, if_false]
  split_ifs <;> norm_num

/-! ## Device selection (claims C4 to C9) -/

/-- Claim C4: when the enumeration contains at least one candidate with a positive
suitability score, `pick_physical_device` returns a candidate of the enumeration whose
score is the maximum over the enumeration. -/
theorem pick_physical_device_max (devices : List VkPhysicalDevice)
    (hpos : ∃ c ∈ devices, 0 < rate_device_suitability c) :
    ∃ d, pick_physical_device devices = outcome.defined (some d) ∧ d ∈ devices ∧
      ∀ x ∈ devices, rate_device_suitability x ≤ rate_device_suitability d := by
  obtain ⟨c, hc, hcpos⟩ := hpos
  have hne : devices ≠ [] := List.ne_nil_of_mem hc
  obtain ⟨pre, post, d, hsplit, hpre, hpost⟩ := exists_last_top_score devices hne
  have hmax : ∀ x ∈ devices, rate_device_suitability x ≤ rate_device_suitability d := by
    intro x hx
    rw [hsplit] at hx
    rcases List.mem_append.1 hx with h | h
    · exact hpre x h
    · rcases List.mem_cons.1 h with h1 | h1
      · rw [h1]
      · exact le_of_lt (hpost x h1)
  have hdpos : rate_device_suitability d > 0 := lt_of_lt_of_le hcpos (hmax c hc)
  refine ⟨d, ?_, ?_, hmax⟩
  · rw [hsplit, pick_physical_device_split pre post d hpre hpost]
    simp [hdpos]
  · rw [hsplit]
    simp

/-- Claim C4 on the enumeration of a device without any bonus followed by a device of
score 1200. -/
theorem pick_physical_device_max_witness :
    (∃ c ∈ [device_plain, device_a], 0 < rate_device_suitability c) ∧
      ∃ d, pick_physical_device [device_plain, device_a] = outcome.defined (some d) ∧
        d ∈ [device_plain, device_a] ∧
        ∀ x ∈ [device_plain, device_a],
          rate_device_suitability x ≤ rate_device_suitability d :=
  ⟨⟨device_a, by simp, by decide⟩,
    pick_physical_device_max [device_plain, device_a] ⟨device_a, by simp, by decide⟩⟩

/-- Claim C5, as stated, fails: `device_a` and `device_b` share the top score 1200 and
`device_a` is enumerated first, yet `pick_physical_device` returns `device_b`. -/
theorem pick_physical_device_tie_counterexample :
    rate_device_suitability device_a = 1200 ∧ rate_device_suitability device_b = 1200 ∧
      device_a ≠ device_b ∧
      pick_physical_device [device_a, device_b] = outcome.defined (some device_b) ∧
      pick_physical_device [device_a, device_b] ≠ outcome.defined (some device_a) := by
  decide

/-- Claim C5, amended: among the candidates that share the top suitability score, that
score being positive, `pick_physical_device` returns the one that comes last in
enumeration order (no candidate before it scores more, every candidate after it scores
less). -/
theorem pick_physical_device_tie_last (pre post : List VkPhysicalDevice)
    (d : VkPhysicalDevice) (hpos : 0 < rate_device_suitability d)
    (hpre : ∀ x ∈ pre, rate_device_suitability x ≤ rate_device_suitability d)
    (hpost : ∀ x ∈ post, rate_device_suitability x < rate_device_suitability d) :
    pick_physical_device (pre ++ d :: post) = outcome.defined (some d) := by
  rw [pick_physical_device_split pre post d hpre hpost]
  simp [hpos]

/-- The amended claim C5 on three candidates, the first two sharing the top score. -/
theorem pick_physical_device_tie_last_witness :
    0 < rate_device_suitability device_b ∧
      pick_physical_device ([device_a] ++ device_b :: [device_plain]) =
        outcome.defined (some device_b) :=
  ⟨by decide,
    pick_physical_device_tie_last [device_a] [device_plain] device_b (by decide) (by decide)
      (by decide)⟩

/-- Claim C6: a candidate that lacks the swapchain device extension, or reports no
surface format, or reports no present mode, or has an incomplete queue family
assignment, is rated 0 whatever its other properties are, and no enumeration makes
`pick_physical_device` return it. -/
theorem rate_device_suitability_unsuitable (d : VkPhysicalDevice)
    (h : VK_KHR_SWAPCHAIN_EXTENSION_NAME ∉ d.availableExtensions ∨ d.surfaceFormats = [] ∨
      d.surfacePresentModes = [] ∨ (find_queue_families d).is_complete = false) :
    rate_device_suitability d = 0 ∧
      ∀ devices : List VkPhysicalDevice,
        pick_physical_device devices ≠ outcome.defined (some d) := by
  have hzero := rate_device_suitability_of_failed_check d h
  refine ⟨hzero, ?_⟩
  intro devices hpick
  have hpos := (pick_physical_device_some devices d hpick).2
  rw [hzero] at hpos
  exact absurd hpos (lt_irrefl 0)

/-- Claim C6 on a discrete device with the preferred format and mailbox that lacks the
swapchain extension. -/
theorem rate_device_suitability_unsuitable_witness :
    VK_KHR_SWAPCHAIN_EXTENSION_NAME ∉ device_no_swapchain.availableExtensions ∧
      rate_device_suitability device_no_swapchain = 0 ∧
      pick_physical_device [device_no_swapchain, device_a] ≠
        outcome.defined (some device_no_swapchain) :=
  ⟨by decide,
    (rate_device_suitability_unsuitable device_no_swapchain (Or.inl (by decide))).1,
    (rate_device_suitability_unsuitable device_no_swapchain (Or.inl (by decide))).2
      [device_no_swapchain, device_a]⟩

/-- Claim C7: a candidate that has the swapchain extension, at least one surface format,
at least one present mode and a complete queue family assignment is rated exactly
1000 [discrete GPU] + 50 [chosen format is B8G8R8A8_SRGB] + 50 [chosen color space is
SRGB_NONLINEAR] + 100 [chosen present mode is MAILBOX], the chosen format and mode being
those of `choose_surface_format` and `choose_present_mode`. -/
theorem rate_device_suitability_score (d : VkPhysicalDevice)
    (hext : VK_KHR_SWAPCHAIN_EXTENSION_NAME ∈ d.availableExtensions)
    (hformats : d.surfaceFormats ≠ []) (hmodes : d.surfacePresentModes ≠ [])
    (hqueues : (find_queue_families d).is_complete = true) :
    ∃ format, choose_surface_format d.surfaceFormats = some format ∧
      rate_device_suitability d =
        1000 * (if d.deviceType = VK_PHYSICAL_DEVICE_TYPE_DISCRETE_GPU then 1 else 0) +
        50 * (if format.format = VK_FORMAT_B8G8R8A8_SRGB then 1 else 0) +
        50 * (if format.colorSpace = VK_COLOR_SPACE_SRGB_NONLINEAR_KHR then 1 else 0) +
        100 * (if choose_present_mode d.surfacePresentModes = VK_PRESENT_MODE_MAILBOX_KHR
          then 1 else 0) := by
  obtain ⟨f, hf⟩ := choose_surface_format_isSome d.surfaceFormats hformats
  exact ⟨f, hf, rate_device_suitability_of_passed_checks d hext hformats hmodes hqueues f hf⟩

/-- Claim C7 on a discrete device with the preferred format and mailbox. -/
theorem rate_device_suitability_score_witness :
    VK_KHR_SWAPCHAIN_EXTENSION_NAME ∈ device_a.availableExtensions ∧
      device_a.surfaceFormats ≠ [] ∧ device_a.surfacePresentModes ≠ [] ∧
      (find_queue_families device_a).is_complete = true ∧
      ∃ format, choose_surface_format device_a.surfaceFormats = some format ∧
        rate_device_suitability device_a =
          1000 * (if device_a.deviceType = VK_PHYSICAL_DEVICE_TYPE_DISCRETE_GPU then 1 else 0) +
          50 * (if format.format = VK_FORMAT_B8G8R8A8_SRGB then 1 else 0) +
          50 * (if format.colorSpace = VK_COLOR_SPACE_SRGB_NONLINEAR_KHR then 1 else 0) +
          100 * (if choose_present_mode device_a.surfacePresentModes =
            VK_PRESENT_MODE_MAILBOX_KHR then 1 else 0) :=
  ⟨by decide, by decide, by decide, by decide,
    rate_device_suitability_score device_a (by decide) (by decide) (by decide) (by decide)⟩

/-- Claim C8, as stated, fails: `device_plain` has the swapchain extension, a surface
format, a present mode and a complete queue family assignment, earns none of the
bonuses, is rated 0, and `pick_physical_device` returns the null device for the
enumeration that consists of it. -/
theorem pick_physical_device_no_bonus_counterexample :
    VK_KHR_SWAPCHAIN_EXTENSION_NAME ∈ device_plain.availableExtensions ∧
      device_plain.surfaceFormats ≠ [] ∧ device_plain.surfacePresentModes ≠ [] ∧
      (find_queue_families device_plain).is_complete = true ∧
      rate_device_suitability device_plain = 0 ∧
      pick_physical_device [device_plain] = outcome.defined none := by
  decide

/-- Claim C8, amended: when the enumeration includes a candidate that has the swapchain
extension, at least one surface format, at least one present mode and a complete queue
family assignment, and that candidate earns at least one of the score bonuses (discrete
GPU, chosen format, chosen color space, mailbox), `pick_physical_device` returns a
device. -/
theorem pick_physical_device_returns_device (devices : List VkPhysicalDevice)
    (c : VkPhysicalDevice) (hc : c ∈ devices)
    (hext : VK_KHR_SWAPCHAIN_EXTENSION_NAME ∈ c.availableExtensions)
    (hformats : c.surfaceFormats ≠ []) (hmodes : c.surfacePresentModes ≠ [])
    (hqueues : (find_queue_families c).is_complete = true)
    (hbonus : c.deviceType = VK_PHYSICAL_DEVICE_TYPE_DISCRETE_GPU ∨
      (∃ format, choose_surface_format c.surfaceFormats = some format ∧
        (format.format = VK_FORMAT_B8G8R8A8_SRGB ∨
          format.colorSpace = VK_COLOR_SPACE_SRGB_NONLINEAR_KHR)) ∨
      choose_present_mode c.surfacePresentModes = VK_PRESENT_MODE_MAILBOX_KHR) :
    ∃ d, pick_physical_device devices = outcome.defined (some d) := by
  have hcpos : 0 < rate_device_suitability c := by
    obtain ⟨f, hf⟩ := choose_surface_format_isSome c.surfaceFormats hformats
    rw [rate_device_suitability_of_passed_checks c hext hformats hmodes hqueues f hf]
    rcases hbonus with h | ⟨g, hg, h⟩ | h
    · rw [if_pos h]
      split_ifs <;> norm_num
    · rw [hf] at hg
      have hfg : f = g := Option.some.inj hg
      subst hfg
      rcases h with h | h
      · rw [if_pos h]
        split_ifs <;> norm_num
      · rw [if_pos h]
        split_ifs <;> norm_num
    · rw [if_pos h]
      split_ifs <;> norm_num
  have hne : devices ≠ [] := List.ne_nil_of_mem hc
  obtain ⟨pre, post, d, hsplit, hpre, hpost⟩ := exists_last_top_score devices hne
  have hcd : rate_device_suitability c ≤ rate_device_suitability d := by
    rw [hsplit] at hc
    rcases List.mem_append.1 hc with h | h
    · exact hpre c h
    · rcases List.mem_cons.1 h with h1 | h1
      · rw [h1]
      · exact le_of_lt (hpost c h1)
  have hdpos : rate_device_suitability d > 0 := lt_of_lt_of_le hcpos hcd
  refine ⟨d, ?_⟩
  rw [hsplit, pick_physical_device_split pre post d hpre hpost]
  simp [hdpos]

/-- The amended claim C8 on an enumeration whose second candidate is discrete. -/
theorem pick_physical_device_returns_device_witness :
    device_a ∈ [device_plain, device_a] ∧
      device_a.deviceType = VK_PHYSICAL_DEVICE_TYPE_DISCRETE_GPU ∧
      ∃ d, pick_physical_device [device_plain, device_a] = outcome.defined (some d) :=
  ⟨by simp, by decide,
    pick_physical_device_returns_device [device_plain, device_a] device_a (by simp)
      (by decide) (by decide) (by decide) (by decide) (Or.inl (by decide))⟩

/-- Claim C9 at the empty enumeration: the multimap of candidates stays empty,
`candidates.rbegin()` is dereferenced all the same, and neither `pick_physical_device`
nor `create_logical_device` has a defined result; the null device is not returned. -/
theorem pick_physical_device_empty_enumeration :
    pick_physical_device_candidates [] [] = [] ∧
      pick_physical_device [] = outcome.undefined ∧
      pick_physical_device [] ≠ outcome.defined none ∧
      ∀ (vkCreateDevice : VkPhysicalDevice → VkDeviceCreateInfo → Int × Nat)
        (debugOutput : debug_output) (self : device_state),
        create_logical_device [] vkCreateDevice debugOutput self = outcome.undefined := by
  refine ⟨rfl, rfl, by decide, ?_⟩
  intro vkCreateDevice debugOutput self
  rfl

/-- The part of claim C9 that holds: on a non-empty enumeration without a candidate of
positive score, `pick_physical_device` returns the null device and
`create_logical_device` returns false without any native call, leaving the logical
device handle as it was. -/
theorem create_logical_device_none_suitable (devices : List VkPhysicalDevice)
    (hne : devices ≠ []) (hnone : ∀ x ∈ devices, rate_device_suitability x ≤ 0)
    (vkCreateDevice : VkPhysicalDevice → VkDeviceCreateInfo → Int × Nat)
    (debugOutput : debug_output) (self : device_state) :
    pick_physical_device devices = outcome.defined none ∧
      create_logical_device devices vkCreateDevice debugOutput self =
        outcome.defined
          { returned := false, self := { self with m_physical_device := none }, calls := [] } := by
  obtain ⟨pre, post, d, hsplit, hpre, hpost⟩ := exists_last_top_score devices hne
  have hd : ¬ rate_device_suitability d > 0 := by
    have := hnone d (by rw [hsplit]; simp)
    exact not_lt.mpr this
  have hpick : pick_physical_device devices = outcome.defined none := by
    rw [hsplit, pick_physical_device_split pre post d hpre hpost]
    simp [hd]
  refine ⟨hpick, ?_⟩
  unfold create_logical_device
  rw [hpick]

/-! ## Queue family assignment (claim C10) -/

/-- One pass through the loop body of `find_queue_families`. -/
theorem find_queue_families_loop_cons (f : queue_family) (rest : List queue_family) (i : Nat)
    (indices : queue_family_indices) :
    ∃ indices2 : queue_family_indices,
      indices2.graphics =
        (if f.queueFlags &&& VK_QUEUE_GRAPHICS_BIT ≠ 0 then some i else indices.graphics) ∧
      indices2.present = (if f.hasPresentSupport = true then some i else indices.present) ∧
      find_queue_families_loop (f :: rest) i indices =
        if indices2.is_complete = true then indices2
        else find_queue_families_loop rest (i + 1) indices2 := by
  by_cases hg : f.queueFlags &&& VK_QUEUE_GRAPHICS_BIT ≠ 0
  · cases hp : f.hasPresentSupport with
    | true =>
      exact ⟨{ graphics := some i, present := some i }, by simp [hg], by simp,
        by simp [find_queue_families_loop, hg, hp, optional.assign]⟩
    | false =>
      exact ⟨{ graphics := some i, present := indices.present }, by simp [hg], by simp,
        by simp [find_queue_families_loop, hg, hp, optional.assign]⟩
  · cases hp : f.hasPresentSupport with
    | true =>
      exact ⟨{ graphics := indices.graphics, present := some i }, by simp [hg], by simp,
        by simp [find_queue_families_loop, hg, hp, optional.assign]⟩
    | false =>
      exact ⟨indices, by simp [hg], by simp,
        by simp [find_queue_families_loop, hg, hp]⟩

theorem is_complete_iff (indices : queue_family_indices) :
    indices.is_complete = true ↔
      indices.graphics.isSome = true ∧ indices.present.isSome = true := by
  simp [queue_family_indices.is_complete, optional.has_value]

theorem find_queue_families_loop_complete_iff (families : List queue_family) (i : Nat)
    (indices : queue_family_indices) :
    (find_queue_families_loop families i indices).is_complete = true ↔
      (indices.graphics.isSome = true ∨
        ∃ f ∈ families, f.queueFlags &&& VK_QUEUE_GRAPHICS_BIT ≠ 0) ∧
      (indices.present.isSome = true ∨ ∃ f ∈ families, f.hasPresentSupport = true) := by
  induction families generalizing i indices with
  | nil => simp [find_queue_families_loop, is_complete_iff]
  | cons f rest ih =>
    obtain ⟨indices2, hg2, hp2, hloop⟩ := find_queue_families_loop_cons f rest i indices
    have hG : indices2.graphics.isSome = true ↔
        (indices.graphics.isSome = true ∨ f.queueFlags &&& VK_QUEUE_GRAPHICS_BIT ≠ 0) := by
      rw [hg2]
      by_cases hg : f.queueFlags &&& VK_QUEUE_GRAPHICS_BIT ≠ 0
      · simp [hg]
      · simp [hg]
    have hP : indices2.present.isSome = true ↔
        (indices.present.isSome = true ∨ f.hasPresentSupport = true) := by
      rw [hp2]
      cases hp : f.hasPresentSupport with
      | true => simp
      | false => simp
    have hexG : (∃ x ∈ f :: rest, x.queueFlags &&& VK_QUEUE_GRAPHICS_BIT ≠ 0) ↔
        (f.queueFlags &&& VK_QUEUE_GRAPHICS_BIT ≠ 0 ∨
          ∃ x ∈ rest, x.queueFlags &&& VK_QUEUE_GRAPHICS_BIT ≠ 0) := by
      simp only [List.mem_cons, exists_eq_or_imp]
    have hexP : (∃ x ∈ f :: rest, x.hasPresentSupport = true) ↔
        (f.hasPresentSupport = true ∨ ∃ x ∈ rest, x.hasPresentSupport = true) := by
      simp only [List.mem_cons, exists_eq_or_imp]
    rw [hloop, hexG, hexP]
    by_cases hc : indices2.is_complete = true
    · rw [if_pos hc]
      have hc2 := (is_complete_iff indices2).1 hc
      have h1 := hG.1 hc2.1
      have h2 := hP.1 hc2.2
      constructor
      · intro _
        constructor
        · rcases h1 with h | h
          · exact Or.inl h
          · exact Or.inr (Or.inl h)
        · rcases h2 with h | h
          · exact Or.inl h
          · exact Or.inr (Or.inl h)
      · intro _
        exact hc
    · rw [if_neg hc, ih, hG, hP, or_assoc, or_assoc]

/-- A graphics index in the result was either there before the loop or is the index of
a family with the graphics bit. -/
theorem find_queue_families_loop_graphics (families : List queue_family) (i : Nat)
    (indices : queue_family_indices) (g : Nat)
    (h : (find_queue_families_loop families i indices).graphics = some g) :
    indices.graphics = some g ∨
      (i ≤ g ∧ ∃ f, families[g - i]? = some f ∧
        f.queueFlags &&& VK_QUEUE_GRAPHICS_BIT ≠ 0) := by
  induction families generalizing i indices with
  | nil => exact Or.inl h
  | cons f rest ih =>
    obtain ⟨indices2, hg2, _, hloop⟩ := find_queue_families_loop_cons f rest i indices
    rw [hloop] at h
    have hstep : indices2.graphics = some g →
        indices.graphics = some g ∨
          (i ≤ g ∧ ∃ x, (f :: rest)[g - i]? = some x ∧
            x.queueFlags &&& VK_QUEUE_GRAPHICS_BIT ≠ 0) := by
      intro h2
      rw [hg2] at h2
      by_cases hg : f.queueFlags &&& VK_QUEUE_GRAPHICS_BIT ≠ 0
      · rw [if_pos hg] at h2
        have hig : i = g := Option.some.inj h2
        subst hig
        exact Or.inr ⟨le_refl _, f, by simp, hg⟩
      · rw [if_neg hg] at h2
        exact Or.inl h2
    by_cases hc : indices2.is_complete = true
    · rw [if_pos hc] at h
      exact hstep h
    · rw [if_neg hc] at h
      rcases ih (i + 1) indices2 h with h2 | ⟨hle, x, hx, hxg⟩
      · exact hstep h2
      · refine Or.inr ⟨by omega, x, ?_, hxg⟩
        have hidx : g - i = (g - (i + 1)) + 1 := by omega
        rw [hidx, List.getElem?_cons_succ]
        exact hx

/-- A present index in the result was either there before the loop or is the index of
a family with present support. -/
theorem find_queue_families_loop_present (families : List queue_family) (i : Nat)
    (indices : queue_family_indices) (p : Nat)
    (h : (find_queue_families_loop families i indices).present = some p) :
    indices.present = some p ∨
      (i ≤ p ∧ ∃ f, families[p - i]? = some f ∧ f.hasPresentSupport = true) := by
  induction families generalizing i indices with
  | nil => exact Or.inl h
  | cons f rest ih =>
    obtain ⟨indices2, _, hp2, hloop⟩ := find_queue_families_loop_cons f rest i indices
    rw [hloop] at h
    have hstep : indices2.present = some p →
        indices.present = some p ∨
          (i ≤ p ∧ ∃ x, (f :: rest)[p - i]? = some x ∧ x.hasPresentSupport = true) := by
      intro h2
      rw [hp2] at h2
      by_cases hp : f.hasPresentSupport = true
      · rw [if_pos hp] at h2
        have hip : i = p := Option.some.inj h2
        subst hip
        exact Or.inr ⟨le_refl _, f, by simp, hp⟩
      · rw [if_neg hp] at h2
        exact Or.inl h2
    by_cases hc : indices2.is_complete = true
    · rw [if_pos hc] at h
      exact hstep h
    · rw [if_neg hc] at h
      rcases ih (i + 1) indices2 h with h2 | ⟨hle, x, hx, hxp⟩
      · exact hstep h2
      · refine Or.inr ⟨by omega, x, ?_, hxp⟩
        have hidx : p - i = (p - (i + 1)) + 1 := by omega
        rw [hidx, List.getElem?_cons_succ]
        exact hx

/-- Claim C10: `find_queue_families` returns a complete assignment if and only if some
family has the graphics bit and some family supports presenting to the surface; when
the assignment is complete, its graphics index is in range and names a family with the
graphics bit, and its present index is in range and names a family with present
support. -/
theorem find_queue_families_spec (physicalDevice : VkPhysicalDevice) :
    ((find_queue_families physicalDevice).is_complete = true ↔
      (∃ f ∈ physicalDevice.queueFamilyProperties,
        f.queueFlags &&& VK_QUEUE_GRAPHICS_BIT ≠ 0) ∧
      (∃ f ∈ physicalDevice.queueFamilyProperties, f.hasPresentSupport = true)) ∧
    ((find_queue_families physicalDevice).is_complete = true →
      ∃ g p, (find_queue_families physicalDevice).graphics = some g ∧
        (find_queue_families physicalDevice).present = some p ∧
        g < physicalDevice.queueFamilyProperties.length ∧
        (∃ f, physicalDevice.queueFamilyProperties[g]? = some f ∧
          f.queueFlags &&& VK_QUEUE_GRAPHICS_BIT ≠ 0) ∧
        p < physicalDevice.queueFamilyProperties.length ∧
        (∃ f, physicalDevice.queueFamilyProperties[p]? = some f ∧
          f.hasPresentSupport = true)) := by
  constructor
  · unfold find_queue_families
    rw [find_queue_families_loop_complete_iff]
    simp
  · intro hc
    have hc2 := (is_complete_iff _).1 hc
    obtain ⟨g, hg⟩ := Option.isSome_iff_exists.1 hc2.1
    obtain ⟨p, hp⟩ := Option.isSome_iff_exists.1 hc2.2
    refine ⟨g, p, hg, hp, ?_⟩
    have hg2 := hg
    have hp2 := hp
    unfold find_queue_families at hg2 hp2
    rcases find_queue_families_loop_graphics _ 0 _ g hg2 with h | ⟨_, f, hf, hfg⟩
    · simp at h
    · rcases find_queue_families_loop_present _ 0 _ p hp2 with h | ⟨_, f2, hf2, hfp⟩
      · simp at h
      · simp only [Nat.sub_zero] at hf hf2
        have hglt : g < physicalDevice.queueFamilyProperties.length := by
          by_contra hcon
          rw [List.getElem?_eq_none (not_lt.mp hcon)] at hf
          exact Option.noConfusion hf
        have hplt : p < physicalDevice.queueFamilyProperties.length := by
          by_contra hcon
          rw [List.getElem?_eq_none (not_lt.mp hcon)] at hf2
          exact Option.noConfusion hf2
        exact ⟨hglt, ⟨f, hf, hfg⟩, hplt, ⟨f2, hf2, hfp⟩⟩

/-! ## The swapchain request (claims C11, C12, C13) and the queue records (claim C14) -/

theorem clamp_nat_bounds (value min max : Nat) (h : min ≤ max) :
    min ≤ math.clamp value min max ∧ math.clamp value min max ≤ max := by
  unfold math.clamp
  split_ifs with h1 h2
  · exact ⟨le_refl _, h⟩
  · exact ⟨not_lt.mp h1, le_of_lt h2⟩
  · exact ⟨h, le_refl _⟩

theorem clamp_nat_in_range (value min max : Nat) (h1 : min ≤ value) (h2 : value ≤ max) :
    math.clamp value min max = value := by
  unfold math.clamp
  split_ifs with h3 h4
  · exact absurd h1 (not_le.mpr h3)
  · rfl
  · exact le_antisymm (not_lt.mp h4) h2

theorem choose_surface_extent_spec_aux (capabilities : VkSurfaceCapabilitiesKHR)
    (ideal_width ideal_height : Nat) (h : capabilities.currentExtent.width = UINT32_MAX) :
    choose_surface_extent capabilities ideal_width ideal_height =
      { width := math.clamp ideal_width capabilities.minImageExtent.width
          capabilities.maxImageExtent.width
        height := math.clamp ideal_height capabilities.minImageExtent.height
          capabilities.maxImageExtent.height } := by
  simp [choose_surface_extent, h]

/-- Claim C11, as stated, fails on two records: with a minimum of 3 and a maximum of 2
the requested count is 2, below the minimum; with a minimum of 0xFFFFFFFF and no maximum
the 32 bit sum wraps and the requested count is 0, which neither is the minimum plus
one nor reaches the minimum. -/
theorem swapchain_image_count_counterexample :
    swapchain_image_count caps_max_below_min = 2 ∧
      swapchain_image_count caps_max_below_min < caps_max_below_min.minImageCount ∧
      swapchain_image_count caps_min_wraps = 0 ∧
      swapchain_image_count caps_min_wraps ≠ caps_min_wraps.minImageCount + 1 ∧
      swapchain_image_count caps_min_wraps < caps_min_wraps.minImageCount := by
  decide

/-- Claim C11, amended: for every surface capability record whose minimum image count is
below 0xFFFFFFFF, the requested image count is the minimum plus one, except that it is
the maximum when the maximum is nonzero and exceeded by the minimum plus one; the count
is never above a nonzero maximum, and it is never below the minimum when the maximum is
zero or at least the minimum. -/
theorem swapchain_image_count_spec (capabilities : VkSurfaceCapabilitiesKHR)
    (hmin : capabilities.minImageCount < UINT32_MAX) :
    (¬ (capabilities.maxImageCount > 0 ∧
        capabilities.minImageCount + 1 > capabilities.maxImageCount) →
      swapchain_image_count capabilities = capabilities.minImageCount + 1) ∧
    (capabilities.maxImageCount > 0 ∧
        capabilities.minImageCount + 1 > capabilities.maxImageCount →
      swapchain_image_count capabilities = capabilities.maxImageCount) ∧
    (capabilities.maxImageCount > 0 →
      swapchain_image_count capabilities ≤ capabilities.maxImageCount) ∧
    (capabilities.maxImageCount = 0 ∨
        capabilities.minImageCount ≤ capabilities.maxImageCount →
      capabilities.minImageCount ≤ swapchain_image_count capabilities) := by
  have hmod : (capabilities.minImageCount + 1) % 2 ^ 32 = capabilities.minImageCount + 1 := by
    apply Nat.mod_eq_of_lt
    unfold UINT32_MAX at hmin
    omega
  unfold swapchain_image_count
  simp only [hmod]
  refine ⟨?_, ?_, ?_, ?_⟩
  · intro h
    rw [if_neg h]
  · intro h
    rw [if_pos h]
  · intro h
    split_ifs with h2
    · exact le_refl _
    · have : ¬ capabilities.minImageCount + 1 > capabilities.maxImageCount :=
        fun h3 => h2 ⟨h, h3⟩
      omega
  · intro h
    split_ifs with h2
    · rcases h with h | h
      · omega
      · exact h
    · omega

/-- The amended claim C11 on a surface with 2 images at least and 8 at most. -/
theorem swapchain_image_count_spec_witness :
    caps_fixed.minImageCount < UINT32_MAX ∧ swapchain_image_count caps_fixed = 3 ∧
      swapchain_image_count caps_fixed ≤ caps_fixed.maxImageCount ∧
      caps_fixed.minImageCount ≤ swapchain_image_count caps_fixed :=
  ⟨by decide,
    (swapchain_image_count_spec caps_fixed (by decide)).1 (by decide),
    (swapchain_image_count_spec caps_fixed (by decide)).2.2.1 (by decide),
    (swapchain_image_count_spec caps_fixed (by decide)).2.2.2 (Or.inr (by decide))⟩

/-- Claim C12: when the current extent is the sentinel and the minimum extent does not
exceed the maximum extent in either dimension, the extent returned by
`choose_surface_extent` has its width within [min_w, max_w] and its height within
[min_h, max_h], and equals the requested value in each dimension where that value
already lies in range. -/
theorem choose_surface_extent_in_bounds (capabilities : VkSurfaceCapabilitiesKHR)
    (ideal_width ideal_height : Nat)
    (hany : capabilities.currentExtent = { width := UINT32_MAX, height := UINT32_MAX })
    (hwidth : capabilities.minImageExtent.width ≤ capabilities.maxImageExtent.width)
    (hheight : capabilities.minImageExtent.height ≤ capabilities.maxImageExtent.height) :
    (capabilities.minImageExtent.width ≤
        (choose_surface_extent capabilities ideal_width ideal_height).width ∧
      (choose_surface_extent capabilities ideal_width ideal_height).width ≤
        capabilities.maxImageExtent.width) ∧
    (capabilities.minImageExtent.height ≤
        (choose_surface_extent capabilities ideal_width ideal_height).height ∧
      (choose_surface_extent capabilities ideal_width ideal_height).height ≤
        capabilities.maxImageExtent.height) ∧
    (capabilities.minImageExtent.width ≤ ideal_width →
      ideal_width ≤ capabilities.maxImageExtent.width →
      (choose_surface_extent capabilities ideal_width ideal_height).width = ideal_width) ∧
    (capabilities.minImageExtent.height ≤ ideal_height →
      ideal_height ≤ capabilities.maxImageExtent.height →
      (choose_surface_extent capabilities ideal_width ideal_height).height = ideal_height) := by
  have hw : capabilities.currentExtent.width = UINT32_MAX := by rw [hany]
  have heq := (choose_surface_extent_spec_aux capabilities ideal_width ideal_height hw)
  rw [heq]
  refine ⟨clamp_nat_bounds _ _ _ hwidth, clamp_nat_bounds _ _ _ hheight, ?_, ?_⟩
  · intro h1 h2
    exact clamp_nat_in_range _ _ _ h1 h2
  · intro h1 h2
    exact clamp_nat_in_range _ _ _ h1 h2

/-- Claim C12 on the bounds 100 x 100 to 4096 x 2160: a request of 5000 x 600 gives a
width within the bounds and the requested height. -/
theorem choose_surface_extent_in_bounds_witness :
    caps_any_extent.currentExtent = { width := UINT32_MAX, height := UINT32_MAX } ∧
      (choose_surface_extent caps_any_extent 5000 600).width ≤ 4096 ∧
      (choose_surface_extent caps_any_extent 5000 600).height = 600 :=
  ⟨by decide,
    (choose_surface_extent_in_bounds caps_any_extent 5000 600 (by decide) (by decide)
      (by decide)).1.2,
    (choose_surface_extent_in_bounds caps_any_extent 5000 600 (by decide) (by decide)
      (by decide)).2.2.2 (by decide) (by decide)⟩

theorem swapchain_sharing_of_complete (indices : queue_family_indices) (g p : Nat)
    (hg : indices.graphics = some g) (hp : indices.present = some p) :
    swapchain_sharing indices =
      if g ≠ p then outcome.defined (VK_SHARING_MODE_CONCURRENT, 2, [g, p])
      else outcome.defined (VK_SHARING_MODE_EXCLUSIVE, 0, []) := by
  unfold swapchain_sharing
  rw [hg, hp]
  by_cases h : g = p
  · simp [optional.value, optional.ne, optional.has_value, h]
  · simp [optional.value, optional.ne, optional.has_value, h]

/-- Claim C13: for every complete queue family assignment (graphics index g, present
index p), `create_swapchain` requests concurrent sharing with exactly the two indices
[g, p] if and only if g and p differ, and exclusive sharing if and only if they are
equal; this is what the swapchain request of every device with that assignment holds. -/
theorem swapchain_sharing_spec (indices : queue_family_indices) (g p : Nat)
    (hg : indices.graphics = some g) (hp : indices.present = some p) :
    ∃ mode count array,
      swapchain_sharing indices = outcome.defined (mode, count, array) ∧
      ((mode = VK_SHARING_MODE_CONCURRENT ∧ count = 2 ∧ array = [g, p]) ↔ g ≠ p) ∧
      (mode = VK_SHARING_MODE_EXCLUSIVE ↔ g = p) ∧
      ∀ (surface : handle) (d : VkPhysicalDevice) (width height : Nat),
        find_queue_families d = indices → d.surfaceFormats ≠ [] →
        ∃ info, create_swapchain_info surface d width height = outcome.defined info ∧
          info.imageSharingMode = mode ∧ info.queueFamilyIndexCount = count ∧
          info.pQueueFamilyIndices = array := by
  have hs := swapchain_sharing_of_complete indices g p hg hp
  by_cases h : g = p
  · rw [if_neg (not_not.mpr h)] at hs
    refine ⟨VK_SHARING_MODE_EXCLUSIVE, 0, [], hs, ?_, ?_, ?_⟩
    · constructor
      · rintro ⟨h1, _, _⟩
        exact absurd h1 (by decide)
      · intro h2
        exact absurd h h2
    · exact ⟨fun _ => h, fun _ => rfl⟩
    · intro surface d width height hd hf
      obtain ⟨f, hcf⟩ := choose_surface_format_isSome d.surfaceFormats hf
      unfold create_swapchain_info
      simp only [get_swapchain_support_details_formats, hcf, hd, hs]
      exact ⟨_, rfl, rfl, rfl, rfl⟩
  · rw [if_pos h] at hs
    refine ⟨VK_SHARING_MODE_CONCURRENT, 2, [g, p], hs, ?_, ?_, ?_⟩
    · exact ⟨fun _ => h, fun _ => ⟨rfl, rfl, rfl⟩⟩
    · constructor
      · intro h1
        exact absurd h1 (by decide)
      · intro h2
        exact absurd h2 h
    · intro surface d width height hd hf
      obtain ⟨f, hcf⟩ := choose_surface_format_isSome d.surfaceFormats hf
      unfold create_swapchain_info
      simp only [get_swapchain_support_details_formats, hcf, hd, hs]
      exact ⟨_, rfl, rfl, rfl, rfl⟩

/-- Claim C13 on the assignment of a device with graphics family 0 and present
family 1. -/
theorem swapchain_sharing_spec_witness :
    (find_queue_families device_split).graphics = some 0 ∧
      (find_queue_families device_split).present = some 1 ∧
      ∃ mode count array,
        swapchain_sharing (find_queue_families device_split) =
          outcome.defined (mode, count, array) ∧
        ((mode = VK_SHARING_MODE_CONCURRENT ∧ count = 2 ∧ array = [0, 1]) ↔ 0 ≠ 1) ∧
        (mode = VK_SHARING_MODE_EXCLUSIVE ↔ 0 = 1) ∧
        ∀ (surface : handle) (d : VkPhysicalDevice) (width height : Nat),
          find_queue_families d = find_queue_families device_split →
          d.surfaceFormats ≠ [] →
          ∃ info, create_swapchain_info surface d width height = outcome.defined info ∧
            info.imageSharingMode = mode ∧ info.queueFamilyIndexCount = count ∧
            info.pQueueFamilyIndices = array :=
  ⟨by decide, by decide,
    swapchain_sharing_spec (find_queue_families device_split) 0 1 (by decide) (by decide)⟩

theorem std_set_of_two_spec (a b : Nat) :
    (std_set_of_two a b).Nodup ∧ (∀ x, x ∈ std_set_of_two a b ↔ x = a ∨ x = b) ∧
      (std_set_of_two a b).length = if a = b then 1 else 2 := by
  unfold std_set_of_two
  by_cases h : a = b
  · simp [h]
  · by_cases h2 : a < b
    · simp [h, h2]
    · have h3 : ¬ b = a := fun e => h e.symm
      simp [h, h2, h3]
      intro x
      constructor
      · rintro (hx | hx)
        · exact Or.inr hx
        · exact Or.inl hx
      · rintro (hx | hx)
        · exact Or.inr hx
        · exact Or.inl hx

/-- The device creation request of `create_logical_device` for a picked device with a
complete assignment. -/
theorem create_logical_device_of_picked (devices : List VkPhysicalDevice)
    (vkCreateDevice : VkPhysicalDevice → VkDeviceCreateInfo → Int × Nat)
    (debugOutput : debug_output) (self : device_state) (d : VkPhysicalDevice) (g p : Nat)
    (hpick : pick_physical_device devices = outcome.defined (some d))
    (hg : (find_queue_families d).graphics = some g)
    (hp : (find_queue_families d).present = some p) :
    ∃ r, create_logical_device devices vkCreateDevice debugOutput self = outcome.defined r ∧
      r.calls.head? = some (device_call.vkCreateDevice d
        { queueCreateInfos := (std_set_of_two g p).map fun queueFamilyIndex =>
            { queueFamilyIndex := queueFamilyIndex, queueCount := 1 }
          enabledExtensionNames := REQUIRED_DEVICE_EXTENSION_NAMES
          enabledLayerNames :=
            if debugOutput = debug_output.enabled then ["VK_LAYER_KHRONOS_validation"]
            else [] }) ∧
      (r.calls.filter fun c =>
        match c with
        | device_call.vkCreateDevice _ _ => true
        | _ => false).length = 1 := by
  unfold create_logical_device
  simp only [hpick, hg, hp]
  split_ifs <;> exact ⟨_, rfl, rfl, rfl⟩

/-- Claim C14: for every complete queue family assignment (graphics index g, present
index p) of the picked device, `create_logical_device` issues one `vkCreateDevice` call
whose queue creation records are one per distinct family index: their family indices
are without repetition and are exactly g and p, there is one record when g = p and there
are two when g and p differ, and each record requests one queue. -/
theorem create_logical_device_queue_records (devices : List VkPhysicalDevice)
    (vkCreateDevice : VkPhysicalDevice → VkDeviceCreateInfo → Int × Nat)
    (debugOutput : debug_output) (self : device_state) (d : VkPhysicalDevice) (g p : Nat)
    (hpick : pick_physical_device devices = outcome.defined (some d))
    (hg : (find_queue_families d).graphics = some g)
    (hp : (find_queue_families d).present = some p) :
    ∃ r info, create_logical_device devices vkCreateDevice debugOutput self = outcome.defined r ∧
      r.calls.head? = some (device_call.vkCreateDevice d info) ∧
      (r.calls.filter fun c =>
        match c with
        | device_call.vkCreateDevice _ _ => true
        | _ => false).length = 1 ∧
      info.queueCreateInfos.length = (if g = p then 1 else 2) ∧
      (info.queueCreateInfos.map fun q => q.queueFamilyIndex).Nodup ∧
      (∀ x, x ∈ (info.queueCreateInfos.map fun q => q.queueFamilyIndex) ↔ x = g ∨ x = p) ∧
      ∀ q ∈ info.queueCreateInfos, q.queueCount = 1 := by
  obtain ⟨r, hr, hhead, hcount⟩ :=
    create_logical_device_of_picked devices vkCreateDevice debugOutput self d g p hpick hg hp
  obtain ⟨hnodup, hmem, hlen⟩ := std_set_of_two_spec g p
  have hmap : ((std_set_of_two g p).map fun queueFamilyIndex =>
      ({ queueFamilyIndex := queueFamilyIndex, queueCount := 1 } :
        VkDeviceQueueCreateInfo)).map (fun q => q.queueFamilyIndex) = std_set_of_two g p := by
    rw [List.map_map]
    exact List.map_id _
  refine ⟨r, _, hr, hhead, hcount, ?_, ?_, ?_, ?_⟩
  · simp [hlen]
  · rw [hmap]
    exact hnodup
  · intro x
    rw [hmap]
    exact hmem x
  · intro q hq
    simp only [List.mem_map] at hq
    obtain ⟨i, _, hi⟩ := hq
    rw [← hi]

/-- Claim C14 on a picked device with graphics family 0 and present family 1. -/
theorem create_logical_device_queue_records_witness :
    pick_physical_device [device_split] = outcome.defined (some device_split) ∧
      ∃ r info, create_logical_device [device_split] driver_ok debug_output.disabled {} =
          outcome.defined r ∧
        r.calls.head? = some (device_call.vkCreateDevice device_split info) ∧
        (r.calls.filter fun c =>
          match c with
          | device_call.vkCreateDevice _ _ => true
          | _ => false).length = 1 ∧
        info.queueCreateInfos.length = (if 0 = 1 then 1 else 2) ∧
        (info.queueCreateInfos.map fun q => q.queueFamilyIndex).Nodup ∧
        (∀ x, x ∈ (info.queueCreateInfos.map fun q => q.queueFamilyIndex) ↔ x = 0 ∨ x = 1) ∧
        ∀ q ∈ info.queueCreateInfos, q.queueCount = 1 :=
  ⟨by decide,
    create_logical_device_queue_records [device_split] driver_ok debug_output.disabled {}
      device_split 0 1 (by decide) (by decide) (by decide)⟩

/-! ## Bring-up order (claim C15) -/

theorem mem_dropLast_cons {α : Type} (a p : α) (l : List α) (h : p ∈ (a :: l).dropLast) :
    p = a ∨ p ∈ l.dropLast := by
  cases l with
  | nil => simp at h
  | cons b rest =>
    rw [List.dropLast_cons₂] at h
    exact List.mem_cons.1 h

/-- The chain of stages: the stages attempted are the first ones of the chain, each stage
followed by another has returned true, and a backend is returned exactly when every stage
of the chain was attempted and returned true. -/
theorem run_stages_spec
    (stages : List (bringup_stage × (renderer_vulkan → outcome stage_result)))
    (renderer : renderer_vulkan) :
    ((run_stages stages renderer).stages.map Prod.fst) <+: (stages.map Prod.fst) ∧
    (∀ p ∈ (run_stages stages renderer).stages.dropLast, p.2 = outcome.defined true) ∧
    ((∃ backend, (run_stages stages renderer).returned = outcome.defined (some backend)) ↔
      (run_stages stages renderer).stages =
        stages.map fun p => (p.1, outcome.defined true)) := by
  induction stages generalizing renderer with
  | nil => simp [run_stages]
  | cons head rest ih =>
    obtain ⟨name, stage⟩ := head
    cases hstage : stage renderer with
    | undefined =>
      simp only [run_stages, hstage]
      refine ⟨?_, ?_, ?_⟩
      · simp [List.prefix_cons_inj]
      · simp
      · simp
    | defined r =>
      cases hret : r.returned with
      | false =>
        cases hdes : r.self.destructor with
        | undefined =>
          simp only [run_stages, hstage, hret, hdes]
          refine ⟨?_, ?_, ?_⟩
          · simp [List.prefix_cons_inj]
          · simp
          · simp
        | defined teardown_calls =>
          simp only [run_stages, hstage, hret, hdes]
          refine ⟨?_, ?_, ?_⟩
          · simp [List.prefix_cons_inj]
          · simp
          · simp
      | true =>
        obtain ⟨ih1, ih2, ih3⟩ := ih r.self
        simp only [run_stages, hstage, hret]
        refine ⟨?_, ?_, ?_⟩
        · simpa [List.prefix_cons_inj] using ih1
        · intro p hp
          simp only [Bool.not_true, Bool.false_eq_true, if_false] at hp
          rcases mem_dropLast_cons _ _ _ hp with h | h
          · rw [h]
          · exact ih2 p h
        · simpa using ih3

theorem create_with_window_of_loader_failure (d : driver) (w : window)
    (debugOutput : debug_output) (h : d.volkInitialize ≠ VK_SUCCESS) :
    create_with_window d w debugOutput =
      { returned := outcome.defined none
        stages := [(bringup_stage.loader, outcome.defined false)]
        calls := [native_call.volkInitialize d.volkInitialize] } := by
  unfold create_with_window
  rw [if_pos h]

theorem create_with_window_of_instance_failure (d : driver) (w : window)
    (debugOutput : debug_output) (h : d.volkInitialize = VK_SUCCESS)
    (hinst : (create_instance d debugOutput).1 = none) :
    create_with_window d w debugOutput =
      { returned := outcome.defined none
        stages :=
          [(bringup_stage.loader, outcome.defined true),
            (bringup_stage.vk_instance, outcome.defined false)]
        calls := native_call.volkInitialize d.volkInitialize :: (create_instance d debugOutput).2 } := by
  unfold create_with_window
  rw [if_neg (not_not.mpr h)]
  simp only [hinst]

theorem create_with_window_of_instance (d : driver) (w : window)
    (debugOutput : debug_output) (vk_instance : Nat) (h : d.volkInitialize = VK_SUCCESS)
    (hinst : (create_instance d debugOutput).1 = some vk_instance) :
    create_with_window d w debugOutput =
      { returned :=
          (run_stages (renderer_stages d w debugOutput)
            (make_renderer d debugOutput vk_instance).1).returned
        stages :=
          (bringup_stage.loader, outcome.defined true) ::
            (bringup_stage.vk_instance, outcome.defined true) ::
              (run_stages (renderer_stages d w debugOutput)
                (make_renderer d debugOutput vk_instance).1).stages
        calls :=
          native_call.volkInitialize d.volkInitialize ::
            ((create_instance d debugOutput).2 ++ (make_renderer d debugOutput vk_instance).2 ++
              (run_stages (renderer_stages d w debugOutput)
                (make_renderer d debugOutput vk_instance).1).calls) } := by
  unfold create_with_window
  rw [if_neg (not_not.mpr h)]
  simp only [hinst]

/-- The four ways in which `record_command_buffer` can go. -/
theorem record_command_buffer_cases (env : frame_driver) (self : renderer_vulkan)
    (command_buffer : handle) (image_index : Option Nat) :
    self.record_command_buffer env command_buffer image_index =
        (outcome.defined false, [native_call.vkBeginCommandBuffer command_buffer]) ∨
      self.record_command_buffer env command_buffer image_index =
        (outcome.undefined, [native_call.vkBeginCommandBuffer command_buffer]) ∨
      ∃ framebuffer,
        self.record_command_buffer env command_buffer image_index =
          (outcome.defined false,
            [native_call.vkBeginCommandBuffer command_buffer,
              native_call.vkCmdBeginRenderPass command_buffer self.m_render_pass framebuffer
                self.m_swapchain_extent [0, 0, 0, 1],
              native_call.vkCmdBindPipeline command_buffer self.m_graphics_pipeline,
              native_call.vkCmdDraw command_buffer 3 1 0 0,
              native_call.vkCmdEndRenderPass command_buffer,
              native_call.vkEndCommandBuffer command_buffer]) ∨
        self.record_command_buffer env command_buffer image_index =
          (outcome.defined true,
            [native_call.vkBeginCommandBuffer command_buffer,
              native_call.vkCmdBeginRenderPass command_buffer self.m_render_pass framebuffer
                self.m_swapchain_extent [0, 0, 0, 1],
              native_call.vkCmdBindPipeline command_buffer self.m_graphics_pipeline,
              native_call.vkCmdDraw command_buffer 3 1 0 0,
              native_call.vkCmdEndRenderPass command_buffer,
              native_call.vkEndCommandBuffer command_buffer]) := by
  unfold renderer_vulkan.record_command_buffer
  by_cases hbegin : env.vkBeginCommandBuffer ≠ VK_SUCCESS
  · rw [if_pos hbegin]
    exact Or.inl rfl
  · rw [if_neg hbegin]
    cases image_index with
    | none => exact Or.inr (Or.inl rfl)
    | some index =>
      dsimp only
      cases hfb : self.m_swapchain_framebuffers.get index with
      | undefined => exact Or.inr (Or.inl rfl)
      | defined framebuffer =>
        dsimp only
        by_cases hend : env.vkEndCommandBuffer ≠ VK_SUCCESS
        · rw [if_pos hend]
          exact Or.inr (Or.inr ⟨framebuffer, Or.inl rfl⟩)
        · rw [if_neg hend]
          exact Or.inr (Or.inr ⟨framebuffer, Or.inr rfl⟩)

/-- The calls of `render` when the fence wait returns: the four opening calls, then one
of the four ways in which recording, submission and presentation can go. -/
theorem render_calls_cases (env : frame_driver) (self : renderer_vulkan) (fence : fence_state)
    (hreturns : fence ≠ fence_state.unsignaled) :
    ∃ rest,
      (self.render env fence).calls =
        native_call.vkWaitForFences self.m_device self.m_in_flight_fence UINT64_MAX ::
          native_call.vkResetFences self.m_device self.m_in_flight_fence ::
          native_call.vkAcquireNextImageKHR self.m_device self.m_swapchain UINT64_MAX
            self.m_image_available_semaphore none ::
          native_call.vkResetCommandBuffer self.m_command_buffer ::
          native_call.vkBeginCommandBuffer self.m_command_buffer :: rest ∧
      (rest = [] ∨
        ∃ framebuffer recorded,
          recorded =
            [native_call.vkCmdBeginRenderPass self.m_command_buffer self.m_render_pass
                framebuffer self.m_swapchain_extent [0, 0, 0, 1],
              native_call.vkCmdBindPipeline self.m_command_buffer self.m_graphics_pipeline,
              native_call.vkCmdDraw self.m_command_buffer 3 1 0 0,
              native_call.vkCmdEndRenderPass self.m_command_buffer,
              native_call.vkEndCommandBuffer self.m_command_buffer] ∧
          (rest = recorded ∨
            ∃ submit, rest = recorded ++
                [native_call.vkQueueSubmit self.m_queues_graphics submit
                  self.m_in_flight_fence] ∨
              ∃ present, rest = recorded ++
                [native_call.vkQueueSubmit self.m_queues_graphics submit
                  self.m_in_flight_fence,
                  native_call.vkQueuePresentKHR self.m_queues_present present])) := by
  obtain hr | hr | ⟨framebuffer, hr | hr⟩ :=
    record_command_buffer_cases env self self.m_command_buffer env.vkAcquireNextImageKHR.2
  · unfold renderer_vulkan.render
    rw [if_neg hreturns]
    simp only [hr]
    exact ⟨_, rfl, Or.inl rfl⟩
  · unfold renderer_vulkan.render
    rw [if_neg hreturns]
    simp only [hr]
    exact ⟨_, rfl, Or.inl rfl⟩
  · unfold renderer_vulkan.render
    rw [if_neg hreturns]
    simp only [hr]
    exact ⟨_, rfl, Or.inr ⟨framebuffer, _, rfl, Or.inl rfl⟩⟩
  · unfold renderer_vulkan.render
    rw [if_neg hreturns]
    simp only [hr]
    split_ifs
    · exact ⟨_, rfl, Or.inr ⟨framebuffer, _, rfl, Or.inr ⟨_, Or.inl rfl⟩⟩⟩
    · exact ⟨_, rfl, Or.inr ⟨framebuffer, _, rfl, Or.inr ⟨_, Or.inr ⟨_, rfl⟩⟩⟩⟩

/-- Claim C17: in every call of `render` whose fence wait returns, whatever the native
calls return, the calls start with one wait on the in-flight fence followed by one reset
of it; no later call waits on or resets a fence, at most one later call is a queue
submission, and the only later calls that are handed a fence to signal are the image
acquisition, handed the null fence, and that submission, handed the in-flight fence. -/
theorem render_fence_protocol (env : frame_driver) (self : renderer_vulkan)
    (fence : fence_state) (hreturns : fence ≠ fence_state.unsignaled) :
    ∃ rest,
      (self.render env fence).calls =
        native_call.vkWaitForFences self.m_device self.m_in_flight_fence UINT64_MAX ::
          native_call.vkResetFences self.m_device self.m_in_flight_fence :: rest ∧
      (∀ c ∈ rest, c.is_fence_wait = false ∧ c.is_fence_reset = false) ∧
      (rest.filter native_call.is_submit).length ≤ 1 ∧
      ∀ c ∈ rest, c.signals_fence = none ∨
        (c.is_submit = false ∧ c.signals_fence = some none) ∨
        (c.is_submit = true ∧ c.signals_fence = some self.m_in_flight_fence) := by
  obtain ⟨rest, hcalls, hrest⟩ := render_calls_cases env self fence hreturns
  refine ⟨_, hcalls, ?_⟩
  rcases hrest with h | ⟨framebuffer, recorded, hrec, h | ⟨submit, h | ⟨present, h⟩⟩⟩
  · subst h
    simp [native_call.is_fence_wait, native_call.is_fence_reset, native_call.is_submit,
      native_call.signals_fence]
  · subst h hrec
    simp [native_call.is_fence_wait, native_call.is_fence_reset, native_call.is_submit,
      native_call.signals_fence]
  · subst h hrec
    simp [native_call.is_fence_wait, native_call.is_fence_reset, native_call.is_submit,
      native_call.signals_fence]
  · subst h hrec
    simp [native_call.is_fence_wait, native_call.is_fence_reset, native_call.is_submit,
      native_call.signals_fence]

/-- Claim C17 on a frame in which every native call succeeds. -/
theorem render_fence_protocol_witness :
    fence_state.signaled ≠ fence_state.unsignaled ∧
      ∃ rest,
        (backend_ok.render frame_ok fence_state.signaled).calls =
          native_call.vkWaitForFences backend_ok.m_device backend_ok.m_in_flight_fence
              UINT64_MAX ::
            native_call.vkResetFences backend_ok.m_device backend_ok.m_in_flight_fence ::
            rest ∧
        (∀ c ∈ rest, c.is_fence_wait = false ∧ c.is_fence_reset = false) ∧
        (rest.filter native_call.is_submit).length ≤ 1 ∧
        ∀ c ∈ rest, c.signals_fence = none ∨
          (c.is_submit = false ∧ c.signals_fence = some none) ∨
          (c.is_submit = true ∧ c.signals_fence = some backend_ok.m_in_flight_fence) :=
  ⟨by decide, render_fence_protocol frame_ok backend_ok fence_state.signaled (by decide)⟩

/-- Claim C18 at a frame whose `vkQueueSubmit` fails for lack of host memory: `render`
has reset the in-flight fence before, no submission is there to signal it, so the call
returns with the fence unsignaled and without a pending signal, and the next call of
`render` never gets past its fence wait.  (After a failed presentation the signal of the
accepted submission is pending.) -/
theorem render_submit_failure_leaves_fence_unsignaled :
    (backend_ok.render frame_submit_fails fence_state.signaled).status =
        render_status.returned ∧
      (backend_ok.render frame_submit_fails fence_state.signaled).fence =
        fence_state.unsignaled ∧
      (backend_ok.render frame_ok
          (backend_ok.render frame_submit_fails fence_state.signaled).fence).status =
        render_status.blocked ∧
      (backend_ok.render frame_ok
          (backend_ok.render frame_submit_fails fence_state.signaled).fence).calls =
        [native_call.vkWaitForFences backend_ok.m_device backend_ok.m_in_flight_fence
          UINT64_MAX] ∧
      (backend_ok.render frame_present_fails fence_state.signaled).fence =
        fence_state.signal_pending := by
  decide

/-- Claim C19 at a frame whose `vkAcquireNextImageKHR` fails without writing an image
index: the result of the call is not looked at, the command buffer is reset and
`vkBeginCommandBuffer` is issued, and then the framebuffer sequence is indexed with the
unwritten `image_index`, which has no defined result; the frame is not skipped. -/
theorem render_acquire_failure_not_skipped :
    frame_acquire_fails.vkAcquireNextImageKHR = (VK_ERROR_OUT_OF_DATE_KHR, none) ∧
      backend_ok.render frame_acquire_fails fence_state.signaled =
        { status := render_status.undefined
          calls :=
            [native_call.vkWaitForFences backend_ok.m_device backend_ok.m_in_flight_fence
                UINT64_MAX,
              native_call.vkResetFences backend_ok.m_device backend_ok.m_in_flight_fence,
              native_call.vkAcquireNextImageKHR backend_ok.m_device backend_ok.m_swapchain
                UINT64_MAX backend_ok.m_image_available_semaphore none,
              native_call.vkResetCommandBuffer backend_ok.m_command_buffer,
              native_call.vkBeginCommandBuffer backend_ok.m_command_buffer]
          fence := fence_state.unsignaled } := by
  decide

/-- Claim C20: in every call of `render` in which all native calls succeed (the fence
wait returns, the acquired index names a framebuffer of the backend), the native calls
are, in this order: wait fence, reset fence, acquire image, reset command buffer, begin
command buffer, begin render pass on the framebuffer at the acquired index with clear
color (0, 0, 0, 1), bind the graphics pipeline, draw 3 vertices and 1 instance, end
render pass, end command buffer, submit to the graphics queue, present on the present
queue.  Only the results that `render` looks at are assumed to be `VK_SUCCESS`; the order
is the same whatever the fence wait, the fence reset, the command buffer reset and the
presentation return. -/
theorem render_success_calls (env : frame_driver) (self : renderer_vulkan)
    (fence : fence_state) (index : Nat) (framebuffer : handle)
    (hreturns : fence ≠ fence_state.unsignaled)
    (hacquire : env.vkAcquireNextImageKHR = (VK_SUCCESS, some index))
    (hframebuffer : self.m_swapchain_framebuffers.get index = outcome.defined framebuffer)
    (hbegin : env.vkBeginCommandBuffer = VK_SUCCESS)
    (hend : env.vkEndCommandBuffer = VK_SUCCESS)
    (hsubmit : env.vkQueueSubmit = VK_SUCCESS) :
    (self.render env fence).status = render_status.returned ∧
    (self.render env fence).calls =
      [native_call.vkWaitForFences self.m_device self.m_in_flight_fence UINT64_MAX,
        native_call.vkResetFences self.m_device self.m_in_flight_fence,
        native_call.vkAcquireNextImageKHR self.m_device self.m_swapchain UINT64_MAX
          self.m_image_available_semaphore none,
        native_call.vkResetCommandBuffer self.m_command_buffer,
        native_call.vkBeginCommandBuffer self.m_command_buffer,
        native_call.vkCmdBeginRenderPass self.m_command_buffer self.m_render_pass framebuffer
          self.m_swapchain_extent [0, 0, 0, 1],
        native_call.vkCmdBindPipeline self.m_command_buffer self.m_graphics_pipeline,
        native_call.vkCmdDraw self.m_command_buffer 3 1 0 0,
        native_call.vkCmdEndRenderPass self.m_command_buffer,
        native_call.vkEndCommandBuffer self.m_command_buffer,
        native_call.vkQueueSubmit self.m_queues_graphics
          { waitSemaphores := [self.m_image_available_semaphore]
            waitDstStageMask := [VK_PIPELINE_STAGE_COLOR_ATTACHMENT_OUTPUT_BIT]
            commandBuffers := [self.m_command_buffer]
            signalSemaphores := [self.m_render_finished_semaphore] }
          self.m_in_flight_fence,
        native_call.vkQueuePresentKHR self.m_queues_present
          { waitSemaphores := [self.m_render_finished_semaphore]
            swapchains := [self.m_swapchain]
            imageIndices := [some index] }] := by
  have hidx : env.vkAcquireNextImageKHR.2 = some index := by rw [hacquire]
  unfold renderer_vulkan.render renderer_vulkan.record_command_buffer
  rw [if_neg hreturns]
  simp [hidx, hframebuffer, hbegin, hend, hsubmit]

/-- Claim C20 on the backend with three framebuffers and a frame that acquires
image 1. -/
theorem render_success_calls_witness :
    backend_ok.m_swapchain_framebuffers.get 1 = outcome.defined (some 31) ∧
      (backend_ok.render frame_ok fence_state.signaled).status = render_status.returned ∧
      (backend_ok.render frame_ok fence_state.signaled).calls =
        [native_call.vkWaitForFences backend_ok.m_device backend_ok.m_in_flight_fence
            UINT64_MAX,
          native_call.vkResetFences backend_ok.m_device backend_ok.m_in_flight_fence,
          native_call.vkAcquireNextImageKHR backend_ok.m_device backend_ok.m_swapchain
            UINT64_MAX backend_ok.m_image_available_semaphore none,
          native_call.vkResetCommandBuffer backend_ok.m_command_buffer,
          native_call.vkBeginCommandBuffer backend_ok.m_command_buffer,
          native_call.vkCmdBeginRenderPass backend_ok.m_command_buffer
            backend_ok.m_render_pass (some 31) backend_ok.m_swapchain_extent [0, 0, 0, 1],
          native_call.vkCmdBindPipeline backend_ok.m_command_buffer
            backend_ok.m_graphics_pipeline,
          native_call.vkCmdDraw backend_ok.m_command_buffer 3 1 0 0,
          native_call.vkCmdEndRenderPass backend_ok.m_command_buffer,
          native_call.vkEndCommandBuffer backend_ok.m_command_buffer,
          native_call.vkQueueSubmit backend_ok.m_queues_graphics
            { waitSemaphores := [backend_ok.m_image_available_semaphore]
              waitDstStageMask := [VK_PIPELINE_STAGE_COLOR_ATTACHMENT_OUTPUT_BIT]
              commandBuffers := [backend_ok.m_command_buffer]
              signalSemaphores := [backend_ok.m_render_finished_semaphore] }
            backend_ok.m_in_flight_fence,
          native_call.vkQueuePresentKHR backend_ok.m_queues_present
            { waitSemaphores := [backend_ok.m_render_finished_semaphore]
              swapchains := [backend_ok.m_swapchain]
              imageIndices := [some 1] }] :=
  ⟨by decide,
    render_success_calls frame_ok backend_ok fence_state.signaled 1 (some 31) (by decide) rfl
      (by decide) rfl rfl rfl⟩

/-! ## Helper lemmas: vectors of handles and the creation loops -/

theorem written_of_pointwise (l : List (Option handle))
    (h : ∀ j, j < l.length → ∃ x : Nat, l[j]? = some (some (some x))) :
    ∃ hs : List Nat, l = hs.map (fun x => some (some x)) ∧ hs.length = l.length := by
  induction l with
  | nil => exact ⟨[], rfl, rfl⟩
  | cons e rest ih =>
    obtain ⟨x, hx⟩ := h 0 (by simp)
    have hrest : ∀ j, j < rest.length → ∃ y : Nat, rest[j]? = some (some (some y)) := by
      intro j hj
      obtain ⟨y, hy⟩ := h (j + 1) (by simp; omega)
      exact ⟨y, by simpa using hy⟩
    obtain ⟨hs, hhs, hlen⟩ := ih hrest
    have he : e = some (some x) := by simpa using hx
    refine ⟨x :: hs, ?_, by simp [hlen]⟩
    rw [he, hhs]
    simp

theorem vector_new_well_formed {T : Type} (initial_capacity : Nat) :
    (vector.new initial_capacity : vector T).well_formed := by
  simp [vector.new, vector.well_formed]

theorem vector_resize_well_formed {T : Type} (zero : T) (self : vector T) (new_size : Nat)
    (h : self.well_formed) :
    (self.resize zero new_size).well_formed ∧ (self.resize zero new_size).m_size = new_size := by
  obtain ⟨hlen, hsize⟩ := h
  unfold vector.resize
  by_cases hgrow : new_size > self.m_capacity
  · rw [if_pos hgrow]
    refine ⟨⟨?_, le_refl _⟩, rfl⟩
    simp only [List.length_append, List.length_take, List.length_replicate]
    omega
  · rw [if_neg hgrow]
    exact ⟨⟨hlen, not_lt.mp hgrow⟩, rfl⟩

/-- A creation loop that runs to its end writes a handle to every element it visits,
leaves the other elements, the size and the capacity as they were, and issues one
successful creation call for each index. -/
theorem create_loop_success (source : vector handle) (create : handle → Int × Nat)
    (call : handle → Int → native_call) (kind : resource)
    (hkind : ∀ x, created_resource (call x VK_SUCCESS) = some kind)
    (idxs : List Nat) (target : vector handle) (r : Bool × vector handle × List native_call)
    (h : renderer_vulkan.create_loop source create call idxs target = outcome.defined r) (hok : r.1 = true) :
    r.2.1.m_size = target.m_size ∧ r.2.1.m_capacity = target.m_capacity ∧
      r.2.1.m_data.length = target.m_data.length ∧
      (∀ j ∈ idxs, ∃ x : Nat, r.2.1.m_data[j]? = some (some (some x))) ∧
      (∀ j, j ∉ idxs → r.2.1.m_data[j]? = target.m_data[j]?) ∧
      r.2.2.filterMap created_resource = List.replicate idxs.length kind := by
  induction idxs generalizing target r with
  | nil =>
    simp only [renderer_vulkan.create_loop] at h
    have hr : r = (true, target, []) := (outcome.defined.inj h).symm
    subst hr
    simp
  | cons i rest ih =>
    simp only [renderer_vulkan.create_loop] at h
    cases hget : source.get i with
    | undefined => simp [hget] at h
    | defined element =>
      simp only [hget] at h
      by_cases hres : (create element).1 ≠ VK_SUCCESS
      · rw [if_pos hres] at h
        have hr := (outcome.defined.inj h).symm
        subst hr
        simp at hok
      · rw [if_neg hres] at h
        have hsucc : (create element).1 = VK_SUCCESS := not_not.mp hres
        cases hset : target.set i (some (create element).2) with
        | undefined => simp [hset] at h
        | defined target1 =>
          simp only [hset] at h
          cases hloop : renderer_vulkan.create_loop source create call rest target1 with
          | undefined => simp [hloop] at h
          | defined r1 =>
            simp only [hloop] at h
            have hr := (outcome.defined.inj h).symm
            subst hr
            simp only at hok
            obtain ⟨h1, h2, h3, h4, h5, h6⟩ := ih target1 r1 hloop hok
            have hi : i < target.m_data.length ∧
                target1 = { target with m_data := target.m_data.set i (some (some (create element).2)) } := by
              unfold vector.set at hset
              by_cases hlt : i < target.m_data.length
              · rw [if_pos hlt] at hset
                exact ⟨hlt, (outcome.defined.inj hset).symm⟩
              · rw [if_neg hlt] at hset
                exact outcome.noConfusion hset
            obtain ⟨hilt, htarget1⟩ := hi
            subst htarget1
            simp only at h1 h2 h3 h5
            refine ⟨h1, h2, ?_, ?_, ?_, ?_⟩
            · rw [h3]
              simp
            · intro j hj
              by_cases hjr : j ∈ rest
              · exact h4 j hjr
              · have hji : j = i := by
                  rcases List.mem_cons.1 hj with hh | hh
                  · exact hh
                  · exact absurd hh hjr
                subst hji
                refine ⟨(create element).2, ?_⟩
                rw [h5 j hjr]
                exact List.getElem?_set_self hilt
            · intro j hj
              have hji : i ≠ j := fun e => hj (by rw [e]; exact List.mem_cons_self j rest)
              have hjr : j ∉ rest := fun e => hj (List.mem_cons_of_mem i e)
              rw [h5 j hjr]
              exact List.getElem?_set_ne hji
            · simp only [List.filterMap_cons, hsucc, hkind, h6, List.length_cons]
              rfl

/-- A creation loop over all indices below the size of a well formed target that runs to
its end leaves every element of the target written with a handle. -/
theorem create_loop_range_success (source : vector handle) (create : handle → Int × Nat)
    (call : handle → Int → native_call) (kind : resource)
    (hkind : ∀ x, created_resource (call x VK_SUCCESS) = some kind)
    (target : vector handle) (htarget : target.well_formed) (n : Nat)
    (hn : target.m_size = n)
    (r : Bool × vector handle × List native_call)
    (h : renderer_vulkan.create_loop source create call (List.range n) target =
      outcome.defined r)
    (hok : r.1 = true) :
    r.2.1.m_size = n ∧
      (∃ hs : List Nat, r.2.1.elements = hs.map (fun x => some (some x)) ∧ hs.length = n) ∧
      r.2.2.filterMap created_resource = List.replicate n kind := by
  subst hn
  obtain ⟨h1, _, h3, h4, _, h6⟩ :=
    create_loop_success source create call kind hkind _ target r h hok
  obtain ⟨hlen, hsize⟩ := htarget
  have hlen_elements : r.2.1.elements.length = target.m_size := by
    unfold vector.elements
    rw [List.length_take, h1, h3, hlen]
    exact Nat.min_eq_left hsize
  refine ⟨h1, ?_, by simpa using h6⟩
  obtain ⟨hs, hhs, hhslen⟩ := written_of_pointwise r.2.1.elements (by
    intro j hj
    rw [hlen_elements] at hj
    obtain ⟨x, hx⟩ := h4 j (List.mem_range.2 hj)
    refine ⟨x, ?_⟩
    unfold vector.elements
    rw [List.getElem?_take_of_lt (by rw [h1]; exact hj)]
    exact hx)
  exact ⟨hs, hhs, by rw [hhslen, hlen_elements]⟩

/-! ## Helper lemmas: what a successful bring-up stage leaves behind -/

theorem run_stages_cons_success (name : bringup_stage)
    (stage : renderer_vulkan → outcome stage_result)
    (rest : List (bringup_stage × (renderer_vulkan → outcome stage_result)))
    (renderer backend : renderer_vulkan)
    (h : (run_stages ((name, stage) :: rest) renderer).returned =
      outcome.defined (some backend)) :
    ∃ r, stage renderer = outcome.defined r ∧ r.returned = true ∧
      (run_stages rest r.self).returned = outcome.defined (some backend) ∧
      (run_stages ((name, stage) :: rest) renderer).calls =
        r.calls ++ (run_stages rest r.self).calls := by
  cases hstage : stage renderer with
  | undefined => simp [run_stages, hstage] at h
  | defined r =>
    cases hret : r.returned with
    | false =>
      cases hdes : r.self.destructor with
      | undefined => simp [run_stages, hstage, hret, hdes] at h
      | defined teardown_calls => simp [run_stages, hstage, hret, hdes] at h
    | true =>
      simp only [run_stages, hstage, hret] at h ⊢
      exact ⟨r, rfl, hret, by simpa using h, by simp⟩

theorem create_logical_device_success (devices : List VkPhysicalDevice)
    (vkCreateDevice : VkPhysicalDevice → VkDeviceCreateInfo → Int × Nat)
    (debugOutput : debug_output) (self : device_state) (r : create_logical_device_result)
    (h : create_logical_device devices vkCreateDevice debugOutput self = outcome.defined r)
    (hok : r.returned = true) :
    ∃ (pd : VkPhysicalDevice) (info : VkDeviceCreateInfo) (dev g p : Nat),
      r.self =
        { m_physical_device := some pd, m_device := some dev,
          m_device_functions_loaded := true, m_queues_graphics := some (g, 0),
          m_queues_present := some (p, 0) } ∧
      r.calls =
        [device_call.vkCreateDevice pd info, device_call.volkLoadDeviceTable dev,
          device_call.vkGetDeviceQueue dev g 0, device_call.vkGetDeviceQueue dev p 0] ∧
      (find_queue_families pd).graphics = some g ∧
      (find_queue_families pd).present = some p := by
  unfold create_logical_device at h
  cases hpick : pick_physical_device devices with
  | undefined => simp [hpick] at h
  | defined picked =>
    cases picked with
    | none =>
      simp only [hpick] at h
      have hr := (outcome.defined.inj h).symm
      subst hr
      simp at hok
    | some pd =>
      simp only [hpick] at h
      cases hg : (find_queue_families pd).graphics with
      | none => simp [hg] at h
      | some g =>
        cases hp : (find_queue_families pd).present with
        | none => simp [hg, hp] at h
        | some p =>
          simp only [hg, hp] at h
          split_ifs at h <;>
          · have hr := (outcome.defined.inj h).symm
            subst hr
            first
              | exact ⟨pd, _, _, g, p, rfl, rfl, hg, hp⟩
              | simp at hok

theorem create_window_surface_success (d : driver) (x : renderer_vulkan) (r : stage_result)
    (h : renderer_vulkan.create_window_surface d x = outcome.defined r)
    (hok : r.returned = true) :
    ∃ surface : Nat, r.self = { x with m_window_surface := some surface } ∧
      r.calls.filterMap created_resource = [resource.m_window_surface] := by
  unfold renderer_vulkan.create_window_surface at h
  by_cases hres : d.vkCreateWin32SurfaceKHR.1 ≠ VK_SUCCESS
  · rw [if_pos hres] at h
    have hr := (outcome.defined.inj h).symm
    subst hr
    simp at hok
  · rw [if_neg hres] at h
    have hr := (outcome.defined.inj h).symm
    subst hr
    exact ⟨_, rfl, by simp [created_resource, not_not.mp hres]⟩

theorem renderer_create_logical_device_success (d : driver) (debugOutput : debug_output)
    (x : renderer_vulkan) (r : stage_result)
    (h : renderer_vulkan.create_logical_device d debugOutput x = outcome.defined r)
    (hok : r.returned = true) :
    ∃ (pd : VkPhysicalDevice) (dev g p : Nat),
      r.self =
        { x with
          todevice_state :=
            { m_physical_device := some pd, m_device := some dev,
              m_device_functions_loaded := true, m_queues_graphics := some (g, 0),
              m_queues_present := some (p, 0) } } ∧
      r.calls.filterMap created_resource = [resource.m_device] ∧
      (find_queue_families pd).graphics = some g := by
  unfold renderer_vulkan.create_logical_device at h
  cases hc : EngineExperiments.create_logical_device d.devices d.vkCreateDevice debugOutput
      x.todevice_state with
  | undefined => simp [hc] at h
  | defined r0 =>
    simp only [hc] at h
    have hr := (outcome.defined.inj h).symm
    subst hr
    simp only at hok
    obtain ⟨pd, info, dev, g, p, hself, hcalls, hg, _⟩ :=
      create_logical_device_success _ _ _ _ r0 hc hok
    refine ⟨pd, dev, g, p, ?_, ?_, hg⟩
    · simp only [hself]
    · simp [hcalls, created_resource]

theorem create_render_pass_success (d : driver) (x : renderer_vulkan) (r : stage_result)
    (h : renderer_vulkan.create_render_pass d x = outcome.defined r)
    (hok : r.returned = true) :
    ∃ render_pass : Nat, r.self = { x with m_render_pass := some render_pass } ∧
      r.calls.filterMap created_resource = [resource.m_render_pass] := by
  unfold renderer_vulkan.create_render_pass at h
  by_cases hres : d.vkCreateRenderPass.1 ≠ VK_SUCCESS
  · rw [if_pos hres] at h
    have hr := (outcome.defined.inj h).symm
    subst hr
    simp at hok
  · rw [if_neg hres] at h
    have hr := (outcome.defined.inj h).symm
    subst hr
    exact ⟨_, rfl, by simp [created_resource, not_not.mp hres]⟩

theorem create_command_pool_success (d : driver) (x : renderer_vulkan) (r : stage_result)
    (h : renderer_vulkan.create_command_pool d x = outcome.defined r)
    (hok : r.returned = true) :
    ∃ command_pool : Nat, r.self = { x with m_command_pool := some command_pool } ∧
      r.calls.filterMap created_resource = [resource.m_command_pool] := by
  unfold renderer_vulkan.create_command_pool at h
  cases hpd : x.m_physical_device with
  | none => simp [hpd] at h
  | some pd =>
    simp only [hpd] at h
    cases hg : (find_queue_families pd).graphics.value with
    | undefined => simp [hg] at h
    | defined g =>
      simp only [hg] at h
      by_cases hres : d.vkCreateCommandPool.1 ≠ VK_SUCCESS
      · rw [if_pos hres] at h
        have hr := (outcome.defined.inj h).symm
        subst hr
        simp at hok
      · rw [if_neg hres] at h
        have hr := (outcome.defined.inj h).symm
        subst hr
        exact ⟨_, rfl, by simp [created_resource, not_not.mp hres]⟩

theorem create_command_buffer_success (d : driver) (x : renderer_vulkan) (r : stage_result)
    (h : renderer_vulkan.create_command_buffer d x = outcome.defined r)
    (hok : r.returned = true) :
    ∃ command_buffer : Nat, r.self = { x with m_command_buffer := some command_buffer } ∧
      r.calls.filterMap created_resource = [resource.m_command_buffer] := by
  unfold renderer_vulkan.create_command_buffer at h
  by_cases hres : d.vkAllocateCommandBuffers.1 ≠ VK_SUCCESS
  · rw [if_pos hres] at h
    have hr := (outcome.defined.inj h).symm
    subst hr
    simp at hok
  · rw [if_neg hres] at h
    have hr := (outcome.defined.inj h).symm
    subst hr
    exact ⟨_, rfl, by simp [created_resource, not_not.mp hres]⟩

theorem create_synchronization_objects_success (d : driver) (x : renderer_vulkan)
    (r : stage_result)
    (h : renderer_vulkan.create_synchronization_objects d x = outcome.defined r)
    (hok : r.returned = true) :
    ∃ available finished fence : Nat,
      r.self =
        { x with
          m_image_available_semaphore := some available
          m_render_finished_semaphore := some finished
          m_in_flight_fence := some fence } ∧
      r.calls.filterMap created_resource =
        [resource.m_image_available_semaphore, resource.m_render_finished_semaphore,
          resource.m_in_flight_fence] := by
  unfold renderer_vulkan.create_synchronization_objects at h
  by_cases h1 : (d.vkCreateSemaphore resource.m_image_available_semaphore).1 ≠ VK_SUCCESS
  · rw [if_pos h1] at h
    have hr := (outcome.defined.inj h).symm
    subst hr
    simp at hok
  · rw [if_neg h1] at h
    by_cases h2 : (d.vkCreateSemaphore resource.m_render_finished_semaphore).1 ≠ VK_SUCCESS
    · simp only [if_pos h2] at h
      have hr := (outcome.defined.inj h).symm
      subst hr
      simp at hok
    · simp only [if_neg h2] at h
      by_cases h3 : d.vkCreateFence.1 ≠ VK_SUCCESS
      · simp only [if_pos h3] at h
        have hr := (outcome.defined.inj h).symm
        subst hr
        simp at hok
      · simp only [if_neg h3] at h
        have hr := (outcome.defined.inj h).symm
        subst hr
        exact ⟨_, _, _, rfl,
          by simp [created_resource, not_not.mp h1, not_not.mp h2, not_not.mp h3]⟩

theorem create_shader_module_cases (d : driver) (x : renderer_vulkan) (code : List Nat) :
    ((d.vkCreateShaderModule code).1 ≠ VK_SUCCESS ∧
      renderer_vulkan.create_shader_module d x code =
        (none, [native_call.vkCreateShaderModule x.m_device code (d.vkCreateShaderModule code).1])) ∨
    ((d.vkCreateShaderModule code).1 = VK_SUCCESS ∧
      renderer_vulkan.create_shader_module d x code =
        (some (d.vkCreateShaderModule code).2,
          [native_call.vkCreateShaderModule x.m_device code VK_SUCCESS])) := by
  unfold renderer_vulkan.create_shader_module
  by_cases hres : (d.vkCreateShaderModule code).1 ≠ VK_SUCCESS
  · exact Or.inl ⟨hres, by rw [if_pos hres]⟩
  · refine Or.inr ⟨not_not.mp hres, ?_⟩
    rw [if_neg hres, not_not.mp hres]

theorem create_graphics_pipeline_success (d : driver) (x : renderer_vulkan) (r : stage_result)
    (h : renderer_vulkan.create_graphics_pipeline d x = outcome.defined r)
    (hok : r.returned = true) :
    ∃ layout pipeline : Nat,
      r.self = { x with m_pipeline_layout := some layout, m_graphics_pipeline := some pipeline } ∧
      r.calls.filterMap created_resource =
        [resource.shader_module, resource.shader_module, resource.m_pipeline_layout,
          resource.m_graphics_pipeline] := by
  unfold renderer_vulkan.create_graphics_pipeline at h
  by_cases hv : (d.read_entire_file "shaders/triangle.vert.spv").isEmpty = true
  · rw [if_pos hv] at h
    have hr := (outcome.defined.inj h).symm
    subst hr
    simp at hok
  · rw [if_neg hv] at h
    by_cases hf : (d.read_entire_file "shaders/triangle.frag.spv").isEmpty = true
    · simp only [if_pos hf] at h
      have hr := (outcome.defined.inj h).symm
      subst hr
      simp at hok
    · simp only [if_neg hf] at h
      rcases create_shader_module_cases d x (d.read_entire_file "shaders/triangle.vert.spv")
        with ⟨_, hvs⟩ | ⟨_, hvs⟩
      · simp only [hvs, if_true] at h
        have hr := (outcome.defined.inj h).symm
        subst hr
        simp at hok
      · rcases create_shader_module_cases d x (d.read_entire_file "shaders/triangle.frag.spv")
          with ⟨_, hfs⟩ | ⟨_, hfs⟩
        · simp only [hvs, hfs, if_true] at h
          simp at h
          subst h
          simp at hok
        · by_cases hl : d.vkCreatePipelineLayout.1 ≠ VK_SUCCESS
          · simp only [hvs, hfs, if_pos hl] at h
            simp at h
            subst h
            simp at hok
          · by_cases hp : d.vkCreateGraphicsPipelines.1 ≠ VK_SUCCESS
            · simp only [hvs, hfs, if_neg hl, if_pos hp] at h
              simp at h
              subst h
              simp at hok
            · simp only [hvs, hfs, if_neg hl, if_neg hp] at h
              simp at h
              subst h
              exact ⟨_, _, rfl,
                by simp [created_resource, not_not.mp hl, not_not.mp hp]⟩

theorem create_framebuffers_success (d : driver) (x : renderer_vulkan) (r : stage_result)
    (hwf : x.m_swapchain_framebuffers.well_formed)
    (h : renderer_vulkan.create_framebuffers d x = outcome.defined r)
    (hok : r.returned = true) :
    ∃ (framebuffers : vector handle) (fhs : List Nat),
      r.self = { x with m_swapchain_framebuffers := framebuffers } ∧
      framebuffers.elements = fhs.map (fun f => some (some f)) ∧
      fhs.length = x.m_swapchain_image_views.m_size ∧
      framebuffers.m_size = x.m_swapchain_image_views.m_size ∧
      r.calls.filterMap created_resource =
        List.replicate x.m_swapchain_image_views.m_size resource.m_swapchain_framebuffers := by
  unfold renderer_vulkan.create_framebuffers renderer_vulkan.create_framebuffers_loop at h
  obtain ⟨hwf0, hsize0⟩ := vector_resize_well_formed none x.m_swapchain_framebuffers
    x.m_swapchain_image_views.m_size hwf
  cases hloop : renderer_vulkan.create_loop x.m_swapchain_image_views d.vkCreateFramebuffer
      (fun view result =>
        native_call.vkCreateFramebuffer x.m_device x.m_render_pass view x.m_swapchain_extent result)
      (List.range x.m_swapchain_image_views.m_size)
      (x.m_swapchain_framebuffers.resize none x.m_swapchain_image_views.m_size) with
  | undefined => simp [hloop] at h
  | defined r0 =>
    simp only [hloop] at h
    have hr := (outcome.defined.inj h).symm
    subst hr
    simp only at hok
    obtain ⟨h1, ⟨fhs, h2, h3⟩, h4⟩ := create_loop_range_success x.m_swapchain_image_views
      d.vkCreateFramebuffer
      (fun view result =>
        native_call.vkCreateFramebuffer x.m_device x.m_render_pass view x.m_swapchain_extent result)
      resource.m_swapchain_framebuffers (by intro v; simp [created_resource]) _ hwf0 _ hsize0
      r0 hloop hok
    exact ⟨r0.2.1, fhs, rfl, h2, h3, h1, h4⟩

theorem vector_fill_size {T : Type} (self filled : vector T) (values : List T)
    (h : self.fill values = outcome.defined filled) : filled.m_size = self.m_size := by
  unfold vector.fill at h
  split_ifs at h
  have hr := (outcome.defined.inj h).symm
  subst hr
  rfl

theorem create_swapchain_success (d : driver) (w : window) (x : renderer_vulkan)
    (r : stage_result) (hwf : x.m_swapchain_image_views.well_formed)
    (h : renderer_vulkan.create_swapchain d w x = outcome.defined r)
    (hok : r.returned = true) :
    ∃ (extent : VkExtent2D) (format swapchain : Nat) (images views : vector handle)
      (vhs : List Nat),
      r.self =
        { x with
          m_swapchain_extent := some extent
          m_swapchain_image_format := some format
          m_swapchain := some swapchain
          m_swapchain_images := images
          m_swapchain_image_views := views } ∧
      views.elements = vhs.map (fun v => some (some v)) ∧
      vhs.length = d.swapchainImages.length ∧
      views.m_size = d.swapchainImages.length ∧
      r.calls.filterMap created_resource =
        resource.m_swapchain ::
          List.replicate d.swapchainImages.length resource.m_swapchain_image_views := by
  unfold renderer_vulkan.create_swapchain renderer_vulkan.create_image_views_loop at h
  cases hpd : x.m_physical_device with
  | none => simp [hpd] at h
  | some pd =>
    simp only [hpd] at h
    cases hinfo : create_swapchain_info x.m_window_surface pd w.width w.height with
    | undefined => simp [hinfo] at h
    | defined info =>
      simp only [hinfo] at h
      by_cases hres : (d.vkCreateSwapchainKHR info).1 ≠ VK_SUCCESS
      · rw [if_pos hres] at h
        have hr := (outcome.defined.inj h).symm
        subst hr
        simp at hok
      · rw [if_neg hres] at h
        cases hfill : (x.m_swapchain_images.resize none d.swapchainImages.length).fill
            (d.swapchainImages.map some) with
        | undefined => simp [hfill] at h
        | defined images =>
          simp only [hfill] at h
          have himages : images.m_size = d.swapchainImages.length := by
            rw [vector_fill_size _ _ _ hfill]
            unfold vector.resize
            split_ifs <;> rfl
          obtain ⟨hwf0, hsize0⟩ := vector_resize_well_formed none x.m_swapchain_image_views
            d.swapchainImages.length hwf
          rw [himages] at h
          cases hloop : renderer_vulkan.create_loop images d.vkCreateImageView
              (fun image result =>
                native_call.vkCreateImageView x.m_device image (some info.imageFormat) result)
              (List.range d.swapchainImages.length)
              (x.m_swapchain_image_views.resize none d.swapchainImages.length) with
          | undefined => simp [hloop] at h
          | defined r0 =>
            simp only [hloop] at h
            have hr := (outcome.defined.inj h).symm
            subst hr
            simp only at hok
            obtain ⟨h1, ⟨vhs, h2, h3⟩, h4⟩ := create_loop_range_success images
              d.vkCreateImageView
              (fun image result =>
                native_call.vkCreateImageView x.m_device image (some info.imageFormat) result)
              resource.m_swapchain_image_views (by intro v; simp [created_resource]) _ hwf0 _
              hsize0 r0 hloop hok
            refine ⟨info.imageExtent, info.imageFormat, _, images, r0.2.1, vhs, rfl, h2, h3,
              h1, ?_⟩
            simp [created_resource, not_not.mp hres, h4]

theorem create_instance_success (d : driver) (debugOutput : debug_output) (vk_instance : Nat)
    (h : (create_instance d debugOutput).1 = some vk_instance) :
    (create_instance d debugOutput).2.filterMap created_resource = [resource.m_instance] := by
  unfold create_instance at h ⊢
  dsimp only at h ⊢
  split_ifs at h ⊢ <;> simp_all [created_resource]

theorem make_renderer_shape (d : driver) (debugOutput : debug_output) (vk_instance : Nat) :
    ∃ messenger : handle,
      (make_renderer d debugOutput vk_instance).1 =
        { m_instance := some vk_instance, m_debugMessenger := messenger } ∧
      (make_renderer d debugOutput vk_instance).2.filterMap created_resource =
        (if messenger ≠ none then [resource.m_debugMessenger] else []) := by
  unfold make_renderer
  by_cases hdebug : debugOutput = debug_output.enabled
  · rw [if_pos hdebug]
    unfold renderer_vulkan.create_debug_messenger
    by_cases hres : d.vkCreateDebugUtilsMessengerEXT.1 = VK_SUCCESS
    · exact ⟨some d.vkCreateDebugUtilsMessengerEXT.2, by simp [hres],
        by simp [created_resource, hres]⟩
    · exact ⟨none, by simp [hres], by simp [created_resource, hres]⟩
  · rw [if_neg hdebug]
    exact ⟨none, rfl, by simp⟩

/-- What a successful `create_with_window` has built: every handle member is set, the
image views and the framebuffers are written and as many as the swapchain has images, and
the objects were created in the order listed. -/
theorem create_with_window_success (d : driver) (w : window) (debugOutput : debug_output)
    (backend : renderer_vulkan)
    (h : (create_with_window d w debugOutput).returned = outcome.defined (some backend)) :
    ∃ (vk_instance : Nat) (messenger : handle) (surface : Nat) (pd : VkPhysicalDevice)
      (dev g p : Nat) (extent : VkExtent2D) (format swapchain : Nat)
      (images views : vector handle) (vhs : List Nat) (render_pass layout pipeline : Nat)
      (framebuffers : vector handle) (fhs : List Nat)
      (command_pool command_buffer available finished fence : Nat),
      backend =
        { m_physical_device := some pd
          m_device := some dev
          m_device_functions_loaded := true
          m_queues_graphics := some (g, 0)
          m_queues_present := some (p, 0)
          m_instance := some vk_instance
          m_window_surface := some surface
          m_render_pass := some render_pass
          m_pipeline_layout := some layout
          m_graphics_pipeline := some pipeline
          m_command_pool := some command_pool
          m_command_buffer := some command_buffer
          m_image_available_semaphore := some available
          m_render_finished_semaphore := some finished
          m_in_flight_fence := some fence
          m_swapchain := some swapchain
          m_swapchain_image_format := some format
          m_swapchain_extent := some extent
          m_swapchain_images := images
          m_swapchain_image_views := views
          m_swapchain_framebuffers := framebuffers
          m_debugMessenger := messenger } ∧
      views.elements = vhs.map (fun v => some (some v)) ∧
      vhs.length = d.swapchainImages.length ∧
      views.m_size = d.swapchainImages.length ∧
      framebuffers.elements = fhs.map (fun f => some (some f)) ∧
      fhs.length = d.swapchainImages.length ∧
      framebuffers.m_size = d.swapchainImages.length ∧
      (create_with_window d w debugOutput).calls.filterMap created_resource =
        [resource.m_instance] ++
          (if messenger ≠ none then [resource.m_debugMessenger] else []) ++
          [resource.m_window_surface, resource.m_device, resource.m_swapchain] ++
          List.replicate d.swapchainImages.length resource.m_swapchain_image_views ++
          [resource.m_render_pass, resource.shader_module, resource.shader_module,
            resource.m_pipeline_layout, resource.m_graphics_pipeline] ++
          List.replicate d.swapchainImages.length resource.m_swapchain_framebuffers ++
          [resource.m_command_pool, resource.m_command_buffer,
            resource.m_image_available_semaphore, resource.m_render_finished_semaphore,
            resource.m_in_flight_fence] := by
  have hloader : d.volkInitialize = VK_SUCCESS := by
    by_contra hne
    rw [create_with_window_of_loader_failure d w debugOutput hne] at h
    simp at h
  cases hinst : (create_instance d debugOutput).1 with
  | none =>
    rw [create_with_window_of_instance_failure d w debugOutput hloader hinst] at h
    simp at h
  | some vk_instance =>
    rw [create_with_window_of_instance d w debugOutput vk_instance hloader hinst] at h ⊢
    simp only at h ⊢
    have hicalls := create_instance_success d debugOutput vk_instance hinst
    obtain ⟨messenger, hx0, hmcalls⟩ := make_renderer_shape d debugOutput vk_instance
    unfold renderer_stages at h ⊢
    obtain ⟨r1, hs1, hok1, h, hc1⟩ := run_stages_cons_success _ _ _ _ _ h
    obtain ⟨r2, hs2, hok2, h, hc2⟩ := run_stages_cons_success _ _ _ _ _ h
    obtain ⟨r3, hs3, hok3, h, hc3⟩ := run_stages_cons_success _ _ _ _ _ h
    obtain ⟨r4, hs4, hok4, h, hc4⟩ := run_stages_cons_success _ _ _ _ _ h
    obtain ⟨r5, hs5, hok5, h, hc5⟩ := run_stages_cons_success _ _ _ _ _ h
    obtain ⟨r6, hs6, hok6, h, hc6⟩ := run_stages_cons_success _ _ _ _ _ h
    obtain ⟨r7, hs7, hok7, h, hc7⟩ := run_stages_cons_success _ _ _ _ _ h
    obtain ⟨r8, hs8, hok8, h, hc8⟩ := run_stages_cons_success _ _ _ _ _ h
    obtain ⟨r9, hs9, hok9, h, hc9⟩ := run_stages_cons_success _ _ _ _ _ h
    have hbackend : backend = r9.self := by
      simp only [run_stages] at h
      exact (Option.some.inj (outcome.defined.inj h)).symm
    have hc10 : (run_stages [] r9.self).calls = [] := rfl
    rw [hc1, hc2, hc3, hc4, hc5, hc6, hc7, hc8, hc9, hc10]
    obtain ⟨surface, hself1, hcalls1⟩ := create_window_surface_success d _ r1 hs1 hok1
    rw [hx0] at hself1
    dsimp only at hself1
    obtain ⟨pd, dev, g, p, hself2, hcalls2, _⟩ :=
      renderer_create_logical_device_success d debugOutput _ r2 hs2 hok2
    rw [hself1] at hself2
    dsimp only at hself2
    have hwf3 : r2.self.m_swapchain_image_views.well_formed := by
      rw [hself2]
      exact vector_new_well_formed _
    obtain ⟨extent, format, swapchain, images, views, vhs, hself3, hviews, hvlen, hvsize,
      hcalls3⟩ := create_swapchain_success d w _ r3 hwf3 hs3 hok3
    rw [hself2] at hself3
    dsimp only at hself3
    obtain ⟨render_pass, hself4, hcalls4⟩ := create_render_pass_success d _ r4 hs4 hok4
    rw [hself3] at hself4
    dsimp only at hself4
    obtain ⟨layout, pipeline, hself5, hcalls5⟩ :=
      create_graphics_pipeline_success d _ r5 hs5 hok5
    rw [hself4] at hself5
    dsimp only at hself5
    have hwf6 : r5.self.m_swapchain_framebuffers.well_formed := by
      rw [hself5]
      exact vector_new_well_formed _
    obtain ⟨framebuffers, fhs, hself6, hfbs, hflen, hfsize, hcalls6⟩ :=
      create_framebuffers_success d _ r6 hwf6 hs6 hok6
    have hviews5 : r5.self.m_swapchain_image_views = views := by
      rw [hself5]
    rw [hviews5, hvsize] at hflen hfsize hcalls6
    rw [hself5] at hself6
    dsimp only at hself6
    obtain ⟨command_pool, hself7, hcalls7⟩ := create_command_pool_success d _ r7 hs7 hok7
    rw [hself6] at hself7
    dsimp only at hself7
    obtain ⟨command_buffer, hself8, hcalls8⟩ := create_command_buffer_success d _ r8 hs8 hok8
    rw [hself7] at hself8
    dsimp only at hself8
    obtain ⟨available, finished, fence, hself9, hcalls9⟩ :=
      create_synchronization_objects_success d _ r9 hs9 hok9
    rw [hself8] at hself9
    dsimp only at hself9
    refine ⟨vk_instance, messenger, surface, pd, dev, g, p, extent, format, swapchain, images,
      views, vhs, render_pass, layout, pipeline, framebuffers, fhs, command_pool,
      command_buffer, available, finished, fence, ?_, hviews, hvlen, hvsize, hfbs, hflen,
      hfsize, ?_⟩
    · rw [hbackend, hself9]
    · simp only [List.filterMap_cons, List.filterMap_append, created_resource, hicalls,
        hmcalls, hcalls1, hcalls2, hcalls3, hcalls4, hcalls5, hcalls6, hcalls7, hcalls8,
        hcalls9, List.filterMap_nil]
      simp

/-! ## Teardown order (claim C16) -/

/-- The vector `queueCreateInfos` of `create_logical_device`: it is constructed with the
default capacity 2 and receives one `push_back` per element of the set of family
indices, which has at most two elements; every `push_back` is within the capacity, and
the vector then holds exactly the records pushed, in order. -/
theorem queue_create_infos_push_back (g p : Nat) :
    ∃ queueCreateInfos : vector VkDeviceQueueCreateInfo,
      vector.push_back_all
          ((std_set_of_two g p).map fun queueFamilyIndex =>
            ({ queueFamilyIndex := queueFamilyIndex, queueCount := 1 } :
              VkDeviceQueueCreateInfo))
          (vector.new vector.default_capacity) =
        outcome.defined queueCreateInfos ∧
      queueCreateInfos.elements =
        ((std_set_of_two g p).map fun queueFamilyIndex =>
          ({ queueFamilyIndex := queueFamilyIndex, queueCount := 1 } :
            VkDeviceQueueCreateInfo)).map some ∧
      queueCreateInfos.m_size = (std_set_of_two g p).length := by
  unfold std_set_of_two
  split_ifs <;>
    exact ⟨_, rfl, rfl, rfl⟩

/-! ## The submission and the presentation of a frame (claim C21) -/

/-- Without an image index `record_command_buffer` does not return true. -/
theorem record_command_buffer_none (env : frame_driver) (self : renderer_vulkan)
    (command_buffer : handle) :
    (self.record_command_buffer env command_buffer none).1 ≠ outcome.defined true := by
  unfold renderer_vulkan.record_command_buffer
  by_cases hbegin : env.vkBeginCommandBuffer ≠ VK_SUCCESS
  · rw [if_pos hbegin]
    simp
  · rw [if_neg hbegin]
    simp

/-- Claim C21: in every call of `render` that issues a queue submission, the acquire of
the call has written an image index and is among the calls before the submission, none
of which is a submission or a presentation; the submission goes to the graphics queue
with exactly one wait semaphore, the image-available semaphore, at the stage
`VK_PIPELINE_STAGE_COLOR_ATTACHMENT_OUTPUT_BIT`, exactly one command buffer, the command
buffer of the backend, exactly one signal semaphore, the render-finished semaphore, and
the in-flight fence; it is the last call, or it is followed by one presentation on the
present queue, which ends the call, waits on exactly the render-finished semaphore and
presents, on the swapchain of the backend, the image index written by that acquire. -/
theorem render_submit_and_present (env : frame_driver) (self : renderer_vulkan)
    (fence : fence_state)
    (hsubmit : ∃ c ∈ (self.render env fence).calls, c.is_submit = true) :
    ∃ pre index,
      env.vkAcquireNextImageKHR.2 = some index ∧
      native_call.vkAcquireNextImageKHR self.m_device self.m_swapchain UINT64_MAX
        self.m_image_available_semaphore none ∈ pre ∧
      (∀ c ∈ pre, c.is_submit = false ∧ c.is_present = false) ∧
      ((self.render env fence).calls =
          pre ++
            [native_call.vkQueueSubmit self.m_queues_graphics
              { waitSemaphores := [self.m_image_available_semaphore]
                waitDstStageMask := [VK_PIPELINE_STAGE_COLOR_ATTACHMENT_OUTPUT_BIT]
                commandBuffers := [self.m_command_buffer]
                signalSemaphores := [self.m_render_finished_semaphore] }
              self.m_in_flight_fence] ∨
        (self.render env fence).calls =
          pre ++
            [native_call.vkQueueSubmit self.m_queues_graphics
              { waitSemaphores := [self.m_image_available_semaphore]
                waitDstStageMask := [VK_PIPELINE_STAGE_COLOR_ATTACHMENT_OUTPUT_BIT]
                commandBuffers := [self.m_command_buffer]
                signalSemaphores := [self.m_render_finished_semaphore] }
              self.m_in_flight_fence,
              native_call.vkQueuePresentKHR self.m_queues_present
                { waitSemaphores := [self.m_render_finished_semaphore]
                  swapchains := [self.m_swapchain]
                  imageIndices := [some index] }]) := by
  by_cases hfence : fence = fence_state.unsignaled
  · exfalso
    obtain ⟨c, hc, hs⟩ := hsubmit
    unfold renderer_vulkan.render at hc
    rw [if_pos hfence] at hc
    simp only [List.mem_singleton] at hc
    subst hc
    simp [native_call.is_submit] at hs
  · cases hidx : env.vkAcquireNextImageKHR.2 with
    | none =>
      exfalso
      have hnone := record_command_buffer_none env self self.m_command_buffer
      obtain ⟨c, hc, hs⟩ := hsubmit
      unfold renderer_vulkan.render at hc
      rw [if_neg hfence] at hc
      simp only [hidx] at hc
      obtain hr | hr | ⟨framebuffer, hr | hr⟩ :=
        record_command_buffer_cases env self self.m_command_buffer none
      · simp only [hr] at hc
        simp at hc
        rcases hc with hc | hc | hc | hc | hc <;> subst hc <;> simp [native_call.is_submit] at hs
      · simp only [hr] at hc
        simp at hc
        rcases hc with hc | hc | hc | hc | hc <;> subst hc <;> simp [native_call.is_submit] at hs
      · simp only [hr] at hc
        simp at hc
        rcases hc with hc | hc | hc | hc | hc | hc | hc | hc | hc | hc <;> subst hc <;>
          simp [native_call.is_submit] at hs
      · rw [hr] at hnone
        exact hnone rfl
    | some index =>
      obtain hr | hr | ⟨framebuffer, hr | hr⟩ :=
        record_command_buffer_cases env self self.m_command_buffer (some index)
      · exfalso
        obtain ⟨c, hc, hs⟩ := hsubmit
        unfold renderer_vulkan.render at hc
        rw [if_neg hfence] at hc
        simp only [hidx, hr] at hc
        simp at hc
        rcases hc with hc | hc | hc | hc | hc <;> subst hc <;> simp [native_call.is_submit] at hs
      · exfalso
        obtain ⟨c, hc, hs⟩ := hsubmit
        unfold renderer_vulkan.render at hc
        rw [if_neg hfence] at hc
        simp only [hidx, hr] at hc
        simp at hc
        rcases hc with hc | hc | hc | hc | hc <;> subst hc <;> simp [native_call.is_submit] at hs
      · exfalso
        obtain ⟨c, hc, hs⟩ := hsubmit
        unfold renderer_vulkan.render at hc
        rw [if_neg hfence] at hc
        simp only [hidx, hr] at hc
        simp at hc
        rcases hc with hc | hc | hc | hc | hc | hc | hc | hc | hc | hc <;> subst hc <;>
          simp [native_call.is_submit] at hs
      · refine ⟨[native_call.vkWaitForFences self.m_device self.m_in_flight_fence UINT64_MAX,
            native_call.vkResetFences self.m_device self.m_in_flight_fence,
            native_call.vkAcquireNextImageKHR self.m_device self.m_swapchain UINT64_MAX
              self.m_image_available_semaphore none,
            native_call.vkResetCommandBuffer self.m_command_buffer,
            native_call.vkBeginCommandBuffer self.m_command_buffer,
            native_call.vkCmdBeginRenderPass self.m_command_buffer self.m_render_pass
              framebuffer self.m_swapchain_extent [0, 0, 0, 1],
            native_call.vkCmdBindPipeline self.m_command_buffer self.m_graphics_pipeline,
            native_call.vkCmdDraw self.m_command_buffer 3 1 0 0,
            native_call.vkCmdEndRenderPass self.m_command_buffer,
            native_call.vkEndCommandBuffer self.m_command_buffer], index, rfl, by simp,
          by simp [native_call.is_submit, native_call.is_present], ?_⟩
        unfold renderer_vulkan.render
        rw [if_neg hfence]
        simp only [hidx, hr]
        by_cases hres : env.vkQueueSubmit ≠ VK_SUCCESS
        · rw [if_pos hres]
          exact Or.inl rfl
        · rw [if_neg hres]
          exact Or.inr rfl

/-- Claim C21 on a frame in which every native call succeeds and image 1 is acquired. -/
theorem render_submit_and_present_witness :
    (∃ c ∈ (backend_ok.render frame_ok fence_state.signaled).calls, c.is_submit = true) ∧
      ∃ pre index,
        frame_ok.vkAcquireNextImageKHR.2 = some index ∧
        native_call.vkAcquireNextImageKHR backend_ok.m_device backend_ok.m_swapchain UINT64_MAX
          backend_ok.m_image_available_semaphore none ∈ pre ∧
        (∀ c ∈ pre, c.is_submit = false ∧ c.is_present = false) ∧
        ((backend_ok.render frame_ok fence_state.signaled).calls =
            pre ++
              [native_call.vkQueueSubmit backend_ok.m_queues_graphics
                { waitSemaphores := [backend_ok.m_image_available_semaphore]
                  waitDstStageMask := [VK_PIPELINE_STAGE_COLOR_ATTACHMENT_OUTPUT_BIT]
                  commandBuffers := [backend_ok.m_command_buffer]
                  signalSemaphores := [backend_ok.m_render_finished_semaphore] }
                backend_ok.m_in_flight_fence] ∨
          (backend_ok.render frame_ok fence_state.signaled).calls =
            pre ++
              [native_call.vkQueueSubmit backend_ok.m_queues_graphics
                { waitSemaphores := [backend_ok.m_image_available_semaphore]
                  waitDstStageMask := [VK_PIPELINE_STAGE_COLOR_ATTACHMENT_OUTPUT_BIT]
                  commandBuffers := [backend_ok.m_command_buffer]
                  signalSemaphores := [backend_ok.m_render_finished_semaphore] }
                backend_ok.m_in_flight_fence,
                native_call.vkQueuePresentKHR backend_ok.m_queues_present
                  { waitSemaphores := [backend_ok.m_render_finished_semaphore]
                    swapchains := [backend_ok.m_swapchain]
                    imageIndices := [some index] }]) :=
  ⟨by decide, render_submit_and_present frame_ok backend_ok fence_state.signaled (by decide)⟩

/-! ## A run of frames (claim C22) -/

/-- The result of `render` in a frame in which the fence wait returns, the acquired index
names a written framebuffer and the calls whose result `render` looks at succeed. -/
theorem render_of_success (env : frame_driver) (self : renderer_vulkan)
    (fence : fence_state) (index : Nat) (framebuffer : handle)
    (hreturns : fence ≠ fence_state.unsignaled)
    (hidx : env.vkAcquireNextImageKHR.2 = some index)
    (hframebuffer : self.m_swapchain_framebuffers.get index = outcome.defined framebuffer)
    (hbegin : env.vkBeginCommandBuffer = VK_SUCCESS)
    (hend : env.vkEndCommandBuffer = VK_SUCCESS)
    (hsubmit : env.vkQueueSubmit = VK_SUCCESS) :
    self.render env fence =
      { status := render_status.returned
        calls :=
          [native_call.vkWaitForFences self.m_device self.m_in_flight_fence UINT64_MAX,
            native_call.vkResetFences self.m_device self.m_in_flight_fence,
            native_call.vkAcquireNextImageKHR self.m_device self.m_swapchain UINT64_MAX
              self.m_image_available_semaphore none,
            native_call.vkResetCommandBuffer self.m_command_buffer,
            native_call.vkBeginCommandBuffer self.m_command_buffer,
            native_call.vkCmdBeginRenderPass self.m_command_buffer self.m_render_pass
              framebuffer self.m_swapchain_extent [0, 0, 0, 1],
            native_call.vkCmdBindPipeline self.m_command_buffer self.m_graphics_pipeline,
            native_call.vkCmdDraw self.m_command_buffer 3 1 0 0,
            native_call.vkCmdEndRenderPass self.m_command_buffer,
            native_call.vkEndCommandBuffer self.m_command_buffer,
            native_call.vkQueueSubmit self.m_queues_graphics
              { waitSemaphores := [self.m_image_available_semaphore]
                waitDstStageMask := [VK_PIPELINE_STAGE_COLOR_ATTACHMENT_OUTPUT_BIT]
                commandBuffers := [self.m_command_buffer]
                signalSemaphores := [self.m_render_finished_semaphore] }
              self.m_in_flight_fence,
            native_call.vkQueuePresentKHR self.m_queues_present
              { waitSemaphores := [self.m_render_finished_semaphore]
                swapchains := [self.m_swapchain]
                imageIndices := [some index] }]
        fence := fence_state.signal_pending } := by
  unfold renderer_vulkan.render renderer_vulkan.record_command_buffer
  rw [if_neg hreturns]
  simp [hidx, hframebuffer, hbegin, hend, hsubmit]

/-- What `all_succeed` says about a frame. -/
theorem all_succeed_spec (env : frame_driver) (image_count : Nat)
    (h : env.all_succeed image_count = true) :
    (∃ index, env.vkAcquireNextImageKHR.2 = some index ∧ index < image_count) ∧
      env.vkBeginCommandBuffer = VK_SUCCESS ∧ env.vkEndCommandBuffer = VK_SUCCESS ∧
      env.vkQueueSubmit = VK_SUCCESS := by
  unfold frame_driver.all_succeed at h
  simp only [Bool.and_eq_true, decide_eq_true_eq] at h
  obtain ⟨⟨⟨⟨⟨⟨⟨⟨_, _⟩, _⟩, hidx⟩, _⟩, hbegin⟩, hend⟩, hsubmit⟩, _⟩ := h
  refine ⟨?_, hbegin, hend, hsubmit⟩
  cases hacq : env.vkAcquireNextImageKHR.2 with
  | none => simp [hacq] at hidx
  | some index =>
    simp only [hacq, decide_eq_true_eq] at hidx
    exact ⟨index, rfl, hidx⟩

/-- Every element below the size of a vector whose elements are all written can be
read. -/
theorem vector_get_of_written (v : vector handle) (hs : List Nat)
    (helements : v.elements = hs.map (fun x => some (some x))) (index : Nat)
    (hindex : index < hs.length) :
    ∃ framebuffer, v.get index = outcome.defined framebuffer := by
  have h1 : v.elements[index]? = some (some (some (hs.get ⟨index, hindex⟩))) := by
    rw [helements]
    simp
  unfold vector.elements at h1
  have h2 : v.m_data[index]? = some (some (some (hs.get ⟨index, hindex⟩))) := by
    by_cases hlt : index < v.m_size
    · rw [List.getElem?_take_of_lt hlt] at h1
      exact h1
    · rw [List.getElem?_take_eq_none (not_lt.mp hlt)] at h1
      exact Option.noConfusion h1
  exact ⟨_, by unfold vector.get; rw [h2]⟩

/-- A run of frames that all succeed, on a backend whose framebuffers can be read at
every index below `image_count`. -/
theorem render_frames_of_success (self : renderer_vulkan) (image_count : Nat)
    (hfb : ∀ index, index < image_count →
      ∃ framebuffer, self.m_swapchain_framebuffers.get index = outcome.defined framebuffer)
    (frames : List frame_driver) (fence : fence_state)
    (hfence : fence ≠ fence_state.unsignaled)
    (hframes : ∀ env ∈ frames, env.all_succeed image_count = true) :
    (render_frames frames self fence).1 = self ∧
      (render_frames frames self fence).2.length = frames.length ∧
      ∀ r ∈ (render_frames frames self fence).2,
        r.status = render_status.returned ∧
        (∃ present, r.calls.getLast? =
          some (native_call.vkQueuePresentKHR self.m_queues_present present)) ∧
        ∀ c ∈ r.calls, c.is_creation = false := by
  induction frames generalizing fence with
  | nil => simp [render_frames]
  | cons env rest ih =>
    obtain ⟨⟨index, hidx, hlt⟩, hbegin, hend, hsubmit⟩ :=
      all_succeed_spec env image_count (hframes env (List.mem_cons_self _ _))
    obtain ⟨framebuffer, hget⟩ := hfb index hlt
    have hr := render_of_success env self fence index framebuffer hfence hidx hget hbegin hend
      hsubmit
    obtain ⟨ih1, ih2, ih3⟩ := ih fence_state.signal_pending (by decide)
      (fun e he => hframes e (List.mem_cons_of_mem _ he))
    unfold render_frames
    rw [hr]
    simp only [ne_eq, not_true_eq_false, if_false]
    refine ⟨ih1, by simp [ih2], ?_⟩
    intro r hmem
    rcases List.mem_cons.1 hmem with h | h
    · subst h
      refine ⟨rfl, ⟨_, rfl⟩, ?_⟩
      intro c hc
      simp only [List.mem_cons, List.mem_singleton, List.not_mem_nil, or_false] at hc
      rcases hc with h | h | h | h | h | h | h | h | h | h | h | h <;> subst h <;> rfl
    · exact ih3 r h

/-- Claim C22: for every backend returned by `create_with_window` and every run of N
frames in which every native call succeeds (the fence wait of the first frame returns,
every acquire writes the index of an image of the swapchain), `render` is called N times
and returns N times; every call ends with the presentation on the present queue, no call
issues a creation or allocation call, and the backend after the run is the backend before
it, with every member as it was. -/
theorem render_frames_steady (d : driver) (w : window) (debugOutput : debug_output)
    (backend : renderer_vulkan) (frames : List frame_driver) (fence : fence_state)
    (hbackend :
      (create_with_window d w debugOutput).returned = outcome.defined (some backend))
    (hfence : fence ≠ fence_state.unsignaled)
    (hframes : ∀ env ∈ frames, env.all_succeed d.swapchainImages.length = true) :
    (render_frames frames backend fence).1 = backend ∧
      (render_frames frames backend fence).2.length = frames.length ∧
      ∀ r ∈ (render_frames frames backend fence).2,
        r.status = render_status.returned ∧
        (∃ present, r.calls.getLast? =
          some (native_call.vkQueuePresentKHR backend.m_queues_present present)) ∧
        ∀ c ∈ r.calls, c.is_creation = false := by
  obtain ⟨vk_instance, messenger, surface, pd, dev, g, p, extent, format, swapchain, images,
    views, vhs, render_pass, layout, pipeline, framebuffers, fhs, command_pool,
    command_buffer, available, finished, fence0, hb, _, _, _, hfbs, hflen, _, _⟩ :=
    create_with_window_success d w debugOutput backend hbackend
  refine render_frames_of_success backend d.swapchainImages.length ?_ frames fence hfence hframes
  intro index hindex
  rw [hb]
  exact vector_get_of_written framebuffers fhs hfbs index (by rw [hflen]; exact hindex)

/-- Claim C22 on three successful frames after the bring-up on the platform on which
every call succeeds. -/
theorem render_frames_steady_witness :
    (create_with_window driver_all_ok window_800_600 debug_output.disabled).returned =
        outcome.defined (some backend_ok) ∧
      (∀ env ∈ [frame_ok, frame_ok, frame_ok],
        env.all_succeed driver_all_ok.swapchainImages.length = true) ∧
      (render_frames [frame_ok, frame_ok, frame_ok] backend_ok fence_state.signaled).1 =
        backend_ok ∧
      (render_frames [frame_ok, frame_ok, frame_ok] backend_ok fence_state.signaled).2.length =
        [frame_ok, frame_ok, frame_ok].length ∧
      ∀ r ∈ (render_frames [frame_ok, frame_ok, frame_ok] backend_ok fence_state.signaled).2,
        r.status = render_status.returned ∧
        (∃ present, r.calls.getLast? =
          some (native_call.vkQueuePresentKHR backend_ok.m_queues_present present)) ∧
        ∀ c ∈ r.calls, c.is_creation = false :=
  ⟨by decide, by decide,
    render_frames_steady driver_all_ok window_800_600 debug_output.disabled backend_ok
      [frame_ok, frame_ok, frame_ok] fence_state.signaled (by decide) (by decide) (by decide)⟩

/-! ## The swapchain sequences (claim C23) -/

theorem vector_resize_size {T : Type} (zero : T) (self : vector T) (new_size : Nat) :
    (self.resize zero new_size).m_size = new_size := by
  unfold vector.resize
  split_ifs <;> rfl

/-- The image count in the request of `create_swapchain`. -/
theorem create_swapchain_info_minImageCount (m_window_surface : handle)
    (pd : VkPhysicalDevice) (width height : Nat) (info : VkSwapchainCreateInfoKHR)
    (h : create_swapchain_info m_window_surface pd width height = outcome.defined info) :
    info.minImageCount = swapchain_image_count (get_swapchain_support_details pd).capabilities := by
  unfold create_swapchain_info at h
  dsimp only at h
  cases hfmt : choose_surface_format (get_swapchain_support_details pd).formats with
  | none => simp [hfmt] at h
  | some surface_format =>
    simp only [hfmt] at h
    cases hsh : swapchain_sharing (find_queue_families pd) with
    | undefined => simp [hsh] at h
    | defined sharing =>
      simp only [hsh] at h
      have hinfo := (outcome.defined.inj h).symm
      subst hinfo
      rfl

/-- The sizes that a successful `create_swapchain` leaves behind, and its request. -/
theorem create_swapchain_sizes (d : driver) (w : window) (x : renderer_vulkan)
    (r : stage_result)
    (h : renderer_vulkan.create_swapchain d w x = outcome.defined r)
    (hok : r.returned = true) :
    (∃ pd info, x.m_physical_device = some pd ∧
      r.calls.head? = some (native_call.vkCreateSwapchainKHR x.m_device info VK_SUCCESS) ∧
      info.minImageCount =
        swapchain_image_count (get_swapchain_support_details pd).capabilities) ∧
    r.self.m_swapchain_images.m_size = d.swapchainImages.length ∧
    r.self.m_swapchain_image_views.m_size = d.swapchainImages.length := by
  unfold renderer_vulkan.create_swapchain renderer_vulkan.create_image_views_loop at h
  cases hpd : x.m_physical_device with
  | none => simp [hpd] at h
  | some pd =>
    simp only [hpd] at h
    cases hinfo : create_swapchain_info x.m_window_surface pd w.width w.height with
    | undefined => simp [hinfo] at h
    | defined info =>
      simp only [hinfo] at h
      by_cases hres : (d.vkCreateSwapchainKHR info).1 ≠ VK_SUCCESS
      · rw [if_pos hres] at h
        have hr := (outcome.defined.inj h).symm
        subst hr
        simp at hok
      · rw [if_neg hres] at h
        cases hfill : (x.m_swapchain_images.resize none d.swapchainImages.length).fill
            (d.swapchainImages.map some) with
        | undefined => simp [hfill] at h
        | defined images =>
          simp only [hfill] at h
          have himages : images.m_size = d.swapchainImages.length := by
            rw [vector_fill_size _ _ _ hfill, vector_resize_size]
          rw [himages] at h
          cases hloop : renderer_vulkan.create_loop images d.vkCreateImageView
              (fun image result =>
                native_call.vkCreateImageView x.m_device image (some info.imageFormat) result)
              (List.range d.swapchainImages.length)
              (x.m_swapchain_image_views.resize none d.swapchainImages.length) with
          | undefined => simp [hloop] at h
          | defined r0 =>
            simp only [hloop] at h
            have hr := (outcome.defined.inj h).symm
            subst hr
            simp only at hok
            obtain ⟨h1, _⟩ := create_loop_success images d.vkCreateImageView
              (fun image result =>
                native_call.vkCreateImageView x.m_device image (some info.imageFormat) result)
              resource.m_swapchain_image_views (by intro v; simp [created_resource]) _ _ r0
              hloop hok
            refine ⟨⟨pd, info, rfl, ?_,
              create_swapchain_info_minImageCount _ _ _ _ _ hinfo⟩, himages, ?_⟩
            · simp [not_not.mp hres]
            · rw [h1, vector_resize_size]

/-- The sizes that a successful `create_framebuffers` leaves behind. -/
theorem create_framebuffers_sizes (d : driver) (x : renderer_vulkan) (r : stage_result)
    (h : renderer_vulkan.create_framebuffers d x = outcome.defined r)
    (hok : r.returned = true) :
    r.self.m_swapchain_images = x.m_swapchain_images ∧
    r.self.m_swapchain_image_views = x.m_swapchain_image_views ∧
    r.self.m_swapchain_framebuffers.m_size = x.m_swapchain_image_views.m_size := by
  unfold renderer_vulkan.create_framebuffers renderer_vulkan.create_framebuffers_loop at h
  cases hloop : renderer_vulkan.create_loop x.m_swapchain_image_views d.vkCreateFramebuffer
      (fun view result =>
        native_call.vkCreateFramebuffer x.m_device x.m_render_pass view x.m_swapchain_extent result)
      (List.range x.m_swapchain_image_views.m_size)
      (x.m_swapchain_framebuffers.resize none x.m_swapchain_image_views.m_size) with
  | undefined => simp [hloop] at h
  | defined r0 =>
    simp only [hloop] at h
    have hr := (outcome.defined.inj h).symm
    subst hr
    simp only at hok
    obtain ⟨h1, _⟩ := create_loop_success x.m_swapchain_image_views d.vkCreateFramebuffer
      (fun view result =>
        native_call.vkCreateFramebuffer x.m_device x.m_render_pass view x.m_swapchain_extent result)
      resource.m_swapchain_framebuffers (by intro v; simp [created_resource]) _ _ r0 hloop hok
    refine ⟨rfl, rfl, ?_⟩
    rw [h1, vector_resize_size]

/-- Claim C23 fails where the driver creates more images than the minimum it was asked
for: on `device_a` the request of `create_swapchain` carries the image count 3
(`minImageCount` 2 plus one, below the maximum 8), the swapchain of `driver_extra_image`
has four images, and the three vectors of the backend that `create_with_window` returns
have size 4 each. -/
theorem swapchain_sequences_extra_image_counterexample :
    sequence_sizes (create_with_window driver_extra_image window_800_600
        debug_output.disabled) = some (4, 4, 4) ∧
      requested_image_counts (create_with_window driver_extra_image window_800_600
        debug_output.disabled).calls = [3] ∧
      swapchain_image_count (get_swapchain_support_details device_a).capabilities = 3 := by
  decide

/-- Claim C23, amended: when `create_swapchain` has returned true and, on a backend that
still holds the images and image views it left behind, `create_framebuffers` has
returned true, the image, image view and framebuffer vectors all have as their size the
number of images that `vkGetSwapchainImagesKHR` reports for the swapchain; the count
computed from the surface capabilities is what `create_swapchain` has passed to
`vkCreateSwapchainKHR` as `minImageCount`. -/
theorem swapchain_sequences_sizes (d : driver) (w : window) (x y : renderer_vulkan)
    (swapchain_stage framebuffers_stage : stage_result)
    (hswapchain : x.create_swapchain d w = outcome.defined swapchain_stage)
    (hswapchain_ok : swapchain_stage.returned = true)
    (himages : y.m_swapchain_images = swapchain_stage.self.m_swapchain_images)
    (hviews : y.m_swapchain_image_views = swapchain_stage.self.m_swapchain_image_views)
    (hframebuffers : y.create_framebuffers d = outcome.defined framebuffers_stage)
    (hframebuffers_ok : framebuffers_stage.returned = true) :
    framebuffers_stage.self.m_swapchain_images.m_size = d.swapchainImages.length ∧
      framebuffers_stage.self.m_swapchain_image_views.m_size = d.swapchainImages.length ∧
      framebuffers_stage.self.m_swapchain_framebuffers.m_size = d.swapchainImages.length ∧
      ∃ pd info, x.m_physical_device = some pd ∧
        swapchain_stage.calls.head? =
          some (native_call.vkCreateSwapchainKHR x.m_device info VK_SUCCESS) ∧
        info.minImageCount =
          swapchain_image_count (get_swapchain_support_details pd).capabilities := by
  obtain ⟨hreq, h1, h2⟩ := create_swapchain_sizes d w x swapchain_stage hswapchain hswapchain_ok
  obtain ⟨h3, h4, h5⟩ :=
    create_framebuffers_sizes d y framebuffers_stage hframebuffers hframebuffers_ok
  refine ⟨?_, ?_, ?_, hreq⟩
  · rw [h3, himages, h1]
  · rw [h4, hviews, h2]
  · rw [h5, hviews, h2]

/-- Claim C23, amended, on the platform on which every call succeeds and the swapchain
has three images. -/
theorem swapchain_sequences_sizes_witness :
    backend_before_swapchain.create_swapchain driver_all_ok window_800_600 =
        outcome.defined swapchain_stage_ok ∧
      swapchain_stage_ok.returned = true ∧
      swapchain_stage_ok.self.create_framebuffers driver_all_ok =
        outcome.defined framebuffers_stage_ok ∧
      framebuffers_stage_ok.returned = true ∧
      framebuffers_stage_ok.self.m_swapchain_images.m_size = 3 ∧
      framebuffers_stage_ok.self.m_swapchain_image_views.m_size = 3 ∧
      framebuffers_stage_ok.self.m_swapchain_framebuffers.m_size = 3 ∧
      ∃ pd info, backend_before_swapchain.m_physical_device = some pd ∧
        swapchain_stage_ok.calls.head? =
          some (native_call.vkCreateSwapchainKHR backend_before_swapchain.m_device info
            VK_SUCCESS) ∧
        info.minImageCount =
          swapchain_image_count (get_swapchain_support_details pd).capabilities :=
  ⟨by decide, by decide, by decide, by decide,
    swapchain_sequences_sizes driver_all_ok window_800_600 backend_before_swapchain
      swapchain_stage_ok.self swapchain_stage_ok framebuffers_stage_ok (by decide) (by decide)
      rfl rfl (by decide) (by decide)⟩

/-! ## Shader modules (claim C24) -/

/-- On every path on which `create_graphics_pipeline` returns false it issues no
destruction call: the shader modules created on that path are still alive when it
returns, and no member of the backend holds them. -/
theorem create_graphics_pipeline_failure_destroys_nothing (d : driver) (x : renderer_vulkan)
    (r : stage_result)
    (h : renderer_vulkan.create_graphics_pipeline d x = outcome.defined r)
    (hfail : r.returned = false) :
    ∀ c ∈ r.calls, destroyed_resource c = none := by
  unfold renderer_vulkan.create_graphics_pipeline at h
  by_cases hv : (d.read_entire_file "shaders/triangle.vert.spv").isEmpty = true
  · rw [if_pos hv] at h
    have hr := (outcome.defined.inj h).symm
    subst hr
    simp
  · rw [if_neg hv] at h
    by_cases hf : (d.read_entire_file "shaders/triangle.frag.spv").isEmpty = true
    · simp only [if_pos hf] at h
      have hr := (outcome.defined.inj h).symm
      subst hr
      simp
    · simp only [if_neg hf] at h
      rcases create_shader_module_cases d x (d.read_entire_file "shaders/triangle.vert.spv")
        with ⟨_, hvs⟩ | ⟨_, hvs⟩
      · simp only [hvs, if_true] at h
        have hr := (outcome.defined.inj h).symm
        subst hr
        simp [destroyed_resource]
      · rcases create_shader_module_cases d x (d.read_entire_file "shaders/triangle.frag.spv")
          with ⟨_, hfs⟩ | ⟨_, hfs⟩
        · simp only [hvs, hfs, if_true] at h
          simp at h
          subst h
          simp [destroyed_resource]
        · by_cases hl : d.vkCreatePipelineLayout.1 ≠ VK_SUCCESS
          · simp only [hvs, hfs, if_pos hl] at h
            simp at h
            subst h
            simp [destroyed_resource]
          · by_cases hp : d.vkCreateGraphicsPipelines.1 ≠ VK_SUCCESS
            · simp only [hvs, hfs, if_neg hl, if_pos hp] at h
              simp at h
              subst h
              simp [destroyed_resource]
            · simp only [hvs, hfs, if_neg hl, if_neg hp] at h
              simp at h
              subst h
              simp at hfail

/-- Claim C24 fails on the failing paths behind the first shader module.  On the
platform whose `vkCreateGraphicsPipelines` fails, bring-up stops at
`create_graphics_pipeline` and returns no backend; its calls, those of the destructor
included, create two shader modules and destroy none.  On the platform whose second
`vkCreateShaderModule` fails, one shader module is created and none is destroyed.  On
the platform on which every call succeeds, two are created and two are destroyed. -/
theorem create_graphics_pipeline_leaks_shader_modules :
    (create_with_window driver_no_pipeline window_800_600 debug_output.disabled).returned =
        outcome.defined none ∧
      (create_with_window driver_no_pipeline window_800_600 debug_output.disabled).stages.getLast? =
        some (bringup_stage.graphics_pipeline, outcome.defined false) ∧
      ((create_with_window driver_no_pipeline window_800_600
          debug_output.disabled).calls.filterMap created_resource).count
        resource.shader_module = 2 ∧
      ((create_with_window driver_no_pipeline window_800_600
          debug_output.disabled).calls.filterMap destroyed_resource).count
        resource.shader_module = 0 ∧
      (create_with_window driver_no_fragment_module window_800_600
          debug_output.disabled).stages.getLast? =
        some (bringup_stage.graphics_pipeline, outcome.defined false) ∧
      ((create_with_window driver_no_fragment_module window_800_600
          debug_output.disabled).calls.filterMap created_resource).count
        resource.shader_module = 1 ∧
      ((create_with_window driver_no_fragment_module window_800_600
          debug_output.disabled).calls.filterMap destroyed_resource).count
        resource.shader_module = 0 ∧
      ((create_with_window driver_all_ok window_800_600
          debug_output.disabled).calls.filterMap created_resource).count
        resource.shader_module = 2 ∧
      ((create_with_window driver_all_ok window_800_600
          debug_output.disabled).calls.filterMap destroyed_resource).count
        resource.shader_module = 2 := by
  decide

/-! ## The debug flag (claim C25) -/

/-- The instance request of `create_instance`, when it issues one. -/
theorem create_instance_calls (d : driver) (debugOutput : debug_output) :
    (create_instance d debugOutput = (none, [])) ∨
      ∃ result rest,
        ((create_instance d debugOutput).1 = none ∨ result = VK_SUCCESS) ∧
        (create_instance d debugOutput).2 =
          native_call.vkCreateInstance
            { enabledExtensionNames := get_required_extension_names debugOutput
              enabledLayerNames :=
                if debugOutput = debug_output.enabled then ["VK_LAYER_KHRONOS_validation"]
                else []
              debugMessengerChained := decide (debugOutput = debug_output.enabled) } result ::
            rest ∧
        ∀ c ∈ rest, ∀ info r, c ≠ native_call.vkCreateInstance info r := by
  unfold create_instance
  dsimp only
  by_cases hext : (!check_extension_support d (get_required_extension_names debugOutput)) = true
  · rw [if_pos hext]
    exact Or.inl rfl
  · rw [if_neg hext]
    by_cases hlayer : (decide (debugOutput = debug_output.enabled) &&
        !check_layer_support d ["VK_LAYER_KHRONOS_validation"]) = true
    · rw [if_pos hlayer]
      exact Or.inl rfl
    · rw [if_neg hlayer]
      right
      cases debugOutput with
      | enabled =>
        simp only [decide_True, if_true]
        split_ifs with hres
        · exact ⟨_, [], Or.inl rfl, rfl, by simp⟩
        · exact ⟨_, _, Or.inr (not_not.mp hres), rfl, by simp⟩
      | disabled =>
        simp only [decide_False, if_false, reduceCtorEq, Bool.false_eq_true]
        split_ifs with hres
        · exact ⟨_, [], Or.inl rfl, rfl, by simp⟩
        · exact ⟨_, _, Or.inr (not_not.mp hres), rfl, by simp⟩

/-- The device request of `create_logical_device`, when it issues one. -/
theorem create_logical_device_calls (devices : List VkPhysicalDevice)
    (vkCreateDevice : VkPhysicalDevice → VkDeviceCreateInfo → Int × Nat)
    (debugOutput : debug_output) (self : device_state) (r : create_logical_device_result)
    (h : create_logical_device devices vkCreateDevice debugOutput self = outcome.defined r) :
    (r.returned = false ∧ r.calls = []) ∨
      ∃ pd queueCreateInfos rest,
        r.calls =
          device_call.vkCreateDevice pd
            { queueCreateInfos := queueCreateInfos
              enabledExtensionNames := REQUIRED_DEVICE_EXTENSION_NAMES
              enabledLayerNames :=
                if debugOutput = debug_output.enabled then ["VK_LAYER_KHRONOS_validation"]
                else [] } :: rest ∧
        ∀ c ∈ rest, ∀ pd2 info, c ≠ device_call.vkCreateDevice pd2 info := by
  unfold create_logical_device at h
  cases hpick : pick_physical_device devices with
  | undefined => simp [hpick] at h
  | defined picked =>
    cases picked with
    | none =>
      simp only [hpick] at h
      have hr := (outcome.defined.inj h).symm
      subst hr
      exact Or.inl ⟨rfl, rfl⟩
    | some pd =>
      simp only [hpick] at h
      cases hg : (find_queue_families pd).graphics with
      | none => simp [hg] at h
      | some g =>
        cases hp : (find_queue_families pd).present with
        | none => simp [hg, hp] at h
        | some p =>
          simp only [hg, hp] at h
          right
          cases debugOutput with
          | enabled =>
            simp only [if_true] at h ⊢
            split_ifs at h with hres
            · have hr := (outcome.defined.inj h).symm
              subst hr
              exact ⟨pd, _, [], rfl, by simp⟩
            · have hr := (outcome.defined.inj h).symm
              subst hr
              exact ⟨pd, _, _, rfl, by simp⟩
          | disabled =>
            simp only [reduceCtorEq, if_false] at h ⊢
            split_ifs at h with hres
            · have hr := (outcome.defined.inj h).symm
              subst hr
              exact ⟨pd, _, [], rfl, by simp⟩
            · have hr := (outcome.defined.inj h).symm
              subst hr
              exact ⟨pd, _, _, rfl, by simp⟩

/-- Claim C25: `get_required_extension_names` returns the two surface extension names,
followed by the debug-utils extension name exactly when debug output is enabled; every
`vkCreateInstance` call of `create_instance` enables these extension names and, as its
layers, the one layer `VK_LAYER_KHRONOS_validation` when debug output is enabled and no
layer otherwise, and there is such a call whenever `create_instance` returns an
instance; every `vkCreateDevice` call of `create_logical_device` enables the same
layers, and there is such a call whenever `create_logical_device` returns true. -/
theorem debug_flag_layers_and_extensions :
    get_required_extension_names debug_output.enabled =
        [VK_KHR_SURFACE_EXTENSION_NAME, VK_KHR_WIN32_SURFACE_EXTENSION_NAME,
          VK_EXT_DEBUG_UTILS_EXTENSION_NAME] ∧
      get_required_extension_names debug_output.disabled =
        [VK_KHR_SURFACE_EXTENSION_NAME, VK_KHR_WIN32_SURFACE_EXTENSION_NAME] ∧
      (∀ (d : driver) (debugOutput : debug_output) (info : VkInstanceCreateInfo) (result : Int),
        native_call.vkCreateInstance info result ∈ (create_instance d debugOutput).2 →
          info.enabledExtensionNames = get_required_extension_names debugOutput ∧
          info.enabledLayerNames =
            (if debugOutput = debug_output.enabled then ["VK_LAYER_KHRONOS_validation"]
              else [])) ∧
      (∀ (d : driver) (debugOutput : debug_output) (vk_instance : Nat),
        (create_instance d debugOutput).1 = some vk_instance →
          ∃ info, native_call.vkCreateInstance info VK_SUCCESS ∈
            (create_instance d debugOutput).2) ∧
      (∀ (devices : List VkPhysicalDevice)
          (vkCreateDevice : VkPhysicalDevice → VkDeviceCreateInfo → Int × Nat)
          (debugOutput : debug_output) (self : device_state)
          (r : create_logical_device_result) (pd : VkPhysicalDevice)
          (info : VkDeviceCreateInfo),
        create_logical_device devices vkCreateDevice debugOutput self = outcome.defined r →
          device_call.vkCreateDevice pd info ∈ r.calls →
          info.enabledLayerNames =
            (if debugOutput = debug_output.enabled then ["VK_LAYER_KHRONOS_validation"]
              else [])) ∧
      (∀ (devices : List VkPhysicalDevice)
          (vkCreateDevice : VkPhysicalDevice → VkDeviceCreateInfo → Int × Nat)
          (debugOutput : debug_output) (self : device_state)
          (r : create_logical_device_result),
        create_logical_device devices vkCreateDevice debugOutput self = outcome.defined r →
          r.returned = true → ∃ pd info, device_call.vkCreateDevice pd info ∈ r.calls) := by
  refine ⟨rfl, rfl, ?_, ?_, ?_, ?_⟩
  · intro d debugOutput info result hmem
    rcases create_instance_calls d debugOutput with h | ⟨res, rest, _, hcalls, hrest⟩
    · rw [h] at hmem
      simp at hmem
    · rw [hcalls] at hmem
      rcases List.mem_cons.1 hmem with heq | hin
      · injection heq with hinfo _
        subst hinfo
        exact ⟨rfl, rfl⟩
      · exact absurd rfl (hrest _ hin info result)
  · intro d debugOutput vk_instance hinst
    rcases create_instance_calls d debugOutput with h | ⟨res, rest, hres, hcalls, _⟩
    · rw [h] at hinst
      simp at hinst
    · rcases hres with hnone | hsucc
      · rw [hnone] at hinst
        simp at hinst
      · subst hsucc
        exact ⟨_, by rw [hcalls]; exact List.mem_cons_self _ _⟩
  · intro devices vkCreateDevice debugOutput self r pd info h hmem
    rcases create_logical_device_calls devices vkCreateDevice debugOutput self r h with
      ⟨_, hnil⟩ | ⟨pd1, q, rest, hcalls, hrest⟩
    · rw [hnil] at hmem
      simp at hmem
    · rw [hcalls] at hmem
      rcases List.mem_cons.1 hmem with heq | hin
      · injection heq with _ hinfo
        subst hinfo
        rfl
      · exact absurd rfl (hrest _ hin pd info)
  · intro devices vkCreateDevice debugOutput self r h hok
    rcases create_logical_device_calls devices vkCreateDevice debugOutput self r h with
      ⟨hfalse, _⟩ | ⟨pd1, q, rest, hcalls, _⟩
    · rw [hfalse] at hok
      simp at hok
    · exact ⟨pd1, _, by rw [hcalls]; exact List.mem_cons_self _ _⟩

/-- Claim C25 on the platform on which every call succeeds, with debug output enabled:
the instance request is issued and enables three extensions and one layer. -/
theorem debug_flag_layers_and_extensions_witness :
    native_call.vkCreateInstance
        { enabledExtensionNames :=
            [VK_KHR_SURFACE_EXTENSION_NAME, VK_KHR_WIN32_SURFACE_EXTENSION_NAME,
              VK_EXT_DEBUG_UTILS_EXTENSION_NAME]
          enabledLayerNames := ["VK_LAYER_KHRONOS_validation"]
          debugMessengerChained := true } VK_SUCCESS ∈
        (create_instance driver_all_ok debug_output.enabled).2 ∧
      get_required_extension_names debug_output.enabled =
        [VK_KHR_SURFACE_EXTENSION_NAME, VK_KHR_WIN32_SURFACE_EXTENSION_NAME,
          VK_EXT_DEBUG_UTILS_EXTENSION_NAME] ∧
      (create_instance driver_all_ok debug_output.enabled).1 = some 100 ∧
      ∃ info, native_call.vkCreateInstance info VK_SUCCESS ∈
        (create_instance driver_all_ok debug_output.enabled).2 :=
  ⟨by decide, debug_flag_layers_and_extensions.1, by decide,
    debug_flag_layers_and_extensions.2.2.2.1 driver_all_ok debug_output.enabled 100
      (by decide)⟩

/-! ## Teardown of a partly constructed backend (claim C26) -/

/-- The first statement of the destructor has no defined result on a backend whose
device function table was never loaded. -/
theorem destructor_of_unloaded (self : renderer_vulkan)
    (h : self.m_device_functions_loaded = false) :
    self.destructor = outcome.undefined := by
  unfold renderer_vulkan.destructor
  simp [h]

/-- A call of `create_logical_device` that returns false has not loaded the device
function table. -/
theorem create_logical_device_failure_unloaded (devices : List VkPhysicalDevice)
    (vkCreateDevice : VkPhysicalDevice → VkDeviceCreateInfo → Int × Nat)
    (debugOutput : debug_output) (self : device_state) (r : create_logical_device_result)
    (h : create_logical_device devices vkCreateDevice debugOutput self = outcome.defined r)
    (hfail : r.returned = false) :
    r.self.m_device_functions_loaded = self.m_device_functions_loaded ∧
      r.self.m_device = self.m_device := by
  unfold create_logical_device at h
  cases hpick : pick_physical_device devices with
  | undefined => simp [hpick] at h
  | defined picked =>
    cases picked with
    | none =>
      simp only [hpick] at h
      have hr := (outcome.defined.inj h).symm
      subst hr
      exact ⟨rfl, rfl⟩
    | some pd =>
      simp only [hpick] at h
      cases hg : (find_queue_families pd).graphics with
      | none => simp [hg] at h
      | some g =>
        cases hp : (find_queue_families pd).present with
        | none => simp [hg, hp] at h
        | some p =>
          simp only [hg, hp] at h
          by_cases hres : (vkCreateDevice pd
              { queueCreateInfos :=
                  (std_set_of_two g p).map fun queueFamilyIndex =>
                    { queueFamilyIndex := queueFamilyIndex, queueCount := 1 }
                enabledExtensionNames := REQUIRED_DEVICE_EXTENSION_NAMES
                enabledLayerNames :=
                  if debugOutput = debug_output.enabled then ["VK_LAYER_KHRONOS_validation"]
                  else [] }).1 ≠ VK_SUCCESS
          · rw [if_pos hres] at h
            have hr := (outcome.defined.inj h).symm
            subst hr
            exact ⟨rfl, rfl⟩
          · rw [if_neg hres] at h
            have hr := (outcome.defined.inj h).symm
            subst hr
            simp at hfail

/-- The same for the member function on the whole backend. -/
theorem renderer_create_logical_device_failure_unloaded (d : driver)
    (debugOutput : debug_output) (x : renderer_vulkan) (r : stage_result)
    (h : renderer_vulkan.create_logical_device d debugOutput x = outcome.defined r)
    (hfail : r.returned = false) (hx : x.m_device_functions_loaded = false) :
    r.self.m_device_functions_loaded = false := by
  unfold renderer_vulkan.create_logical_device at h
  cases hd : EngineExperiments.create_logical_device d.devices d.vkCreateDevice debugOutput
      x.todevice_state with
  | undefined => simp [hd] at h
  | defined r0 =>
    simp only [hd] at h
    have hr := (outcome.defined.inj h).symm
    subst hr
    simp only at hfail ⊢
    rw [(create_logical_device_failure_unloaded _ _ _ _ r0 hd hfail).1]
    exact hx

/-- For every platform: when `create_window_surface` returns false, or when it returns
true and `create_logical_device` returns false, the destructor runs on a backend without
a device and with an unloaded device function table, and `create_with_window` has no
defined result. -/
theorem create_with_window_early_failure (d : driver) (w : window)
    (debugOutput : debug_output)
    (h : (bringup_stage.window_surface, outcome.defined false) ∈
          (create_with_window d w debugOutput).stages ∨
        (bringup_stage.logical_device, outcome.defined false) ∈
          (create_with_window d w debugOutput).stages) :
    (create_with_window d w debugOutput).returned = outcome.undefined := by
  by_cases hloader : d.volkInitialize ≠ VK_SUCCESS
  · rw [create_with_window_of_loader_failure d w debugOutput hloader] at h
    simp at h
  · have hok : d.volkInitialize = VK_SUCCESS := not_not.mp hloader
    cases hinst : (create_instance d debugOutput).1 with
    | none =>
      rw [create_with_window_of_instance_failure d w debugOutput hok hinst] at h
      simp at h
    | some vk_instance =>
      rw [create_with_window_of_instance d w debugOutput vk_instance hok hinst] at h ⊢
      simp only at h ⊢
      obtain ⟨messenger, hx0, _⟩ := make_renderer_shape d debugOutput vk_instance
      rw [hx0] at h ⊢
      unfold renderer_stages at h ⊢
      by_cases hsurface : d.vkCreateWin32SurfaceKHR.1 ≠ VK_SUCCESS
      · simp only [run_stages, renderer_vulkan.create_window_surface, if_pos hsurface]
        rw [destructor_of_unloaded _ rfl]
        simp
      · have hs : renderer_vulkan.create_window_surface d
            { m_instance := some vk_instance, m_debugMessenger := messenger } =
            outcome.defined
              { returned := true
                self :=
                  { m_instance := some vk_instance, m_debugMessenger := messenger,
                    m_window_surface := some d.vkCreateWin32SurfaceKHR.2 }
                calls :=
                  [native_call.vkCreateWin32SurfaceKHR (some vk_instance)
                    d.vkCreateWin32SurfaceKHR.1] } := by
          unfold renderer_vulkan.create_window_surface
          rw [if_neg hsurface]
        rw [run_stages, hs] at h ⊢
        simp only [Bool.not_true, Bool.false_eq_true, if_false] at h ⊢
        rw [run_stages] at h ⊢
        cases hdev : renderer_vulkan.create_logical_device d debugOutput
            { m_instance := some vk_instance, m_debugMessenger := messenger,
              m_window_surface := some d.vkCreateWin32SurfaceKHR.2 } with
        | undefined => simp [hdev]
        | defined r =>
          simp only [hdev] at h ⊢
          cases hret : r.returned with
          | false =>
            simp only [hret, Bool.not_false, if_true]
            have hunloaded : r.self.m_device_functions_loaded = false :=
              renderer_create_logical_device_failure_unloaded d debugOutput _ r hdev hret rfl
            rw [destructor_of_unloaded _ hunloaded]
          | true =>
            exfalso
            simp only [hret, Bool.not_true, Bool.false_eq_true, if_false] at h
            have hrest := (run_stages_spec
              [(bringup_stage.swapchain, renderer_vulkan.create_swapchain d w),
                (bringup_stage.render_pass, renderer_vulkan.create_render_pass d),
                (bringup_stage.graphics_pipeline, renderer_vulkan.create_graphics_pipeline d),
                (bringup_stage.framebuffers, renderer_vulkan.create_framebuffers d),
                (bringup_stage.command_pool, renderer_vulkan.create_command_pool d),
                (bringup_stage.command_buffer, renderer_vulkan.create_command_buffer d),
                (bringup_stage.synchronization_objects,
                  renderer_vulkan.create_synchronization_objects d)] r.self).1
            have hnames : ∀ q ∈ (run_stages
                [(bringup_stage.swapchain, renderer_vulkan.create_swapchain d w),
                  (bringup_stage.render_pass, renderer_vulkan.create_render_pass d),
                  (bringup_stage.graphics_pipeline, renderer_vulkan.create_graphics_pipeline d),
                  (bringup_stage.framebuffers, renderer_vulkan.create_framebuffers d),
                  (bringup_stage.command_pool, renderer_vulkan.create_command_pool d),
                  (bringup_stage.command_buffer, renderer_vulkan.create_command_buffer d),
                  (bringup_stage.synchronization_objects,
                    renderer_vulkan.create_synchronization_objects d)] r.self).stages,
                q.1 ≠ bringup_stage.window_surface ∧ q.1 ≠ bringup_stage.logical_device := by
              intro q hq
              have hmem : q.1 ∈ [bringup_stage.swapchain, bringup_stage.render_pass,
                  bringup_stage.graphics_pipeline, bringup_stage.framebuffers,
                  bringup_stage.command_pool, bringup_stage.command_buffer,
                  bringup_stage.synchronization_objects] := by
                have := hrest.subset (List.mem_map_of_mem Prod.fst hq)
                simpa using this
              simp only [List.mem_cons, List.mem_singleton, List.not_mem_nil, or_false] at hmem
              rcases hmem with e | e | e | e | e | e | e <;> rw [e] <;> decide
            simp only [List.mem_cons, Prod.mk.injEq, reduceCtorEq, false_and, and_false,
              false_or, outcome.defined.injEq, Bool.true_eq_false] at h
            rcases h with h | h
            · exact (hnames _ h).1 rfl
            · exact (hnames _ h).2 rfl

/-- Claim C26 fails at the stages that run before the logical device exists.  On the
platform whose `vkCreateWin32SurfaceKHR` fails, the backend handed to
`create_window_surface` has its instance and nothing else, the stage returns false, and
the destructor that then runs starts with `vkDeviceWaitIdle` through the device function
table, which no `volkLoadDeviceTable` has filled, on the null device: there is no defined
result, and `create_with_window` has none either.  The same happens when
`create_logical_device` returns false, for lack of a suitable device or because
`vkCreateDevice` fails.  At a later stage, `create_render_pass`, the teardown is defined
and `create_with_window` returns no backend. -/
theorem teardown_without_device :
    (make_renderer driver_no_surface debug_output.disabled 100).1 = backend_instance_only ∧
      backend_instance_only.create_window_surface driver_no_surface =
        outcome.defined
          { returned := false, self := backend_instance_only,
            calls :=
              [native_call.vkCreateWin32SurfaceKHR (some 100) VK_ERROR_OUT_OF_HOST_MEMORY] } ∧
      backend_instance_only.m_device = none ∧
      backend_instance_only.m_device_functions_loaded = false ∧
      backend_instance_only.destructor = outcome.undefined ∧
      (create_with_window driver_no_surface window_800_600 debug_output.disabled).stages =
        [(bringup_stage.loader, outcome.defined true),
          (bringup_stage.vk_instance, outcome.defined true),
          (bringup_stage.window_surface, outcome.defined false)] ∧
      (create_with_window driver_no_surface window_800_600 debug_output.disabled).returned =
        outcome.undefined ∧
      (create_with_window driver_no_suitable_device window_800_600
          debug_output.disabled).stages.getLast? =
        some (bringup_stage.logical_device, outcome.defined false) ∧
      (create_with_window driver_no_suitable_device window_800_600
          debug_output.disabled).returned = outcome.undefined ∧
      (create_with_window driver_no_device window_800_600
          debug_output.disabled).stages.getLast? =
        some (bringup_stage.logical_device, outcome.defined false) ∧
      (create_with_window driver_no_device window_800_600 debug_output.disabled).returned =
        outcome.undefined ∧
      (create_with_window driver_no_render_pass window_800_600
          debug_output.disabled).stages.getLast? =
        some (bringup_stage.render_pass, outcome.defined false) ∧
      (create_with_window driver_no_render_pass window_800_600
          debug_output.disabled).returned = outcome.defined none := by
  decide

/-! ## The queue family loop in detail (claim C27) -/

theorem graphics_capable_at_zero (f : queue_family) (rest : List queue_family) :
    graphics_capable_at (f :: rest) 0 = decide (f.queueFlags &&& VK_QUEUE_GRAPHICS_BIT ≠ 0) := by
  simp [graphics_capable_at]

theorem graphics_capable_at_succ (f : queue_family) (rest : List queue_family) (j : Nat) :
    graphics_capable_at (f :: rest) (j + 1) = graphics_capable_at rest j := by
  simp [graphics_capable_at]

theorem present_capable_at_zero (f : queue_family) (rest : List queue_family) :
    present_capable_at (f :: rest) 0 = f.hasPresentSupport := by
  simp [present_capable_at]

theorem present_capable_at_succ (f : queue_family) (rest : List queue_family) (j : Nat) :
    present_capable_at (f :: rest) (j + 1) = present_capable_at rest j := by
  simp [present_capable_at]

/-- After the family at position 0 alone. -/
theorem last_capable_upto_zero (c : Nat → Bool) (i : Nat) (before : Option Nat) :
    last_capable_upto c 0 i before (if c 0 = true then some i else before) := by
  unfold last_capable_upto
  by_cases h0 : c 0 = true
  · left
    refine ⟨0, le_refl _, h0, ?_, by simp [h0]⟩
    intro j2 hj2 hlt
    omega
  · right
    refine ⟨?_, by simp [h0]⟩
    intro j hj
    have hj0 : j = 0 := by omega
    subst hj0
    simpa using h0

/-- From the families behind position 0 to the whole list. -/
theorem last_capable_upto_cons (c c2 : Nat → Bool) (hc : ∀ j, c (j + 1) = c2 j)
    (i k : Nat) (before found : Option Nat)
    (h : last_capable_upto c2 k (i + 1) (if c 0 = true then some i else before) found) :
    last_capable_upto c (k + 1) i before found := by
  unfold last_capable_upto at h ⊢
  rcases h with ⟨j, hjk, hcj, hlast, hfound⟩ | ⟨hnone, hfound⟩
  · left
    refine ⟨j + 1, by omega, by rw [hc]; exact hcj, ?_, by rw [hfound]; congr 1; omega⟩
    intro j2 hj2 hlt
    obtain ⟨j3, rfl⟩ : ∃ j3, j2 = j3 + 1 := ⟨j2 - 1, by omega⟩
    rw [hc]
    exact hlast j3 (by omega) (by omega)
  · by_cases h0 : c 0 = true
    · left
      refine ⟨0, by omega, h0, ?_, by rw [hfound]; simp [h0]⟩
      intro j2 hj2 hlt
      obtain ⟨j3, rfl⟩ : ∃ j3, j2 = j3 + 1 := ⟨j2 - 1, by omega⟩
      rw [hc]
      exact hnone j3 (by omega)
    · right
      refine ⟨?_, by rw [hfound]; simp [h0]⟩
      intro j hj
      rcases Nat.eq_zero_or_pos j with hj0 | hjpos
      · subst hj0
        simpa using h0
      · obtain ⟨j3, rfl⟩ : ∃ j3, j = j3 + 1 := ⟨j - 1, by omega⟩
        rw [hc]
        exact hnone j3 (by omega)

/-- Whether an index variable is set after one family: it was set before or the family is
capable. -/
theorem isSome_ite_some (b : Bool) (i : Nat) (before : Option Nat) :
    (if b = true then some i else before).isSome = true ↔ (before.isSome = true ∨ b = true) := by
  cases b <;> simp

/-- Capability somewhere among the positions 0 to `k + 1` of a list. -/
theorem exists_capable_cons (c c2 : Nat → Bool) (hc : ∀ j, c (j + 1) = c2 j) (k : Nat) :
    (∃ j, j ≤ k + 1 ∧ c j = true) ↔ (c 0 = true ∨ ∃ j, j ≤ k ∧ c2 j = true) := by
  constructor
  · rintro ⟨j, hj, hcj⟩
    rcases Nat.eq_zero_or_pos j with hj0 | hjpos
    · subst hj0
      exact Or.inl hcj
    · obtain ⟨j3, rfl⟩ : ∃ j3, j = j3 + 1 := ⟨j - 1, by omega⟩
      rw [hc] at hcj
      exact Or.inr ⟨j3, by omega, hcj⟩
  · rintro (h0 | ⟨j, hj, hcj⟩)
    · exact ⟨0, by omega, h0⟩
    · exact ⟨j + 1, by omega, by rw [hc]; exact hcj⟩

theorem exists_capable_zero (c : Nat → Bool) :
    (∃ j, j ≤ 0 ∧ c j = true) ↔ c 0 = true := by
  constructor
  · rintro ⟨j, hj, hcj⟩
    have hj0 : j = 0 := by omega
    subst hj0
    exact hcj
  · intro h
    exact ⟨0, le_refl _, h⟩

/-- The loop of `find_queue_families` when the families at the positions 0 to `k`, and
no fewer, complete the assignment: each index variable holds the index of the last
capable family among them. -/
theorem find_queue_families_loop_least (fs : List queue_family) (i : Nat)
    (indices : queue_family_indices) (k : Nat)
    (hcomp :
      (indices.graphics.isSome = true ∨ ∃ j, j ≤ k ∧ graphics_capable_at fs j = true) ∧
      (indices.present.isSome = true ∨ ∃ j, j ≤ k ∧ present_capable_at fs j = true))
    (hleast : ∀ k2, k2 < k →
      ¬((indices.graphics.isSome = true ∨ ∃ j, j ≤ k2 ∧ graphics_capable_at fs j = true) ∧
        (indices.present.isSome = true ∨ ∃ j, j ≤ k2 ∧ present_capable_at fs j = true))) :
    ∃ g p, find_queue_families_loop fs i indices = { graphics := g, present := p } ∧
      last_capable_upto (graphics_capable_at fs) k i indices.graphics g ∧
      last_capable_upto (present_capable_at fs) k i indices.present p := by
  induction fs generalizing i indices k with
  | nil =>
    have hG : ∀ j, graphics_capable_at [] j = false := fun j => by simp [graphics_capable_at]
    have hP : ∀ j, present_capable_at [] j = false := fun j => by simp [present_capable_at]
    refine ⟨indices.graphics, indices.present, by simp [find_queue_families_loop],
      Or.inr ⟨fun j _ => hG j, rfl⟩, Or.inr ⟨fun j _ => hP j, rfl⟩⟩
  | cons f rest ih =>
    obtain ⟨indices2, hg2, hp2, hloop⟩ := find_queue_families_loop_cons f rest i indices
    have hg2c : indices2.graphics =
        (if graphics_capable_at (f :: rest) 0 = true then some i else indices.graphics) := by
      rw [hg2, graphics_capable_at_zero]
      simp
    have hp2c : indices2.present =
        (if present_capable_at (f :: rest) 0 = true then some i else indices.present) := by
      rw [hp2, present_capable_at_zero]
    have hGsome : indices2.graphics.isSome = true ↔
        (indices.graphics.isSome = true ∨ graphics_capable_at (f :: rest) 0 = true) := by
      rw [hg2c]
      exact isSome_ite_some _ _ _
    have hPsome : indices2.present.isSome = true ↔
        (indices.present.isSome = true ∨ present_capable_at (f :: rest) 0 = true) := by
      rw [hp2c]
      exact isSome_ite_some _ _ _
    cases k with
    | zero =>
      rw [exists_capable_zero, exists_capable_zero] at hcomp
      have hc : indices2.is_complete = true :=
        (is_complete_iff indices2).2 ⟨hGsome.2 hcomp.1, hPsome.2 hcomp.2⟩
      rw [hloop, if_pos hc]
      refine ⟨indices2.graphics, indices2.present, rfl, ?_, ?_⟩
      · rw [hg2c]
        exact last_capable_upto_zero _ _ _
      · rw [hp2c]
        exact last_capable_upto_zero _ _ _
    | succ k1 =>
      have hnc : ¬ indices2.is_complete = true := by
        intro hc
        have hc2 := (is_complete_iff indices2).1 hc
        refine hleast 0 (by omega) ?_
        rw [exists_capable_zero, exists_capable_zero]
        exact ⟨hGsome.1 hc2.1, hPsome.1 hc2.2⟩
      rw [hloop, if_neg hnc]
      have hstepG : ∀ k2, (indices2.graphics.isSome = true ∨
            ∃ j, j ≤ k2 ∧ graphics_capable_at rest j = true) ↔
          (indices.graphics.isSome = true ∨
            ∃ j, j ≤ k2 + 1 ∧ graphics_capable_at (f :: rest) j = true) := by
        intro k2
        rw [hGsome, exists_capable_cons (graphics_capable_at (f :: rest))
          (graphics_capable_at rest) (graphics_capable_at_succ f rest) k2, or_assoc]
      have hstepP : ∀ k2, (indices2.present.isSome = true ∨
            ∃ j, j ≤ k2 ∧ present_capable_at rest j = true) ↔
          (indices.present.isSome = true ∨
            ∃ j, j ≤ k2 + 1 ∧ present_capable_at (f :: rest) j = true) := by
        intro k2
        rw [hPsome, exists_capable_cons (present_capable_at (f :: rest))
          (present_capable_at rest) (present_capable_at_succ f rest) k2, or_assoc]
      obtain ⟨g, p, hres, hG, hP⟩ := ih (i + 1) indices2 k1
        ⟨(hstepG k1).2 hcomp.1, (hstepP k1).2 hcomp.2⟩
        (by
          intro k2 hk2 hboth
          exact hleast (k2 + 1) (by omega) ⟨(hstepG k2).1 hboth.1, (hstepP k2).1 hboth.2⟩)
      refine ⟨g, p, hres, ?_, ?_⟩
      · rw [hg2c] at hG
        exact last_capable_upto_cons _ _ (graphics_capable_at_succ f rest) _ _ _ _ hG
      · rw [hp2c] at hP
        exact last_capable_upto_cons _ _ (present_capable_at_succ f rest) _ _ _ _ hP

/-- The index found is determined by the last capable position. -/
theorem last_capable_upto_unique (c : Nat → Bool) (k g : Nat) (found : Option Nat)
    (hgk : g ≤ k) (hcg : c g = true) (hlast : ∀ j, j ≤ k → g < j → c j = false)
    (h : last_capable_upto c k 0 none found) : found = some g := by
  unfold last_capable_upto at h
  rcases h with ⟨j, hjk, hcj, hjlast, hfound⟩ | ⟨hnone, _⟩
  · have hjg : j = g := by
      rcases Nat.lt_trichotomy j g with hlt | heq | hgt
      · have := hjlast g hgk hlt
        rw [hcg] at this
        exact Bool.noConfusion this
      · exact heq
      · have := hlast j hjk hgt
        rw [hcj] at this
        exact Bool.noConfusion this
    rw [hfound, hjg, Nat.zero_add]
  · have := hnone g hgk
    rw [hcg] at this
    exact Bool.noConfusion this

/-- A capable position lies inside the list. -/
theorem graphics_capable_at_lt (fs : List queue_family) (j : Nat)
    (h : graphics_capable_at fs j = true) : j < fs.length := by
  by_contra hcon
  unfold graphics_capable_at at h
  rw [List.getElem?_eq_none (not_lt.mp hcon)] at h
  exact Bool.noConfusion h

theorem present_capable_at_lt (fs : List queue_family) (j : Nat)
    (h : present_capable_at fs j = true) : j < fs.length := by
  by_contra hcon
  unfold present_capable_at at h
  rw [List.getElem?_eq_none (not_lt.mp hcon)] at h
  exact Bool.noConfusion h

/-- The families at the positions 0 to `k` of a list that is longer than `k` are those of
its first `k + 1` families followed by any other families. -/
theorem getElem?_take_append (fs other : List queue_family) (k j : Nat) (hk : k < fs.length)
    (hj : j ≤ k) : (fs.take (k + 1) ++ other)[j]? = fs[j]? := by
  have hlen : j < (fs.take (k + 1)).length := by
    rw [List.length_take]
    omega
  rw [List.getElem?_append_left hlen, List.getElem?_take_of_lt (by omega)]

/-- Claim C27: let the families at the positions 0 to `k` of a device contain a family
with the graphics bit and a family that can present, and let no shorter initial segment
do so; let `g` be the greatest position up to `k` of a family with the graphics bit and
`p` the greatest position up to `k` of a family that can present.  Then
`find_queue_families` returns `g` as the graphics index and `p` as the present index,
and it returns the same for every device whose families agree with these up to position
`k`, whatever families follow: no family behind position `k` has any influence. -/
theorem find_queue_families_least_segment (physicalDevice : VkPhysicalDevice) (k g p : Nat)
    (hgk : g ≤ k)
    (hg : graphics_capable_at physicalDevice.queueFamilyProperties g = true)
    (hglast : ∀ j, j ≤ k → g < j →
      graphics_capable_at physicalDevice.queueFamilyProperties j = false)
    (hpk : p ≤ k)
    (hp : present_capable_at physicalDevice.queueFamilyProperties p = true)
    (hplast : ∀ j, j ≤ k → p < j →
      present_capable_at physicalDevice.queueFamilyProperties j = false)
    (hleast : ∀ k2, k2 < k →
      ¬((∃ j, j ≤ k2 ∧ graphics_capable_at physicalDevice.queueFamilyProperties j = true) ∧
        (∃ j, j ≤ k2 ∧ present_capable_at physicalDevice.queueFamilyProperties j = true))) :
    find_queue_families physicalDevice = { graphics := some g, present := some p } ∧
      ∀ other : List queue_family,
        find_queue_families
            { physicalDevice with
              queueFamilyProperties :=
                physicalDevice.queueFamilyProperties.take (k + 1) ++ other } =
          { graphics := some g, present := some p } := by
  have hk : k < physicalDevice.queueFamilyProperties.length := by
    by_contra hcon
    have hglt := graphics_capable_at_lt _ _ hg
    have hplt := present_capable_at_lt _ _ hp
    exact hleast (physicalDevice.queueFamilyProperties.length - 1) (by omega)
      ⟨⟨g, by omega, hg⟩, ⟨p, by omega, hp⟩⟩
  have key : ∀ fs : List queue_family,
      (∀ j, j ≤ k → fs[j]? = physicalDevice.queueFamilyProperties[j]?) →
      find_queue_families_loop fs 0 {} = { graphics := some g, present := some p } := by
    intro fs hfs
    have hG : ∀ j, j ≤ k → graphics_capable_at fs j =
        graphics_capable_at physicalDevice.queueFamilyProperties j := by
      intro j hj
      unfold graphics_capable_at
      rw [hfs j hj]
    have hP : ∀ j, j ≤ k → present_capable_at fs j =
        present_capable_at physicalDevice.queueFamilyProperties j := by
      intro j hj
      unfold present_capable_at
      rw [hfs j hj]
    obtain ⟨g2, p2, hres, hcharG, hcharP⟩ := find_queue_families_loop_least fs 0 {} k
      ⟨Or.inr ⟨g, hgk, by rw [hG g hgk]; exact hg⟩, Or.inr ⟨p, hpk, by rw [hP p hpk]; exact hp⟩⟩
      (by
        intro k2 hk2 hboth
        refine hleast k2 hk2 ⟨?_, ?_⟩
        · rcases hboth.1 with h | ⟨j, hj, hcj⟩
          · simp at h
          · exact ⟨j, hj, by rw [← hG j (by omega)]; exact hcj⟩
        · rcases hboth.2 with h | ⟨j, hj, hcj⟩
          · simp at h
          · exact ⟨j, hj, by rw [← hP j (by omega)]; exact hcj⟩)
    have hg2 : g2 = some g :=
      last_capable_upto_unique (graphics_capable_at fs) k g g2 hgk (by rw [hG g hgk]; exact hg)
        (fun j hj hlt => by rw [hG j hj]; exact hglast j hj hlt) hcharG
    have hp2 : p2 = some p :=
      last_capable_upto_unique (present_capable_at fs) k p p2 hpk (by rw [hP p hpk]; exact hp)
        (fun j hj hlt => by rw [hP j hj]; exact hplast j hj hlt) hcharP
    rw [hres, hg2, hp2]
  constructor
  · unfold find_queue_families
    exact key _ (fun _ _ => rfl)
  · intro other
    unfold find_queue_families
    exact key _ (fun j hj => getElem?_take_append _ other k j hk hj)

/-- Claim C27 on a device with four families, graphics, graphics, present, both: the
assignment is complete at position 2, the graphics index is 1, the later of the two
graphics families, the present index is 2, and the fourth family plays no part. -/
theorem find_queue_families_least_segment_witness :
    1 ≤ 2 ∧ graphics_capable_at device_late_present.queueFamilyProperties 1 = true ∧
      (∀ j, j ≤ 2 → 1 < j →
        graphics_capable_at device_late_present.queueFamilyProperties j = false) ∧
      2 ≤ 2 ∧ present_capable_at device_late_present.queueFamilyProperties 2 = true ∧
      (∀ j, j ≤ 2 → 2 < j →
        present_capable_at device_late_present.queueFamilyProperties j = false) ∧
      (∀ k2, k2 < 2 →
        ¬((∃ j, j ≤ k2 ∧
            graphics_capable_at device_late_present.queueFamilyProperties j = true) ∧
          (∃ j, j ≤ k2 ∧
            present_capable_at device_late_present.queueFamilyProperties j = true))) ∧
      find_queue_families device_late_present = { graphics := some 1, present := some 2 } ∧
      ∀ other : List queue_family,
        find_queue_families
            { device_late_present with
              queueFamilyProperties :=
                device_late_present.queueFamilyProperties.take (2 + 1) ++ other } =
          { graphics := some 1, present := some 2 } :=
  ⟨by decide, by decide, by decide, by decide, by decide, by decide, by decide,
    find_queue_families_least_segment device_late_present 2 1 2 (by decide) (by decide)
      (by decide) (by decide) (by decide) (by decide) (by decide)⟩

/-! ## `push_back` (claim C28) -/

/-- On a vector that satisfies the class invariant and has a capacity other than zero,
`push_back` stays inside the storage: the size grows by one and does not exceed the
capacity, the value is at the last index and the elements stored before are where they
were. -/
theorem push_back_of_positive_capacity {T : Type} (self : vector T) (value : T)
    (hwf : self.well_formed) (hcap : 0 < self.m_capacity) :
    ∃ r : vector T, self.push_back value = outcome.defined r ∧ r.well_formed ∧
      r.m_size = self.m_size + 1 ∧ r.m_size ≤ r.m_capacity ∧
      r.get self.m_size = outcome.defined value ∧
      ∀ j, j < self.m_size → r.m_data[j]? = self.m_data[j]? := by
  obtain ⟨hlen, hsize⟩ := hwf
  unfold vector.push_back
  dsimp only
  by_cases hgrow : self.m_size + 1 > self.m_capacity
  · rw [if_pos hgrow]
    dsimp only
    have hlen2 : (List.take (self.m_size + 1 - 1) self.m_data ++
        List.replicate (self.m_capacity * 2 - (self.m_size + 1 - 1)) none).length =
        self.m_capacity * 2 := by
      simp only [List.length_append, List.length_take, List.length_replicate]
      omega
    have hidx : self.m_size + 1 - 1 < (List.take (self.m_size + 1 - 1) self.m_data ++
        List.replicate (self.m_capacity * 2 - (self.m_size + 1 - 1)) none).length := by
      rw [hlen2]
      omega
    rw [if_pos hidx]
    refine ⟨_, rfl, ⟨?_, ?_⟩, rfl, ?_, ?_, ?_⟩
    · simp only [List.length_set]
      exact hlen2
    · show self.m_size + 1 ≤ self.m_capacity * 2
      omega
    · show self.m_size + 1 ≤ self.m_capacity * 2
      omega
    · unfold vector.get
      simp only [Nat.add_sub_cancel] at hidx ⊢
      rw [List.getElem?_set_self hidx]
    · intro j hj
      simp only [Nat.add_sub_cancel]
      rw [List.getElem?_set_ne (by omega), List.getElem?_append_left (by
        rw [List.length_take]; omega), List.getElem?_take_of_lt hj]
  · rw [if_neg hgrow]
    dsimp only
    have hidx : self.m_size + 1 - 1 < self.m_data.length := by omega
    rw [if_pos hidx]
    refine ⟨_, rfl, ⟨?_, ?_⟩, rfl, ?_, ?_, ?_⟩
    · simp only [List.length_set]
      exact hlen
    · show self.m_size + 1 ≤ self.m_capacity
      omega
    · show self.m_size + 1 ≤ self.m_capacity
      omega
    · unfold vector.get
      simp only [Nat.add_sub_cancel] at hidx ⊢
      rw [List.getElem?_set_self hidx]
    · intro j hj
      simp only [Nat.add_sub_cancel]
      rw [List.getElem?_set_ne (by omega)]

/-- Claim C28 fails for the initial capacity 0.  A vector constructed with capacity 0
has size 0, capacity 0 and an array without elements; `push_back` increments the size to
1, doubles the capacity to 0, allocates an array without elements and writes
`m_data[0]`, outside that array: there is no defined result, and the size 1 is above the
capacity 0.  With the initial capacity 1 the same call stores the value at index 0. -/
theorem push_back_capacity_zero (T : Type) (value : T) :
    (vector.new 0 : vector T).m_size = 0 ∧ (vector.new 0 : vector T).m_capacity = 0 ∧
      (vector.new 0 : vector T).well_formed ∧
      (vector.new 0 : vector T).push_back value = outcome.undefined ∧
      ∃ r : vector T, (vector.new 1 : vector T).push_back value = outcome.defined r ∧
        r.m_size = 1 ∧ r.m_capacity = 1 ∧ r.get 0 = outcome.defined value := by
  refine ⟨rfl, rfl, vector_new_well_formed 0, rfl, _, rfl, rfl, rfl, rfl⟩

/-! ## `resize` (claim C29) -/

/-- On a vector that satisfies the class invariant `resize` sets the size, keeps it
within the capacity and leaves the elements below both sizes as they were; the elements
from the old size on are zero when the new size exceeds the capacity, and otherwise the
storage is left as it is. -/
theorem resize_spec (T : Type) (zero : T) (self : vector T) (new_size : Nat)
    (hwf : self.well_formed) :
    (self.resize zero new_size).m_size = new_size ∧
      (self.resize zero new_size).m_size ≤ (self.resize zero new_size).m_capacity ∧
      (∀ j, j < self.m_size → j < new_size →
        (self.resize zero new_size).m_data[j]? = self.m_data[j]?) ∧
      (self.m_capacity < new_size → ∀ j, self.m_size ≤ j → j < new_size →
        (self.resize zero new_size).get j = outcome.defined zero) ∧
      (new_size ≤ self.m_capacity → (self.resize zero new_size).m_data = self.m_data) := by
  obtain ⟨hlen, hsize⟩ := hwf
  unfold vector.resize
  by_cases hgrow : new_size > self.m_capacity
  · rw [if_pos hgrow]
    refine ⟨rfl, le_refl _, ?_, ?_, ?_⟩
    · intro j hj _
      dsimp only
      rw [List.getElem?_append_left (by rw [List.length_take]; omega),
        List.getElem?_take_of_lt hj]
    · intro _ j hj hjn
      unfold vector.get
      dsimp only
      rw [List.getElem?_append_right (by rw [List.length_take]; omega)]
      simp only [List.length_take]
      rw [List.getElem?_replicate]
      rw [if_pos (by omega)]
    · intro hle
      omega
  · rw [if_neg hgrow]
    refine ⟨rfl, not_lt.mp hgrow, ?_, ?_, ?_⟩
    · intro j _ _
      rfl
    · intro hlt
      omega
    · intro _
      rfl

/-- Claim C29 fails where the new size is within the capacity.  A vector constructed with
the default capacity 2 and resized to 2 has two elements that were never written, not
two zeros, and reading one has no defined result; a vector holding 5 and 6 that is
resized to 0 and then to 2 holds 5 and 6 again; only a new size above the capacity, here
3, gives zeros.  On the platform whose swapchain has two images and whose
`vkCreateImageView` fails, `create_swapchain` returns false with two image views that
were never written, and the destructor compares them with `VK_NULL_HANDLE`: the teardown
has no defined result.  With three images the image views were zeroed and the teardown
is defined. -/
theorem resize_within_capacity_not_zeroed :
    (vector.new vector.default_capacity : vector Nat).resize 0 2 =
        { m_data := [none, none], m_size := 2, m_capacity := 2 } ∧
      ((vector.new vector.default_capacity : vector Nat).resize 0 2).get 0 =
        outcome.undefined ∧
      ((vector_5_6.resize 0 0).resize 0 2).elements = [some 5, some 6] ∧
      ((vector.new vector.default_capacity : vector Nat).resize 0 3).elements =
        [some 0, some 0, some 0] ∧
      (create_with_window driver_two_images_no_view window_800_600
          debug_output.disabled).stages.getLast? =
        some (bringup_stage.swapchain, outcome.defined false) ∧
      (create_with_window driver_two_images_no_view window_800_600
          debug_output.disabled).returned = outcome.undefined ∧
      (create_with_window driver_three_images_no_view window_800_600
          debug_output.disabled).stages.getLast? =
        some (bringup_stage.swapchain, outcome.defined false) ∧
      (create_with_window driver_three_images_no_view window_800_600
          debug_output.disabled).returned = outcome.defined none := by
  decide

/-! ## `optional::operator!=` (claim C30) -/

/-- Claim C30 fails for two empty optionals: `has_value() != rhs.has_value()` is false,
so `value() != rhs.value()` is evaluated, and `value()` of an optional without a value
fails its assertion; there is no defined result.  In the three other cases the operator
is as claimed: the inequality of the two values when both are there, and true when
exactly one is there. -/
theorem optional_ne_spec (T : Type) [DecidableEq T] :
    optional.ne (none : optional T) none = outcome.undefined ∧
      (∀ a b : T, optional.ne (some a) (some b) = outcome.defined (decide (a ≠ b))) ∧
      (∀ a : T, optional.ne (some a) none = outcome.defined true) ∧
      (∀ b : T, optional.ne none (some b) = outcome.defined true) := by
  refine ⟨rfl, ?_, ?_, ?_⟩
  · intro a b
    rfl
  · intro a
    rfl
  · intro b
    rfl

end EngineExperiments
